import Mathlib

/-!
The SAMA5 UDPHS device controller driver (`sam_udphs.c`)

A shallow embedding of the endpoint engine of
`nuttx/arch/arm/src/sama5/sam_udphs.c` and theorems about it.

Conventions of the embedding

* The build modelled is the one without `CONFIG_DEBUG`, without
  `CONFIG_USBDEV_DMA` buffers and without `CONFIG_SAMA5_UDPHS_SCATTERGATHER`
  (the source undefines the latter itself).  `DEBUGASSERT` does not change
  control flow; a violated assertion is recorded in the ghost list
  `sam_usbdev_s.failed`.
* `struct sam_usbdev_s` becomes the record `sam_usbdev_s`; functions that
  take `priv` and mutate it return the new record.  An endpoint pointer
  `privep = &priv->eplist[i]` is passed as the index `i`.
* The intrusive request list `head/tail/flink` of an endpoint is the Lean
  list `sam_ep_s.queue`: `head` is its first element, `tail` its last one,
  and both are null exactly when the list is empty.
* `uint8_t`/`uint16_t` fields are natural numbers, reduced `% 2^w` where the
  C code stores into them; `int` locals are integers.
* Hardware registers that the driver reads are the record `sam_eptregs_s`
  (one per endpoint) and two device-wide bits; they are set by the hardware,
  that is, by the environment of the model.  Register writes and FIFO
  accesses are appended to the trace `sam_usbdev_s.hw`, except the device
  address field and address-enable bit of `UDPHS_CTRL`, which are state.
* Calls into the class driver and request completion callbacks are appended
  to `sam_usbdev_s.cls` and `sam_usbdev_s.done`.  What the class driver does
  inside a callback (for example submitting a new request) is a separate
  top-level call of the model.
* A loop that may spin for ever takes fuel and returns `none` when the fuel
  is used up.
-/

namespace Udphs

/-! ## Constants -/

/-- Modelled from the spec: errno values of `include/errno.h`, which is not
part of the sources at hand; only their being distinct and positive matters. -/
def ENOENT : Int := 2

/-- Modelled from the spec: `EIO` of `include/errno.h` (the spec's `IoError`). -/
def EIO : Int := 5

/-- Modelled from the spec: `EBUSY` of `include/errno.h` (the spec's `Busy`). -/
def EBUSY : Int := 16

/-- Modelled from the spec: `EINVAL` of `include/errno.h` (the spec's `ConfigError`). -/
def EINVAL : Int := 22

/-- Modelled from the spec: `EPROTO` of `include/errno.h` (the spec's `Protocol`). -/
def EPROTO : Int := 71

/-- Modelled from the spec: `ESHUTDOWN` of `include/errno.h` (the spec's `Shutdown`). -/
def ESHUTDOWN : Int := 108

/-- Modelled from the spec: `EINPROGRESS` of `include/errno.h`. -/
def EINPROGRESS : Int := 115

/-- The value of `OK`. -/
def OK : Int := 0

/-- The macro `EP0`. -/
def EP0 : Nat := 0

/-- The macro `SAM_EPSET_ALL`. -/
def SAM_EPSET_ALL : Nat := 0xffff

/-- The macro `SAM_EPSET_NOTEP0`. -/
def SAM_EPSET_NOTEP0 : Nat := 0xfffe

/-- The macro `SAM_EPSET_DMA`. -/
def SAM_EPSET_DMA : Nat := 0x00fe

/-- The macro `SAM_EP_BIT(ep)`, as an `int`. -/
def SAM_EP_BIT (ep : Nat) : Nat := 1 <<< ep

/-- The macro `SAM_EP0_MAXPACKET`. -/
def SAM_EP0_MAXPACKET : Nat := 64

/-- Modelled from the spec: `SAM_UDPHS_NENDPOINTS` of `chip/sam_udphs.h`, the
hardware endpoint count (16 on this chip). -/
def SAM_UDPHS_NENDPOINTS : Nat := 16

/-- Modelled from the spec: `USB_EPNO(addr)` of `nuttx/usb/usb.h`: the
endpoint number of an endpoint address, its low seven bits. -/
def USB_EPNO (addr : Nat) : Nat := addr &&& 0x7f

/-- Modelled from the spec: `USB_ISEPIN(addr)` of `nuttx/usb/usb.h`: bit 7 of
an endpoint address is the IN direction. -/
def USB_ISEPIN (addr : Nat) : Bool := addr &&& 0x80 == 0x80

/-- Modelled from the spec: `USBDEV_REQFLAGS_NULLPKT` of `nuttx/usb/usbdev.h`. -/
def USBDEV_REQFLAGS_NULLPKT : Nat := 1

/-! ## Data model -/

/-- The enumeration `enum sam_epstate_e`. -/
inductive sam_epstate_e
  | DISABLED
  | STALLED
  | IDLE
  | SENDING
  | RECEIVING
  | EP0DATAOUT
  | EP0STATUSIN
  | EP0ADDRESS
  deriving DecidableEq, Repr, Inhabited

/-- The enumeration `enum sam_devstate_e`. -/
inductive sam_devstate_e
  | SUSPENDED
  | ATTACHED
  | POWERED
  | DEFAULT
  | ADDRESS
  | CONFIGURED
  deriving DecidableEq, Repr, Inhabited

/-- The enumeration `enum sam_ep0setup_e`. -/
inductive sam_ep0setup_e
  | SUCCESS
  | DISPATCHED
  | ADDRESS
  | STALL
  deriving DecidableEq, Repr, Inhabited

/-- The record `struct sam_req_s` with the fields of the embedded
`struct usbdev_req_s` that the driver uses.  `id` stands for the address of
the request object; `buf` is the memory starting at `req.buf`. -/
structure sam_req_s where
  id : Nat
  buf : List Nat
  len : Nat
  xfrd : Nat
  result : Int
  flags : Nat
  inflight : Nat
  deriving DecidableEq, Repr, Inhabited

/-- The record `struct sam_ep_s`.  `queue` is the request list `head .. tail`. -/
structure sam_ep_s where
  eplog : Nat
  maxpacket : Nat
  queue : List sam_req_s
  epstate : sam_epstate_e
  bank : Nat
  stalled : Bool
  halted : Bool
  txnullpkt : Bool
  deriving DecidableEq, Repr, Inhabited

/-- The record `struct usb_ctrlreq_s`, the last SETUP packet; the three
16-bit fields are held as their `GETUINT16` values. -/
structure usb_ctrlreq_s where
  type : Nat
  req : Nat
  value : Nat
  index : Nat
  len : Nat
  deriving DecidableEq, Repr, Inhabited

/-- The endpoint registers as the hardware presents them to a read:
`UDPHS_EPTCTL` (TXRDY interrupt enabled), `UDPHS_EPTSTA` (TXRDY,
RXRDYTXKL, STALLSNT, RXSETUP, FRCESTALL, BYTECNT), `UDPHS_EPTCFG` (type and
MAPD), the DMA status register (ENDBFST, ENDTRST, BUFCNT) and the bytes in
the endpoint's FIFO window. -/
structure sam_eptregs_s where
  eptctl_txrdy : Bool
  sta_txrdy : Bool
  sta_rxrdytxkl : Bool
  sta_stallsnt : Bool
  sta_rxsetup : Bool
  sta_frcestall : Bool
  sta_bytecnt : Nat
  cfg_type : Nat
  cfg_mapd : Bool
  dma_endbfst : Bool
  dma_endtrst : Bool
  dma_bufcnt : Nat
  fifo : List Nat
  deriving DecidableEq, Repr, Inhabited

/-- A register write or FIFO access of the driver, in the order of the
source.  `epno` is the endpoint whose register is written. -/
inductive sam_hwop_e
  | fifo_write (epno : Nat) (data : List Nat)
  | fifo_read (epno : Nat) (nbytes : Nat)
  | dma_single (epno : Nat) (buflen : Nat)
  | ien_set_ept (epno : Nat)
  | ien_set_dma (epno : Nat)
  | ien_clr_ept (epno : Nat)
  | ien_clr_dma (epno : Nat)
  | eptctlenb_txrdy (epno : Nat)
  | eptctlenb_rxrdytxkl (epno : Nat)
  | eptctldis_txrdy (epno : Nat)
  | eptctldis_rxrdytxkl (epno : Nat)
  | eptctldis_all (epno : Nat)
  | eptctlenb_enable (epno : Nat) (control : Bool)
  | eptsetsta_txrdy (epno : Nat)
  | eptsetsta_frcestall (epno : Nat)
  | eptclrsta_rxrdytxkl (epno : Nat)
  | eptclrsta_stallsnt (epno : Nat)
  | eptclrsta_frcestall (epno : Nat)
  | eptclrsta_rxsetup (epno : Nat)
  | eptclrsta_togglesq_frcestall (epno : Nat)
  | eptrst (epno : Nat)
  | eptcfg (epno : Nat) (size : Nat) (dirin : Bool) (eptype : Nat) (bank : Nat) (nbtrans : Nat)
  | enableclk
  | disableclk
  | dmacontrol_clr_endtren_endben (epno : Nat)
  deriving DecidableEq, Repr, Inhabited

/-- A call into the bound class driver or the board logic. -/
inductive sam_class_e
  | setup (ctrl : usb_ctrlreq_s) (dataout : List Nat)
  | disconnect
  | suspend
  | resume
  | usbsuspend (resume : Bool)
  deriving DecidableEq, Repr, Inhabited

/-- The `DEBUGASSERT` sites of the modelled functions. -/
inductive sam_assert_e
  | req_complete_state
  | ep_interrupt_epno
  | ep_interrupt_privreq
  | ep_interrupt_ep0len
  | dma_interrupt_epno
  | dma_interrupt_privreq
  | dma_single_epno
  | ep_stall_idle
  | ep_configure_size
  deriving DecidableEq, Repr, Inhabited

/-- The bound class driver `struct usbdevclass_driver_s`: the value its
`setup` method returns for a control request and its OUT data. -/
structure usbdevclass_driver_s where
  setup : usb_ctrlreq_s → List Nat → Int

/-- The record `struct sam_usbdev_s` together with the hardware the driver
talks to and the ghost traces of the embedding. -/
structure sam_usbdev_s where
  driver : Option usbdevclass_driver_s
  ctrl : usb_ctrlreq_s
  devstate : sam_devstate_e
  prevstate : sam_devstate_e
  devaddr : Nat
  rxpending : Bool
  selfpowered : Bool
  epavail : Nat
  eplist : Nat → sam_ep_s
  ep0out : List Nat
  speed_full : Bool
  /-- The DEV_ADDR field of `UDPHS_CTRL`. -/
  ctrl_devaddr : Nat
  /-- The FADDR_EN bit of `UDPHS_CTRL`. -/
  ctrl_faddren : Bool
  /-- The SPEED bit (high speed) of `UDPHS_INTSTA`. -/
  intsta_speed : Bool
  /-- What the endpoint registers read as. -/
  regs : Nat → sam_eptregs_s
  /-- Register writes and FIFO accesses so far, oldest first. -/
  hw : List sam_hwop_e
  /-- Completion callbacks so far, oldest first: endpoint index and the
  request as the callback sees it. -/
  done : List (Nat × sam_req_s)
  /-- Calls into the class driver so far, oldest first. -/
  cls : List sam_class_e
  /-- Violated `DEBUGASSERT`s so far, oldest first. -/
  failed : List sam_assert_e
  /-- The macro `SAM_UDPHS_NBANKS(epno)` of `chip/sam_udphs.h`, the number of
  FIFO banks of each endpoint of the chip. -/
  nbanks : Nat → Nat

/-- The endpoint `priv->eplist[i]` replaced by `ep`. -/
def sam_usbdev_s.setep (priv : sam_usbdev_s) (i : Nat) (ep : sam_ep_s) : sam_usbdev_s :=
  { priv with eplist := Function.update priv.eplist i ep }

/-- One more register write or FIFO access. -/
def sam_usbdev_s.putreg (priv : sam_usbdev_s) (op : sam_hwop_e) : sam_usbdev_s :=
  { priv with hw := priv.hw ++ [op] }

/-- A `DEBUGASSERT(c)`. -/
def sam_usbdev_s.debugassert (priv : sam_usbdev_s) (c : Bool) (site : sam_assert_e) :
    sam_usbdev_s :=
  if c then priv else { priv with failed := priv.failed ++ [site] }

/-- The macro `sam_rqempty(ep)`. -/
def sam_rqempty (ep : sam_ep_s) : Bool := ep.queue.isEmpty

/-- The macro `sam_rqpeek(ep)`. -/
def sam_rqpeek (ep : sam_ep_s) : Option sam_req_s := ep.queue.head?

/-- The pointer `privep->tail`. -/
def sam_rqtail (ep : sam_ep_s) : Option sam_req_s := ep.queue.getLast?

/-! ## Request helpers -/

/-- The function `sam_req_dequeue`: unlink and return the head request. -/
def sam_req_dequeue (ep : sam_ep_s) : Option sam_req_s × sam_ep_s :=
  match ep.queue with
  | [] => (none, ep)
  | ret :: rest => (some ret, { ep with queue := rest })

/-- The function `sam_req_enqueue`: link a request at the tail. -/
def sam_req_enqueue (ep : sam_ep_s) (req : sam_req_s) : sam_ep_s :=
  { ep with queue := ep.queue ++ [req] }

/-- The function `sam_req_abort`: store the result and call the completion
callback of a request that is not queued. -/
def sam_req_abort (priv : sam_usbdev_s) (i : Nat) (privreq : sam_req_s) (result : Int) :
    sam_usbdev_s :=
  { priv with done := priv.done ++ [(i, { privreq with result := result })] }

/-- The function `sam_req_complete`: dequeue the head request, if any, call
its completion callback with `result`, and put the endpoint in `IDLE`. -/
def sam_req_complete (priv : sam_usbdev_s) (i : Nat) (result : Int) : sam_usbdev_s :=
  match sam_req_dequeue (priv.eplist i) with
  | (none, _) => priv
  | (some privreq, ep) =>
    let priv := priv.setep i ep
    let priv := priv.debugassert
      (ep.epstate = sam_epstate_e.RECEIVING || ep.epstate = sam_epstate_e.SENDING)
      sam_assert_e.req_complete_state
    let priv := { priv with done := priv.done ++ [(i, { privreq with result := result })] }
    priv.setep i { priv.eplist i with epstate := sam_epstate_e.IDLE, txnullpkt := false }

/-- The loop of `sam_req_cancel`: `while (!sam_rqempty(privep))
sam_req_complete(privep, -ESHUTDOWN)`.  Every pass removes one request, so
`n` passes are enough for a queue of `n` requests. -/
def sam_req_cancel_loop : Nat → sam_usbdev_s → Nat → sam_usbdev_s
  | 0, priv, _ => priv
  | n + 1, priv, i =>
    if !sam_rqempty (priv.eplist i) then
      sam_req_cancel_loop n (sam_req_complete priv i (-ESHUTDOWN)) i
    else priv

/-- The function `sam_req_cancel`: disable the DMA interrupt of the endpoint
and complete every queued request with `-ESHUTDOWN`. -/
def sam_req_cancel (priv : sam_usbdev_s) (i : Nat) : sam_usbdev_s :=
  let epno := USB_EPNO (priv.eplist i).eplog
  let priv := priv.putreg (sam_hwop_e.ien_clr_dma epno)
  sam_req_cancel_loop (priv.eplist i).queue.length priv i

/-- The head request `*privreq` of the endpoint replaced by `r`. -/
def sam_ep_s.sethead (ep : sam_ep_s) (r : sam_req_s) : sam_ep_s :=
  match ep.queue with
  | [] => ep
  | _ :: rest => { ep with queue := r :: rest }

/-- The byte `m[k]` of a memory region or FIFO window. -/
def peek (m : List Nat) (k : Nat) : Nat := m.getD k 0

/-- The store `m[k] = v` into the memory that starts with the bytes `m`; a
store beyond the bytes listed so far lengthens the list, so that it
remains visible. -/
def poke (m : List Nat) (k : Nat) (v : Nat) : List Nat :=
  if k < m.length then m.set k v else m ++ List.replicate (k - m.length) 0 ++ [v]

/-- The copy loop `for (; n > 0; n--) *dest++ = *src++` with `dest = m + at`
and `src = src + from`. -/
def copyin : Nat → List Nat → Nat → List Nat → Nat → List Nat
  | 0, m, _, _, _ => m
  | n + 1, m, dst, src, k => copyin n (poke m dst (peek src k)) (dst + 1) src (k + 1)

/-- The bytes `src[k] .. src[k+n-1]` that a copy loop reads. -/
def copyout (src : List Nat) (k n : Nat) : List Nat :=
  (List.range n).map (fun j => peek src (k + j))

/-- Whether the endpoint number is in `SAM_EPSET_DMA`. -/
def sam_ep_isdma (epno : Nat) : Bool := SAM_EPSET_DMA &&& SAM_EP_BIT epno != 0

/-- The function `sam_dma_single`: program and start one DMA transfer of
`privreq->inflight` bytes (the writes to DMAADDRESS, IEN and DMACONTROL). -/
def sam_dma_single (priv : sam_usbdev_s) (epno : Nat) (privreq : sam_req_s) : sam_usbdev_s :=
  let priv := priv.debugassert (sam_ep_isdma epno) sam_assert_e.dma_single_epno
  let priv := priv.putreg (sam_hwop_e.ien_set_dma epno)
  priv.putreg (sam_hwop_e.dma_single epno privreq.inflight)

/-- The function `sam_req_wrdma`; `privreq` is the head request of endpoint
`i`.  The clipping to `DMA_MAX_FIFO_SIZE` is compiled out, since a request
length is a `uint16_t`. -/
def sam_req_wrdma (priv : sam_usbdev_s) (i : Nat) (privreq : sam_req_s) : sam_usbdev_s × Int :=
  let privep := priv.eplist i
  if privep.epstate ≠ sam_epstate_e.IDLE then (priv, -EBUSY)
  else
    let privreq := { privreq with inflight := 0 }
    let epno := USB_EPNO privep.eplog
    let remaining : Int := (privreq.len : Int) - privreq.xfrd - privreq.inflight
    if remaining > 0 then
      let privreq := { privreq with inflight := remaining.toNat % 65536 }
      let privep := { privep with epstate := sam_epstate_e.SENDING }.sethead privreq
      (sam_dma_single (priv.setep i privep) epno privreq, OK)
    else
      let privep := { privep with epstate := sam_epstate_e.SENDING }.sethead privreq
      let priv := (priv.setep i privep).putreg (sam_hwop_e.ien_set_ept epno)
      (priv.putreg (sam_hwop_e.eptctlenb_txrdy epno), OK)

/-- The function `sam_req_rddma`; `privreq` is the head request of endpoint `i`. -/
def sam_req_rddma (priv : sam_usbdev_s) (i : Nat) (privreq : sam_req_s) : sam_usbdev_s × Int :=
  let privep := priv.eplist i
  if privep.epstate ≠ sam_epstate_e.IDLE then (priv, -EBUSY)
  else
    let epno := USB_EPNO privep.eplog
    let privep := { privep with epstate := sam_epstate_e.RECEIVING, txnullpkt := false }
    let privreq := { privreq with inflight := 0, xfrd := 0 }
    let remaining : Int := (privreq.len : Int) - privreq.xfrd
    if remaining > 0 then
      let privreq := { privreq with inflight := remaining.toNat % 65536 }
      (sam_dma_single (priv.setep i (privep.sethead privreq)) epno privreq, OK)
    else
      let priv := (priv.setep i (privep.sethead privreq)).putreg (sam_hwop_e.ien_set_ept epno)
      (priv.putreg (sam_hwop_e.eptctlenb_rxrdytxkl epno), OK)

/-- The function `sam_req_wrnodma`; `privreq` is the head request of
endpoint `i`. -/
def sam_req_wrnodma (priv : sam_usbdev_s) (i : Nat) (privreq : sam_req_s) : sam_usbdev_s × Int :=
  let privep := priv.eplist i
  let epno := USB_EPNO privep.eplog
  let committed : Int := (privreq.xfrd : Int) + privreq.inflight
  let bytesleft : Int := (privreq.len : Int) - committed
  let privep := { privep with txnullpkt := false }
  let nbytes : Int := bytesleft
  if nbytes > 0 then
    let full : Bool := nbytes ≥ (privep.maxpacket : Int)
    let nbytes : Int := if full then (privep.maxpacket : Int) else nbytes
    let privep :=
      if full && (bytesleft == (privep.maxpacket : Int)
          && privreq.flags &&& USBDEV_REQFLAGS_NULLPKT != 0)
      then { privep with txnullpkt := true } else privep
    let privreq := { privreq with inflight := (privreq.inflight + nbytes.toNat) % 65536 }
    let priv := priv.putreg
      (sam_hwop_e.fifo_write epno (copyout privreq.buf committed.toNat nbytes.toNat))
    let privep := { privep with epstate := sam_epstate_e.SENDING }
    (priv.setep i (privep.sethead privreq), OK)
  else
    (priv.setep i privep, OK)

/-- The statement `while (privep->epstate == UDPHS_EPSTATE_IDLE);` that
opens `sam_req_write`: an empty loop body, so nothing changes the state that
is tested; it ends only when the endpoint is not `IDLE`. -/
def sam_req_write_wait : Nat → sam_epstate_e → Option Unit
  | 0, _ => none
  | n + 1, st => if st = sam_epstate_e.IDLE then sam_req_write_wait n st else some ()

/-- The block of `sam_req_write` that follows its `while` statement. -/
def sam_req_write_block (priv : sam_usbdev_s) (i : Nat) : sam_usbdev_s × Int :=
  match sam_rqpeek (priv.eplist i) with
  | none => (priv, -ENOENT)
  | some privreq =>
    let epno := USB_EPNO (priv.eplist i).eplog
    let privreq :=
      if privreq.inflight ≠ 0 then
        { privreq with xfrd := (privreq.xfrd + privreq.inflight) % 65536, inflight := 0 }
      else privreq
    let priv := priv.setep i ((priv.eplist i).sethead privreq)
    let bytesleft : Int := (privreq.len : Int) - privreq.xfrd
    let step : sam_usbdev_s × Int :=
      if bytesleft > 0 then
        let nullpkt : Bool := bytesleft == ((priv.eplist i).maxpacket : Int)
          && privreq.flags &&& USBDEV_REQFLAGS_NULLPKT != 0
        let priv := priv.setep i { priv.eplist i with txnullpkt := nullpkt }
        if sam_ep_isdma epno then sam_req_wrdma priv i privreq
        else sam_req_wrnodma priv i privreq
      else if (priv.eplist i).txnullpkt then
        let privep := { priv.eplist i with epstate := sam_epstate_e.SENDING, txnullpkt := false }
        let priv := priv.setep i (privep.sethead { privreq with inflight := 0 })
        (priv.putreg (sam_hwop_e.eptsetsta_txrdy epno), OK)
      else (priv, OK)
    if step.2 < 0 then step
    else
      let priv := step.1
      match sam_rqpeek (priv.eplist i) with
      | none => (priv, OK)
      | some privreq =>
        if privreq.len ≥ privreq.xfrd && (priv.eplist i).epstate = sam_epstate_e.IDLE then
          let priv :=
            if (priv.regs epno).cfg_type ≠ 0 then priv.putreg (sam_hwop_e.ien_clr_ept epno)
            else priv
          let priv := priv.putreg (sam_hwop_e.eptctldis_txrdy epno)
          let priv := priv.setep i { priv.eplist i with txnullpkt := false }
          (sam_req_complete priv i OK, OK)
        else (priv, OK)

/-- The function `sam_req_write`: the `while` statement, then the block. -/
def sam_req_write (fuel : Nat) (priv : sam_usbdev_s) (i : Nat) : Option (sam_usbdev_s × Int) :=
  match sam_req_write_wait fuel (priv.eplist i).epstate with
  | none => none
  | some _ => some (sam_req_write_block priv i)

/-- The function `sam_req_rdnodma`; `privreq` is the head request of
endpoint `i`. -/
def sam_req_rdnodma (priv : sam_usbdev_s) (i : Nat) (privreq : sam_req_s) (pktsize : Nat) :
    sam_usbdev_s × Int :=
  let privep := { priv.eplist i with epstate := sam_epstate_e.IDLE }
  let privreq := { privreq with inflight := 0 }
  let remaining : Int := (privreq.len : Int) - privreq.xfrd
  let readlen : Int := if remaining < (pktsize : Int) then remaining else (pktsize : Int)
  let privreq := { privreq with xfrd := (((privreq.xfrd : Int) + readlen) % 65536).toNat }
  let epno := USB_EPNO privep.eplog
  let priv :=
    if readlen > 0 then priv.putreg (sam_hwop_e.fifo_read epno readlen.toNat) else priv
  let privreq :=
    { privreq with buf := copyin readlen.toNat privreq.buf privreq.xfrd (priv.regs epno).fifo 0 }
  (priv.setep i (privep.sethead privreq), OK)

/-- The function `sam_req_read`. -/
def sam_req_read (priv : sam_usbdev_s) (i : Nat) (pktsize : Nat) : sam_usbdev_s × Int :=
  let epno := USB_EPNO (priv.eplist i).eplog
  match sam_rqpeek (priv.eplist i) with
  | none => ({ priv with rxpending := true }, -ENOENT)
  | some privreq =>
    if privreq.len = 0 then (sam_req_complete priv i OK, OK)
    else
      let step :=
        if sam_ep_isdma epno then sam_req_rddma priv i privreq
        else sam_req_rdnodma priv i privreq pktsize
      let priv := step.1
      if step.2 = OK then
        match sam_rqpeek (priv.eplist i) with
        | none => (priv, OK)
        | some privreq =>
          if privreq.inflight < (priv.eplist i).maxpacket || privreq.xfrd ≥ privreq.len then
            let priv := priv.putreg (sam_hwop_e.eptctldis_rxrdytxkl epno)
            let priv :=
              if (priv.regs epno).cfg_type ≠ 0 then priv.putreg (sam_hwop_e.ien_clr_ept epno)
              else priv
            let priv := priv.setep i { priv.eplist i with epstate := sam_epstate_e.IDLE }
            (sam_req_complete priv i OK, OK)
          else (priv, OK)
      else (priv, OK)

/-! ## Endpoint 0 and interrupt level processing -/

/-- Modelled from the spec: the standard request codes of `nuttx/usb/usb.h`
(USB 2.0, table 9-4). -/
def USB_REQ_GETSTATUS : Nat := 0

/-- Modelled from the spec: request code `CLEAR_FEATURE` of `nuttx/usb/usb.h`. -/
def USB_REQ_CLEARFEATURE : Nat := 1

/-- Modelled from the spec: request code `SET_FEATURE` of `nuttx/usb/usb.h`. -/
def USB_REQ_SETFEATURE : Nat := 3

/-- Modelled from the spec: request code `SET_ADDRESS` of `nuttx/usb/usb.h`. -/
def USB_REQ_SETADDRESS : Nat := 5

/-- Modelled from the spec: request code `GET_DESCRIPTOR` of `nuttx/usb/usb.h`. -/
def USB_REQ_GETDESCRIPTOR : Nat := 6

/-- Modelled from the spec: request code `SET_DESCRIPTOR` of `nuttx/usb/usb.h`. -/
def USB_REQ_SETDESCRIPTOR : Nat := 7

/-- Modelled from the spec: request code `GET_CONFIGURATION` of `nuttx/usb/usb.h`. -/
def USB_REQ_GETCONFIGURATION : Nat := 8

/-- Modelled from the spec: request code `SET_CONFIGURATION` of `nuttx/usb/usb.h`. -/
def USB_REQ_SETCONFIGURATION : Nat := 9

/-- Modelled from the spec: request code `GET_INTERFACE` of `nuttx/usb/usb.h`. -/
def USB_REQ_GETINTERFACE : Nat := 10

/-- Modelled from the spec: request code `SET_INTERFACE` of `nuttx/usb/usb.h`. -/
def USB_REQ_SETINTERFACE : Nat := 11

/-- Modelled from the spec: request code `SYNCH_FRAME` of `nuttx/usb/usb.h`. -/
def USB_REQ_SYNCHFRAME : Nat := 12

/-- Modelled from the spec: `USB_REQ_TYPE_MASK` of `nuttx/usb/usb.h`, bits 6:5
of the request type. -/
def USB_REQ_TYPE_MASK : Nat := 0x60

/-- Modelled from the spec: `USB_REQ_TYPE_SHIFT` of `nuttx/usb/usb.h`. -/
def USB_REQ_TYPE_SHIFT : Nat := 5

/-- Modelled from the spec: `USB_REQ_TYPE_STANDARD` of `nuttx/usb/usb.h`. -/
def USB_REQ_TYPE_STANDARD : Nat := 0

/-- Modelled from the spec: `USB_REQ_RECIPIENT_MASK` of `nuttx/usb/usb.h`, bits
4:0 of the request type. -/
def USB_REQ_RECIPIENT_MASK : Nat := 0x1f

/-- Modelled from the spec: `USB_REQ_RECIPIENT_DEVICE` of `nuttx/usb/usb.h`. -/
def USB_REQ_RECIPIENT_DEVICE : Nat := 0

/-- Modelled from the spec: `USB_REQ_RECIPIENT_INTERFACE` of `nuttx/usb/usb.h`. -/
def USB_REQ_RECIPIENT_INTERFACE : Nat := 1

/-- Modelled from the spec: `USB_REQ_RECIPIENT_ENDPOINT` of `nuttx/usb/usb.h`. -/
def USB_REQ_RECIPIENT_ENDPOINT : Nat := 2

/-- Modelled from the spec: `USB_REQ_DIR_IN` (and `USB_DIR_MASK`, `USB_DIR_IN`)
of `nuttx/usb/usb.h`, bit 7. -/
def USB_REQ_DIR_IN : Nat := 0x80

/-- Modelled from the spec: `USB_REQ_ISOUT(type)` of `nuttx/usb/usb.h`. -/
def USB_REQ_ISOUT (type : Nat) : Bool := type &&& USB_REQ_DIR_IN == 0

/-- Modelled from the spec: `USB_FEATURE_ENDPOINTHALT` of `nuttx/usb/usb.h`. -/
def USB_FEATURE_ENDPOINTHALT : Nat := 0

/-- Modelled from the spec: `USB_FEATURE_SELFPOWERED` of `nuttx/usb/usb.h`. -/
def USB_FEATURE_SELFPOWERED : Nat := 0

/-- Modelled from the spec: `USB_FEATURE_REMOTEWAKEUP` of `nuttx/usb/usb.h`. -/
def USB_FEATURE_REMOTEWAKEUP : Nat := 1

/-- Modelled from the spec: `USB_FEATURE_TESTMODE` of `nuttx/usb/usb.h`. -/
def USB_FEATURE_TESTMODE : Nat := 2

/-- Modelled from the spec: `USB_SIZEOF_CTRLREQ` of `nuttx/usb/usb.h`, the
eight bytes of a SETUP packet. -/
def USB_SIZEOF_CTRLREQ : Nat := 8

/-- Modelled from the spec: the TYPE field value `UDPHS_EPTCFG_TYPE_CTRL8` of
`chip/sam_udphs.h`. -/
def UDPHS_EPTCFG_TYPE_CTRL8 : Nat := 0

/-- Modelled from the spec: the TYPE field value `UDPHS_EPTCFG_TYPE_ISO` of
`chip/sam_udphs.h`. -/
def UDPHS_EPTCFG_TYPE_ISO : Nat := 1

/-- The byte `w.b[LSB]` of a `union wb_u` (little endian). -/
def wb_lsb (w : Nat) : Nat := w % 256

/-- The byte `w.b[MSB]` of a `union wb_u` (little endian). -/
def wb_msb (w : Nat) : Nat := w / 256 % 256

/-- The function `sam_ep0_read` with `priv->ep0out` as its buffer: copy
`buflen` bytes from the FIFO of endpoint 0. -/
def sam_ep0_read_ep0out (priv : sam_usbdev_s) (buflen : Nat) : sam_usbdev_s :=
  let priv := if buflen > 0 then priv.putreg (sam_hwop_e.fifo_read 0 buflen) else priv
  { priv with ep0out := copyin buflen priv.ep0out 0 (priv.regs 0).fifo 0 }

/-- The function `sam_ep0_read` with `&priv->ctrl` as its buffer: the eight
bytes of the SETUP packet, read from the FIFO of endpoint 0. -/
def sam_ep0_read_ctrl (priv : sam_usbdev_s) : sam_usbdev_s :=
  let f := (priv.regs 0).fifo
  let priv := priv.putreg (sam_hwop_e.fifo_read 0 USB_SIZEOF_CTRLREQ)
  { priv with ctrl :=
      { type := peek f 0, req := peek f 1, value := peek f 3 * 256 + peek f 2,
        index := peek f 5 * 256 + peek f 4, len := peek f 7 * 256 + peek f 6 } }

/-- The function `sam_ep0_wrstatus`: copy `buflen` bytes of the response
into the FIFO of endpoint 0. -/
def sam_ep0_wrstatus (priv : sam_usbdev_s) (buffer : List Nat) (buflen : Nat) : sam_usbdev_s :=
  if buflen > 0 then priv.putreg (sam_hwop_e.fifo_write 0 (copyout buffer 0 buflen)) else priv

/-- The function `sam_setdevaddr`. -/
def sam_setdevaddr (priv : sam_usbdev_s) (address : Nat) : sam_usbdev_s :=
  if address ≠ 0 then
    { priv with ctrl_devaddr := address &&& 0x7f, ctrl_faddren := true,
                devstate := sam_devstate_e.ADDRESS }
  else
    { priv with ctrl_faddren := false, devstate := sam_devstate_e.DEFAULT }

/-- The function `sam_ep_stall` on the endpoint `priv->eplist[i]`. -/
def sam_ep_stall (fuel : Nat) (priv : sam_usbdev_s) (i : Nat) (resume : Bool) :
    Option (sam_usbdev_s × Int) :=
  let priv := priv.debugassert ((priv.eplist i).epstate = sam_epstate_e.IDLE)
    sam_assert_e.ep_stall_idle
  let epno := USB_EPNO (priv.eplist i).eplog
  if resume then
    if (priv.eplist i).epstate = sam_epstate_e.STALLED then
      let priv := priv.setep i
        { priv.eplist i with stalled := false, epstate := sam_epstate_e.IDLE }
      let priv := priv.putreg (sam_hwop_e.eptclrsta_togglesq_frcestall epno)
      let priv := priv.putreg (sam_hwop_e.eptrst epno)
      if USB_ISEPIN (priv.eplist i).eplog then
        match sam_req_write fuel priv i with
        | none => none
        | some r => some (r.1, OK)
      else some (priv, OK)
    else some (priv, OK)
  else
    if (priv.eplist i).epstate ≠ sam_epstate_e.DISABLED
        ∧ (priv.eplist i).epstate ≠ sam_epstate_e.STALLED then
      let priv := sam_req_complete priv i (- EIO)
      let priv := priv.setep i
        { priv.eplist i with epstate := sam_epstate_e.STALLED, stalled := true }
      let priv := priv.putreg (sam_hwop_e.eptsetsta_frcestall epno)
      let priv :=
        if sam_ep_isdma epno then priv.putreg (sam_hwop_e.ien_clr_dma epno)
        else priv.putreg (sam_hwop_e.ien_clr_ept epno)
      some (priv, OK)
    else some (priv, OK)

/-- The function `sam_ep0_dispatch`: forward the control request to the
class driver and, when it fails, call `sam_ep_stall(ep0, true)`. -/
def sam_ep0_dispatch (fuel : Nat) (priv : sam_usbdev_s) : Option sam_usbdev_s :=
  match priv.driver with
  | none => some priv
  | some driver =>
    let dataout : List Nat :=
      if USB_REQ_ISOUT priv.ctrl.type && priv.ctrl.len > 0 then
        copyout priv.ep0out 0 priv.ctrl.len
      else []
    let ret := driver.setup priv.ctrl dataout
    let priv := { priv with cls := priv.cls ++ [sam_class_e.setup priv.ctrl dataout] }
    if ret < 0 then
      match sam_ep_stall fuel priv EP0 true with
      | none => none
      | some r => some r.1
    else some priv

/-- The local `result` of a pass of the loop that opens `sam_ep0_setup`:
`OK`, or `-EPROTO` when `privreq->req.xfrd != privreq->req.len`. -/
def sam_ep0_setup_termresult (privreq : Option sam_req_s) : Int :=
  match privreq with
  | some r => if r.xfrd ≠ r.len then -EPROTO else OK
  | none => OK

/-- The loop that opens `sam_ep0_setup`: `while (!sam_rqempty(ep0))`, every
pending request of endpoint 0 is completed.  `privreq` was read from the
head of the queue once, before the loop, so the result of every pass is
computed from that request. -/
def sam_ep0_setup_terminate : Nat → sam_usbdev_s → Option sam_req_s → sam_usbdev_s
  | 0, priv, _ => priv
  | n + 1, priv, privreq =>
    if !sam_rqempty (priv.eplist EP0) then
      sam_ep0_setup_terminate n (sam_req_complete priv EP0 (sam_ep0_setup_termresult privreq))
        privreq
    else priv

/-- What the `switch (priv->ctrl.req)` of `sam_ep0_setup` leaves behind: the
device, `ep0result`, the response word and `nbytes`. -/
structure sam_ep0_decoded_s where
  priv : sam_usbdev_s
  ep0result : sam_ep0setup_e
  response : Nat
  nbytes : Nat

/-- The outcome `ep0result = UDPHS_EP0SETUP_STALL` of a case of the
`switch`: nothing else is changed. -/
def sam_ep0_stall (priv : sam_usbdev_s) : Option sam_ep0_decoded_s :=
  some ⟨priv, sam_ep0setup_e.STALL, 0, 0⟩

/-- The statements `sam_ep0_dispatch(priv); ep0result =
UDPHS_EP0SETUP_DISPATCHED;` of a case of the `switch`. -/
def sam_ep0_dispatched (fuel : Nat) (priv : sam_usbdev_s) : Option sam_ep0_decoded_s :=
  match sam_ep0_dispatch fuel priv with
  | none => none
  | some priv => some ⟨priv, sam_ep0setup_e.DISPATCHED, 0, 0⟩

/-- The statements `ret = sam_ep_stall(&privep->ep, resume); if (ret < 0)
ep0result = UDPHS_EP0SETUP_STALL;` of the feature cases of the `switch`. -/
def sam_ep0_feature (fuel : Nat) (priv : sam_usbdev_s) (epno : Nat) (resume : Bool) :
    Option sam_ep0_decoded_s :=
  match sam_ep_stall fuel priv epno resume with
  | none => none
  | some r => some ⟨r.1, if r.2 < 0 then sam_ep0setup_e.STALL else sam_ep0setup_e.SUCCESS, 0, 0⟩

/-- The `case USB_REQ_GETSTATUS` of the `switch` of `sam_ep0_setup`. -/
def sam_ep0_getstatus (priv : sam_usbdev_s) : Option sam_ep0_decoded_s :=
  let value := priv.ctrl.value
  let index := priv.ctrl.index
  let len := priv.ctrl.len
  let type := priv.ctrl.type
  let recipient := type &&& USB_REQ_RECIPIENT_MASK
  if len ≠ 2 ∨ type &&& USB_REQ_DIR_IN = 0 ∨ wb_msb index ≠ 0 ∨ value ≠ 0 then
    sam_ep0_stall priv
  else if recipient = USB_REQ_RECIPIENT_ENDPOINT then
    let epno := USB_EPNO (wb_lsb index)
    if epno ≥ SAM_UDPHS_NENDPOINTS then sam_ep0_stall priv
    else
      some ⟨priv, sam_ep0setup_e.SUCCESS, if (priv.eplist epno).stalled then 1 else 0, 2⟩
  else if recipient = USB_REQ_RECIPIENT_DEVICE then
    if index = 0 then
      some ⟨priv, sam_ep0setup_e.SUCCESS,
        ((if priv.selfpowered then 1 else 0) <<< USB_FEATURE_SELFPOWERED)
          ||| (1 <<< USB_FEATURE_REMOTEWAKEUP), 2⟩
    else sam_ep0_stall priv
  else if recipient = USB_REQ_RECIPIENT_INTERFACE then
    some ⟨priv, sam_ep0setup_e.SUCCESS, 0, 2⟩
  else sam_ep0_stall priv

/-- The `case USB_REQ_CLEARFEATURE` of the `switch` of `sam_ep0_setup`. -/
def sam_ep0_clearfeature (fuel : Nat) (priv : sam_usbdev_s) : Option sam_ep0_decoded_s :=
  let recipient := priv.ctrl.type &&& USB_REQ_RECIPIENT_MASK
  if recipient ≠ USB_REQ_RECIPIENT_ENDPOINT then sam_ep0_dispatched fuel priv
  else
    let epno := USB_EPNO (wb_lsb priv.ctrl.index)
    if epno < SAM_UDPHS_NENDPOINTS ∧ wb_msb priv.ctrl.index = 0
        ∧ priv.ctrl.value = USB_FEATURE_ENDPOINTHALT ∧ priv.ctrl.len = 0 then
      sam_ep0_feature fuel (priv.setep epno { priv.eplist epno with halted := false }) epno true
    else sam_ep0_stall priv

/-- The `case USB_REQ_SETFEATURE` of the `switch` of `sam_ep0_setup`. -/
def sam_ep0_setfeature (fuel : Nat) (priv : sam_usbdev_s) : Option sam_ep0_decoded_s :=
  let recipient := priv.ctrl.type &&& USB_REQ_RECIPIENT_MASK
  if recipient = USB_REQ_RECIPIENT_DEVICE ∧ priv.ctrl.value = USB_FEATURE_TESTMODE then
    some ⟨priv, sam_ep0setup_e.SUCCESS, 0, 0⟩
  else if recipient ≠ USB_REQ_RECIPIENT_ENDPOINT then sam_ep0_dispatched fuel priv
  else
    let epno := USB_EPNO (wb_lsb priv.ctrl.index)
    if epno < SAM_UDPHS_NENDPOINTS ∧ wb_msb priv.ctrl.index = 0
        ∧ priv.ctrl.value = USB_FEATURE_ENDPOINTHALT ∧ priv.ctrl.len = 0 then
      sam_ep0_feature fuel (priv.setep epno { priv.eplist epno with halted := true }) epno false
    else sam_ep0_stall priv

/-- The `case USB_REQ_SETADDRESS` of the `switch` of `sam_ep0_setup`;
`priv->devaddr` is a `uint8_t`. -/
def sam_ep0_setaddress (priv : sam_usbdev_s) : Option sam_ep0_decoded_s :=
  if priv.ctrl.type &&& USB_REQ_RECIPIENT_MASK ≠ USB_REQ_RECIPIENT_DEVICE
      ∨ priv.ctrl.index ≠ 0 ∨ priv.ctrl.len ≠ 0 ∨ priv.ctrl.value > 127 then
    sam_ep0_stall priv
  else some ⟨{ priv with devaddr := priv.ctrl.value % 256 }, sam_ep0setup_e.ADDRESS, 0, 0⟩

/-- The cases of the `switch` of `sam_ep0_setup` from `USB_REQ_GETDESCRIPTOR`
to the `default` case. -/
def sam_ep0_setup_others (fuel : Nat) (priv : sam_usbdev_s) : Option sam_ep0_decoded_s :=
  let recipient := priv.ctrl.type &&& USB_REQ_RECIPIENT_MASK
  if priv.ctrl.req = USB_REQ_GETDESCRIPTOR ∨ priv.ctrl.req = USB_REQ_SETDESCRIPTOR then
    if recipient = USB_REQ_RECIPIENT_DEVICE then sam_ep0_dispatched fuel priv
    else sam_ep0_stall priv
  else if priv.ctrl.req = USB_REQ_GETCONFIGURATION then
    if recipient = USB_REQ_RECIPIENT_DEVICE ∧ priv.ctrl.value = 0 ∧ priv.ctrl.index = 0
        ∧ priv.ctrl.len = 1 then
      sam_ep0_dispatched fuel priv
    else sam_ep0_stall priv
  else if priv.ctrl.req = USB_REQ_SETCONFIGURATION then
    if recipient = USB_REQ_RECIPIENT_DEVICE ∧ priv.ctrl.index = 0 ∧ priv.ctrl.len = 0 then
      sam_ep0_dispatched fuel priv
    else sam_ep0_stall priv
  else if priv.ctrl.req = USB_REQ_GETINTERFACE ∨ priv.ctrl.req = USB_REQ_SETINTERFACE then
    sam_ep0_dispatched fuel priv
  else if priv.ctrl.req = USB_REQ_SYNCHFRAME then
    some ⟨priv, sam_ep0setup_e.SUCCESS, 0, 0⟩
  else sam_ep0_stall priv

/-- The `switch (priv->ctrl.req)` of `sam_ep0_setup` for a standard request. -/
def sam_ep0_setup_switch (fuel : Nat) (priv : sam_usbdev_s) : Option sam_ep0_decoded_s :=
  if priv.ctrl.req = USB_REQ_GETSTATUS then sam_ep0_getstatus priv
  else if priv.ctrl.req = USB_REQ_CLEARFEATURE then sam_ep0_clearfeature fuel priv
  else if priv.ctrl.req = USB_REQ_SETFEATURE then sam_ep0_setfeature fuel priv
  else if priv.ctrl.req = USB_REQ_SETADDRESS then sam_ep0_setaddress priv
  else sam_ep0_setup_others fuel priv

/-- The final `switch (ep0result)` of `sam_ep0_setup`, after `nbytes` was
clipped to the length of the SETUP packet. -/
def sam_ep0_setup_finish (fuel : Nat) (d : sam_ep0_decoded_s) : Option sam_usbdev_s :=
  let priv := d.priv
  let nbytes := if d.nbytes > priv.ctrl.len then priv.ctrl.len else d.nbytes
  let response := [wb_lsb d.response, wb_msb d.response]
  match d.ep0result with
  | sam_ep0setup_e.SUCCESS =>
    let priv := priv.setep EP0 { priv.eplist EP0 with epstate := sam_epstate_e.EP0STATUSIN }
    some (sam_ep0_wrstatus priv response nbytes)
  | sam_ep0setup_e.ADDRESS =>
    let priv := priv.setep EP0 { priv.eplist EP0 with epstate := sam_epstate_e.EP0ADDRESS }
    some (sam_ep0_wrstatus priv response nbytes)
  | sam_ep0setup_e.STALL =>
    match sam_ep_stall fuel priv EP0 true with
    | none => none
    | some r => some r.1
  | sam_ep0setup_e.DISPATCHED => some priv

/-- The part of `sam_ep0_setup` before its `switch`: pending requests of
endpoint 0 are terminated and the endpoint is put in `IDLE`, not stalled. -/
def sam_ep0_setup_begin (priv : sam_usbdev_s) : sam_usbdev_s :=
  let privreq := sam_rqpeek (priv.eplist EP0)
  let priv := sam_ep0_setup_terminate (priv.eplist EP0).queue.length priv privreq
  priv.setep EP0 { priv.eplist EP0 with stalled := false, epstate := sam_epstate_e.IDLE }

/-- Whether `sam_ep0_setup` treats the stored SETUP packet as a standard
request. -/
def sam_ep0_isstandard (ctrl : usb_ctrlreq_s) : Bool :=
  ctrl.type &&& USB_REQ_TYPE_MASK == USB_REQ_TYPE_STANDARD

/-- The value of the local `ep0result` of `sam_ep0_setup` when its final
`switch` is reached (`none` when the function does not get there). -/
def sam_ep0_setup_result (fuel : Nat) (priv : sam_usbdev_s) : Option sam_ep0setup_e :=
  let priv := sam_ep0_setup_begin priv
  if !sam_ep0_isstandard priv.ctrl then none
  else (sam_ep0_setup_switch fuel priv).map (fun d => d.ep0result)

/-- The function `sam_ep0_setup`. -/
def sam_ep0_setup (fuel : Nat) (priv : sam_usbdev_s) : Option sam_usbdev_s :=
  let priv := sam_ep0_setup_begin priv
  if !sam_ep0_isstandard priv.ctrl then sam_ep0_dispatch fuel priv
  else
    match sam_ep0_setup_switch fuel priv with
    | none => none
    | some d => sam_ep0_setup_finish fuel d

/-- The function `sam_ep_interrupt` for the endpoint number `epno`; the
status register `UDPHS_EPTSTA(epno)` is read once, on entry. -/
def sam_ep_interrupt (fuel : Nat) (priv : sam_usbdev_s) (epno : Nat) : Option sam_usbdev_s :=
  let priv := priv.debugassert (epno < SAM_UDPHS_NENDPOINTS) sam_assert_e.ep_interrupt_epno
  let priv := priv.debugassert (sam_rqpeek (priv.eplist epno)).isSome
    sam_assert_e.ep_interrupt_privreq
  let eptsta := priv.regs epno
  let eptype := eptsta.cfg_type
  -- IN packet sent
  let step1 : Option sam_usbdev_s :=
    if eptsta.eptctl_txrdy && !eptsta.sta_txrdy then
      if (priv.eplist epno).epstate = sam_epstate_e.SENDING
          ∨ (priv.eplist epno).epstate = sam_epstate_e.EP0STATUSIN then
        let priv := priv.setep epno { priv.eplist epno with epstate := sam_epstate_e.IDLE }
        match sam_req_write fuel priv epno with
        | none => none
        | some r => some r.1
      else if (priv.eplist epno).epstate = sam_epstate_e.EP0ADDRESS then
        some (sam_setdevaddr priv priv.devaddr)
      else some priv
    else some priv
  -- OUT packet received
  let step2 : Option sam_usbdev_s :=
    match step1 with
    | none => none
    | some priv =>
      if eptsta.sta_rxrdytxkl then
        if (priv.eplist epno).epstate = sam_epstate_e.RECEIVING then
          let pktsize := eptsta.sta_bytecnt
          let priv := priv.setep epno { priv.eplist epno with epstate := sam_epstate_e.IDLE }
          let priv := (sam_req_read priv epno pktsize).1
          some (priv.putreg (sam_hwop_e.eptclrsta_rxrdytxkl epno))
        else if (priv.eplist epno).epstate ≠ sam_epstate_e.EP0DATAOUT then
          let len := priv.ctrl.len
          let priv := priv.debugassert (len > 0 && len == eptsta.sta_bytecnt)
            sam_assert_e.ep_interrupt_ep0len
          let priv := sam_ep0_read_ep0out priv len
          let priv := priv.setep epno { priv.eplist epno with epstate := sam_epstate_e.IDLE }
          sam_ep0_setup fuel priv
        else
          if eptype = UDPHS_EPTCFG_TYPE_CTRL8 ∧ eptsta.sta_bytecnt = 0 then
            some (priv.putreg (sam_hwop_e.eptclrsta_rxrdytxkl epno))
          else if eptsta.sta_frcestall then
            some (priv.putreg (sam_hwop_e.eptclrsta_rxrdytxkl epno))
          else some (priv.putreg (sam_hwop_e.ien_clr_ept epno))
      else some priv
  -- STALL sent
  let step3 : Option sam_usbdev_s :=
    match step2 with
    | none => none
    | some priv =>
      if eptsta.sta_stallsnt then
        let priv := priv.putreg (sam_hwop_e.eptclrsta_stallsnt epno)
        if eptype = UDPHS_EPTCFG_TYPE_ISO then some (sam_req_complete priv epno (- EIO))
        else if (priv.eplist epno).epstate ≠ sam_epstate_e.STALLED then
          some (priv.putreg (sam_hwop_e.eptclrsta_frcestall epno))
        else some priv
      else some priv
  -- SETUP packet received
  match step3 with
  | none => none
  | some priv =>
    if eptsta.sta_rxsetup then
      let priv :=
        if (priv.eplist epno).epstate = sam_epstate_e.RECEIVING
            ∨ (priv.eplist epno).epstate = sam_epstate_e.SENDING then
          sam_req_complete priv epno OK
        else priv
      if eptype = UDPHS_EPTCFG_TYPE_ISO then
        some (priv.putreg (sam_hwop_e.eptclrsta_rxsetup epno))
      else
        let priv := sam_ep0_read_ctrl priv
        let priv := priv.putreg (sam_hwop_e.eptclrsta_rxsetup epno)
        let len := priv.ctrl.len
        if USB_REQ_ISOUT priv.ctrl.type && len > 0 then
          some (priv.setep epno { priv.eplist epno with epstate := sam_epstate_e.EP0DATAOUT })
        else
          let priv := priv.setep epno { priv.eplist epno with epstate := sam_epstate_e.IDLE }
          sam_ep0_setup fuel priv
    else some priv

/-! ## Endpoint helpers and operations -/

/-- The complement `~x` of a 32-bit value. -/
def not32 (x : Nat) : Nat := 0xffffffff ^^^ x

/-- The function `sam_ep_reset`. -/
def sam_ep_reset (priv : sam_usbdev_s) (epno : Nat) : sam_usbdev_s :=
  let priv := priv.putreg (sam_hwop_e.ien_clr_ept epno)
  let priv := sam_req_cancel priv epno
  let priv := priv.putreg (sam_hwop_e.eptrst epno)
  priv.setep epno
    { priv.eplist epno with
      epstate := sam_epstate_e.DISABLED, stalled := false, halted := false,
      txnullpkt := false, bank := 0 }

/-- The loop of `sam_epset_reset`, from `epno` with the mask `bit` upwards. -/
def sam_epset_reset_loop : Nat → sam_usbdev_s → Nat → Nat → Nat → sam_usbdev_s
  | 0, priv, _, _, _ => priv
  | n + 1, priv, epno, bit, epset =>
    if epno < SAM_UDPHS_NENDPOINTS ∧ epset ≠ 0 then
      if epset &&& bit ≠ 0 then
        sam_epset_reset_loop n (sam_ep_reset priv epno) (epno + 1) ((bit <<< 1) % 2 ^ 32)
          ((epset &&& not32 bit) % 65536)
      else sam_epset_reset_loop n priv (epno + 1) ((bit <<< 1) % 2 ^ 32) epset
    else priv

/-- The function `sam_epset_reset`; the loop ends after at most
`SAM_UDPHS_NENDPOINTS` passes. -/
def sam_epset_reset (priv : sam_usbdev_s) (epset : Nat) : sam_usbdev_s :=
  sam_epset_reset_loop SAM_UDPHS_NENDPOINTS priv 0 1 (epset &&& SAM_EPSET_ALL)

/-- The function `sam_ep_reserve`'s loop over `epndx`, from `epndx` up to
`SAM_UDPHS_NENDPOINTS - 1`; `bit` is a `uint8_t`. -/
def sam_ep_reserve_loop : Nat → sam_usbdev_s → Nat → Nat → sam_usbdev_s × Option Nat
  | 0, priv, _, _ => (priv, none)
  | n + 1, priv, epset, epndx =>
    if epndx < SAM_UDPHS_NENDPOINTS then
      let bit := SAM_EP_BIT epndx % 256
      if epset &&& bit ≠ 0 then
        ({ priv with epavail := (priv.epavail &&& not32 bit) % 65536 }, some epndx)
      else sam_ep_reserve_loop n priv epset (epndx + 1)
    else (priv, none)

/-- The function `sam_ep_reserve`; its parameter `epset` is a `uint8_t`.  The
result is the index of the endpoint reserved. -/
def sam_ep_reserve (priv : sam_usbdev_s) (epset : Nat) : sam_usbdev_s × Option Nat :=
  let epset := (epset % 256 &&& priv.epavail) % 256
  if epset ≠ 0 then sam_ep_reserve_loop SAM_UDPHS_NENDPOINTS priv epset 1
  else (priv, none)

/-- The function `sam_ep_unreserve`. -/
def sam_ep_unreserve (priv : sam_usbdev_s) (i : Nat) : sam_usbdev_s :=
  { priv with epavail := (priv.epavail ||| SAM_EP_BIT (USB_EPNO (priv.eplist i).eplog)) % 65536 }

/-- The function `sam_ep_reserved`. -/
def sam_ep_reserved (priv : sam_usbdev_s) (epno : Nat) : Bool :=
  priv.epavail &&& SAM_EP_BIT epno == 0

/-- The function `sam_allocep`; `epno` is a `uint8_t`.  The result is the
index of the endpoint returned, `none` for `NULL`. -/
def sam_allocep (priv : sam_usbdev_s) (epno : Nat) (_dirin : Bool) (_eptype : Nat) :
    sam_usbdev_s × Option Nat :=
  let epno := USB_EPNO (epno % 256)
  if epno > 0 then
    if epno ≥ SAM_UDPHS_NENDPOINTS then (priv, none)
    else sam_ep_reserve priv (SAM_EP_BIT epno)
  else sam_ep_reserve priv SAM_EPSET_NOTEP0

/-- The function `sam_freeep` for the endpoint `priv->eplist[i]`. -/
def sam_freeep (priv : sam_usbdev_s) (i : Nat) : sam_usbdev_s :=
  sam_ep_unreserve priv i

/-- The function `sam_ep_submit` of the request `req` on the endpoint
`priv->eplist[i]`. -/
def sam_ep_submit (fuel : Nat) (priv : sam_usbdev_s) (i : Nat) (req : sam_req_s) :
    Option (sam_usbdev_s × Int) :=
  let privep := priv.eplist i
  let epno := USB_EPNO privep.eplog
  let privreq := { req with result := -EINPROGRESS, xfrd := 0, inflight := 0 }
  if privep.stalled then
    some (sam_req_abort priv i privreq (-EBUSY), -EBUSY)
  else if USB_ISEPIN privep.eplog || epno == EP0 then
    let priv := priv.setep i (sam_req_enqueue privep privreq)
    if (priv.eplist i).epstate = sam_epstate_e.IDLE then sam_req_write fuel priv i
    else some (priv, OK)
  else
    let priv := priv.setep i (sam_req_enqueue { privep with txnullpkt := false } privreq)
    let priv := if priv.rxpending then { priv with rxpending := false } else priv
    some (priv, OK)

/-- The record `struct usb_epdesc_s`, an endpoint descriptor; `mxpacketsize`
is held as its `GETUINT16` value. -/
structure usb_epdesc_s where
  len : Nat
  type : Nat
  addr : Nat
  attr : Nat
  mxpacketsize : Nat
  interval : Nat
  deriving DecidableEq, Repr, Inhabited

/-- Modelled from the spec: `USB_EP_ATTR_XFER_CONTROL` of `nuttx/usb/usb.h`. -/
def USB_EP_ATTR_XFER_CONTROL : Nat := 0

/-- The descriptor `g_ep0desc` of endpoint 0; `USB_SIZEOF_EPDESC` is 7 and
`USB_DESC_TYPE_ENDPOINT` is 5 in `nuttx/usb/usb.h`. -/
def g_ep0desc : usb_epdesc_s :=
  { len := 7, type := 5, addr := EP0, attr := USB_EP_ATTR_XFER_CONTROL,
    mxpacketsize := 64, interval := 0 }

/-- The SIZE field that `sam_ep_configure_internal` selects: 0 for 8 bytes
up to 7 for 1024 bytes; `none` is the `DEBUGPANIC` branch.  The first seven
tests read the local `maxpacket`, the last one `privep->ep.maxpacket`. -/
def sam_ep_configure_size (maxpacket epmaxpacket : Nat) : Option Nat :=
  if maxpacket ≤ 8 then some 0
  else if maxpacket ≤ 16 then some 1
  else if maxpacket ≤ 32 then some 2
  else if maxpacket ≤ 64 then some 3
  else if maxpacket ≤ 128 then some 4
  else if maxpacket ≤ 256 then some 5
  else if maxpacket ≤ 512 then some 6
  else if epmaxpacket ≤ 1024 then some 7
  else none

/-- The function `sam_ep_configure_internal` on the endpoint
`priv->eplist[i]`; the locals `epno`, `eptype`, `nbtrans` and `maxpacket`
are `uint8_t`. -/
def sam_ep_configure_internal (priv : sam_usbdev_s) (i : Nat) (desc : usb_epdesc_s) :
    sam_usbdev_s × Int :=
  let epno := USB_EPNO desc.addr
  let dirin : Bool := desc.addr &&& USB_REQ_DIR_IN == USB_REQ_DIR_IN
  let eptype := (desc.type &&& USB_REQ_TYPE_MASK) >>> USB_REQ_TYPE_SHIFT
  let maxpacket := desc.mxpacketsize % 256
  let highspeed := priv.intsta_speed
  let nbtrans :=
    if highspeed then
      if (maxpacket >>> 11) &&& 3 = 3 then 1 else ((maxpacket >>> 11) &&& 3) + 1
    else 1
  let maxpacket := if highspeed then maxpacket &&& 0x7ff else maxpacket
  let priv := priv.setep i
    { priv.eplist i with
      eplog := desc.addr, maxpacket := maxpacket, epstate := sam_epstate_e.IDLE,
      bank := priv.nbanks epno % 256 }
  let priv := priv.putreg (sam_hwop_e.eptctldis_all epno)
  let priv := priv.putreg (sam_hwop_e.eptclrsta_togglesq_frcestall epno)
  let priv := priv.putreg (sam_hwop_e.eptrst epno)
  let priv :=
    if eptype = USB_EP_ATTR_XFER_CONTROL then priv.putreg (sam_hwop_e.ien_clr_ept epno)
    else priv
  let size := sam_ep_configure_size maxpacket (priv.eplist i).maxpacket
  let priv := priv.debugassert size.isSome sam_assert_e.ep_configure_size
  let priv := priv.putreg
    (sam_hwop_e.eptcfg epno (size.getD 0) dirin eptype (priv.eplist i).bank nbtrans)
  if (priv.regs epno).cfg_mapd = false then (priv, -EINVAL)
  else
    let priv := priv.putreg
      (sam_hwop_e.eptctlenb_enable epno (eptype = USB_EP_ATTR_XFER_CONTROL))
    ({ priv with devstate := sam_devstate_e.CONFIGURED }, OK)

/-- The function `sam_ep_configure`. -/
def sam_ep_configure (priv : sam_usbdev_s) (i : Nat) (desc : usb_epdesc_s) ( _last : Bool) :
    sam_usbdev_s × Int :=
  sam_ep_configure_internal priv i desc

/-- The last loop of `sam_reset`, over the endpoints `epno` upwards: queued
requests are cancelled and the flags cleared. -/
def sam_reset_loop : Nat → sam_usbdev_s → Nat → sam_usbdev_s
  | 0, priv, _ => priv
  | n + 1, priv, epno =>
    if epno < SAM_UDPHS_NENDPOINTS then
      let priv := sam_req_cancel priv epno
      let priv := priv.setep epno
        { priv.eplist epno with stalled := false, halted := false, txnullpkt := false }
      sam_reset_loop n priv (epno + 1)
    else priv

/-- The function `sam_reset`, the handling of a bus reset. -/
def sam_reset (priv : sam_usbdev_s) : sam_usbdev_s :=
  let priv := priv.putreg sam_hwop_e.enableclk
  let priv := { priv with cls := priv.cls ++ [sam_class_e.disconnect] }
  let priv := { priv with devaddr := 0 }
  let priv := sam_setdevaddr priv 0
  let priv := { priv with devstate := sam_devstate_e.DEFAULT, rxpending := false }
  let priv := sam_epset_reset priv SAM_EPSET_ALL
  let priv := (sam_ep_configure_internal priv EP0 g_ep0desc).1
  let priv := sam_reset_loop SAM_UDPHS_NENDPOINTS priv 0
  { priv with speed_full := true }

/-- The function `sam_sw_setup`: the driver structure is cleared and
initialised.  `maxpacketsize` is the macro `SAM_UDPHS_MAXPACKETSIZE(epno)`
of `chip/sam_udphs.h`; the hardware and the traces are those of `priv`. -/
def sam_sw_setup (priv : sam_usbdev_s) (maxpacketsize : Nat → Nat) : sam_usbdev_s :=
  { priv with
    driver := none
    ctrl := { type := 0, req := 0, value := 0, index := 0, len := 0 }
    devstate := sam_devstate_e.SUSPENDED
    prevstate := sam_devstate_e.POWERED
    devaddr := 0
    rxpending := false
    selfpowered := false
    epavail := SAM_EPSET_ALL &&& not32 (SAM_EP_BIT EP0)
    eplist := fun epno =>
      if epno < SAM_UDPHS_NENDPOINTS then
        { eplog := epno, maxpacket := maxpacketsize epno, queue := [],
          epstate := sam_epstate_e.DISABLED, bank := 0, stalled := false, halted := false,
          txnullpkt := false }
      else default
    ep0out := List.replicate SAM_EP0_MAXPACKET 0
    speed_full := false }

/-- The function `sam_suspend`. -/
def sam_suspend (priv : sam_usbdev_s) : sam_usbdev_s :=
  if priv.devstate ≠ sam_devstate_e.SUSPENDED then
    let priv :=
      if priv.driver.isSome then { priv with cls := priv.cls ++ [sam_class_e.suspend] }
      else priv
    let priv := { priv with prevstate := priv.devstate, devstate := sam_devstate_e.SUSPENDED }
    let priv := priv.putreg sam_hwop_e.disableclk
    { priv with cls := priv.cls ++ [sam_class_e.usbsuspend false] }
  else priv

/-- The function `sam_resume`. -/
def sam_resume (priv : sam_usbdev_s) : sam_usbdev_s :=
  if priv.devstate = sam_devstate_e.SUSPENDED then
    let priv := priv.putreg sam_hwop_e.enableclk
    let priv := { priv with devstate := priv.prevstate }
    let priv := { priv with cls := priv.cls ++ [sam_class_e.usbsuspend true] }
    if priv.driver.isSome then { priv with cls := priv.cls ++ [sam_class_e.resume] }
    else priv
  else priv

/-- The function `sam_selfpowered`. -/
def sam_selfpowered (priv : sam_usbdev_s) (selfpowered : Bool) : sam_usbdev_s × Int :=
  ({ priv with selfpowered := selfpowered }, OK)

/-! ## DMA completion and the interrupt dispatcher -/

/-- The end-of-buffer branch of `sam_dma_interrupt`: the head request
`privreq` of endpoint `epno` after the hardware left `bufcnt` bytes
untransferred; a further DMA transfer is started when bytes remain. -/
def sam_dma_interrupt_eob (priv : sam_usbdev_s) (epno : Nat) (privreq : sam_req_s)
    (bufcnt : Nat) : sam_usbdev_s × sam_req_s :=
  let xfrd : Int := (privreq.inflight : Int) - bufcnt
  let privreq :=
    { privreq with
      xfrd := (((privreq.xfrd : Int) + xfrd) % 65536).toNat, inflight := bufcnt % 65536 }
  let bufcnt : Int := (privreq.len : Int) - privreq.xfrd - privreq.inflight
  if bufcnt > 0 then
    let privreq := { privreq with inflight := bufcnt.toNat % 65536 }
    (sam_dma_single (priv.setep epno ((priv.eplist epno).sethead privreq)) epno privreq, privreq)
  else (priv.setep epno ((priv.eplist epno).sethead privreq), privreq)

/-- The end-of-channel branch of `sam_dma_interrupt`. -/
def sam_dma_interrupt_eoc (priv : sam_usbdev_s) (epno : Nat) (privreq : sam_req_s)
    (bufcnt : Nat) : sam_usbdev_s × sam_req_s :=
  let xfrd : Int := (privreq.inflight : Int) - bufcnt
  let privreq :=
    { privreq with
      xfrd := (((privreq.xfrd : Int) + xfrd) % 65536).toNat
      inflight := (((privreq.inflight : Int) - bufcnt) % 65536).toNat }
  (priv.setep epno ((priv.eplist epno).sethead privreq), privreq)

/-- The function `sam_dma_interrupt` for the DMA channel of endpoint `epno`;
the status register `UDPHS_DMASTATUS(epno)` is read once.  With an empty
queue the source dereferences the null `privreq`; the model stops there,
after the assertion. -/
def sam_dma_interrupt (priv : sam_usbdev_s) (epno : Nat) : sam_usbdev_s :=
  let priv := priv.debugassert (decide (epno < SAM_UDPHS_NENDPOINTS) && sam_ep_isdma epno)
    sam_assert_e.dma_interrupt_epno
  let priv := priv.debugassert (sam_rqpeek (priv.eplist epno)).isSome
    sam_assert_e.dma_interrupt_privreq
  match sam_rqpeek (priv.eplist epno) with
  | none => priv
  | some privreq =>
    let dmastatus := priv.regs epno
    let priv := priv.putreg (sam_hwop_e.dmacontrol_clr_endtren_endben epno)
    let step : (sam_usbdev_s × sam_req_s) × Int :=
      if dmastatus.dma_endbfst then
        (sam_dma_interrupt_eob priv epno privreq dmastatus.dma_bufcnt, OK)
      else if dmastatus.dma_endtrst then
        (sam_dma_interrupt_eoc priv epno privreq dmastatus.dma_bufcnt, OK)
      else ((priv, privreq), - EIO)
    if step.1.2.len = step.1.2.xfrd then sam_req_complete step.1.1 epno step.2
    else step.1.1

/-- The endpoint loop of one pass of `sam_udphs_interrupt`:
`for (i = 1; i <= SAM_UDPHS_NENDPOINTS; i++)`, calling `sam_ep_interrupt`
for every `i` with `(pending & UDPHS_INT_EPT(i)) != 0`.  The macro
`UDPHS_INT_EPT` of `chip/sam_udphs.h` is the parameter `int_ept`; the first
argument counts the passes that are left, and the second component of the
state lists the endpoint numbers handed to `sam_ep_interrupt` so far. -/
def sam_udphs_interrupt_ept_loop (fuel : Nat) (int_ept : Nat → Nat) (pending : Nat) :
    Nat → Nat → sam_usbdev_s × List Nat → Option (sam_usbdev_s × List Nat)
  | 0, _, s => some s
  | n + 1, i, s =>
    if i ≤ SAM_UDPHS_NENDPOINTS then
      if pending &&& int_ept i ≠ 0 then
        match sam_ep_interrupt fuel s.1 i with
        | none => none
        | some priv =>
          sam_udphs_interrupt_ept_loop fuel int_ept pending n (i + 1) (priv, s.2 ++ [i])
      else sam_udphs_interrupt_ept_loop fuel int_ept pending n (i + 1) s
    else some s

/-- The section `Endpoint Interrupts` of one pass of the loop of
`sam_udphs_interrupt`, for the sampled value `pending = intsta & ien`.  The
macros `UDPHS_INT_EPT_MASK` and `UDPHS_INT_EPT` of `chip/sam_udphs.h` are
the parameters `int_ept_mask` and `int_ept`.  The result holds the driver
state and the endpoint numbers `sam_ep_interrupt` was called with, in call
order. -/
def sam_udphs_interrupt_ept (fuel : Nat) (int_ept_mask : Nat) (int_ept : Nat → Nat)
    (pending : Nat) (priv : sam_usbdev_s) : Option (sam_usbdev_s × List Nat) :=
  if pending &&& int_ept_mask ≠ 0 then
    sam_udphs_interrupt_ept_loop fuel int_ept pending (SAM_UDPHS_NENDPOINTS + 1) 1 (priv, [])
  else some (priv, [])

/-! ## Concrete devices and requests used to evaluate the model -/

/-- The static instance `g_udphs` before `sam_sw_setup` ran: all zero, no
traces yet, endpoint registers reading as zero. -/
def g_udphs : sam_usbdev_s :=
  { driver := none
    ctrl := default
    devstate := sam_devstate_e.SUSPENDED
    prevstate := sam_devstate_e.SUSPENDED
    devaddr := 0
    rxpending := false
    selfpowered := false
    epavail := 0
    eplist := fun _ => default
    ep0out := List.replicate SAM_EP0_MAXPACKET 0
    speed_full := false
    ctrl_devaddr := 0
    ctrl_faddren := false
    intsta_speed := false
    regs := fun _ => default
    hw := []
    done := []
    cls := []
    failed := []
    nbanks := fun epno => if epno = 0 then 1 else if epno < 3 then 3 else 2 }

/-- The device after `sam_sw_setup`, with 64 bytes as the maximum packet
size of endpoint 0 and 1024 bytes for the other endpoints. -/
def g_udphs_setup : sam_usbdev_s :=
  sam_sw_setup g_udphs (fun epno => if epno = 0 then 64 else 1024)

/-- A class driver that accepts every control request. -/
def class_accept : usbdevclass_driver_s := { setup := fun _ _ => 0 }

/-- A request of `len` bytes with the given flags and a zeroed buffer. -/
def mkreq (id len flags : Nat) : sam_req_s :=
  { id := id, buf := List.replicate len 0, len := len, xfrd := 0, result := 0,
    flags := flags, inflight := 0 }

/-- An endpoint with the address `eplog` (direction bit included) and the
maximum packet size `maxpacket` in the state `st`, holding the requests `q`. -/
def mkep (eplog maxpacket : Nat) (st : sam_epstate_e) (q : List sam_req_s) : sam_ep_s :=
  { eplog := eplog, maxpacket := maxpacket, queue := q, epstate := st, bank := 0,
    stalled := false, halted := false, txnullpkt := false }

/-- The device after `sam_sw_setup` with the class driver `class_accept`
bound, in the `DEFAULT` state, holding the SETUP packet `c`. -/
def dev_default (c : usb_ctrlreq_s) : sam_usbdev_s :=
  { g_udphs_setup with
    driver := some class_accept, devstate := sam_devstate_e.DEFAULT, ctrl := c }

/-- The hardware raises an event on endpoint `epno`: its registers now read
as `r`. -/
def sam_usbdev_s.hwevent (priv : sam_usbdev_s) (epno : Nat) (r : sam_eptregs_s) : sam_usbdev_s :=
  { priv with regs := Function.update priv.regs epno r }

/-- The device in the `ADDRESS` state with the address 5, on hardware that
reports the configuration of endpoint 0 as mapped. -/
def dev_addressed : sam_usbdev_s :=
  ({ dev_default ⟨0, 0, 0, 0, 0⟩ with
      devstate := sam_devstate_e.ADDRESS, devaddr := 5 }).hwevent EP0
    { (default : sam_eptregs_s) with cfg_mapd := true }

/-- A call of the class driver into the endpoint allocator: `sam_allocep`
with its arguments, or `sam_freeep` of the endpoint `&priv->eplist[i]`. -/
inductive sam_allocop_e
  | allocep (epno : Nat) (dirin : Bool) (eptype : Nat)
  | freeep (i : Fin SAM_UDPHS_NENDPOINTS)
  deriving DecidableEq, Repr

/-- One allocator call on the driver state; the second component lists the
endpoints that are currently allocated (returned by `sam_allocep` and not
freed since). -/
def sam_alloc_step (s : sam_usbdev_s × List Nat) : sam_allocop_e → sam_usbdev_s × List Nat
  | sam_allocop_e.allocep epno dirin eptype =>
    match sam_allocep s.1 epno dirin eptype with
    | (priv, some e) => (priv, e :: s.2)
    | (priv, none) => (priv, s.2)
  | sam_allocop_e.freeep i => (sam_freeep s.1 i.val, s.2.filter (fun e => e ≠ i.val))

/-- A sequence of allocator calls, oldest first. -/
def sam_alloc_run (ops : List sam_allocop_e) (s : sam_usbdev_s × List Nat) :
    sam_usbdev_s × List Nat :=
  ops.foldl sam_alloc_step s

/-- The invariant of the allocator: no allocated endpoint is marked available
in `epavail`, and every endpoint has its own index as logical address. -/
def sam_alloc_inv (s : sam_usbdev_s × List Nat) : Prop :=
  (∀ e ∈ s.2, s.1.epavail.testBit e = false)
  ∧ ∀ i, i < SAM_UDPHS_NENDPOINTS → (s.1.eplist i).eplog = i

/-- An allocator scenario: endpoint 1 is requested, then any endpoint (2 is
returned), then endpoint 1 is freed. -/
def alloc_scenario : List sam_allocop_e :=
  [sam_allocop_e.allocep 1 true 2, sam_allocop_e.allocep 0 true 2,
   sam_allocop_e.freeep ⟨1, by decide⟩]

/-- A full-speed endpoint descriptor (bulk IN, endpoint 8) with the maximum
packet size `m`. -/
def mkepdesc (m : Nat) : usb_epdesc_s :=
  { len := 7, type := 5, addr := 0x88, attr := 2, mxpacketsize := m, interval := 0 }

/-- The device after `sam_sw_setup` on full-speed hardware that reports the
configuration of every endpoint as mapped. -/
def dev_mapped : sam_usbdev_s :=
  { g_udphs_setup with
    driver := some class_accept
    regs := fun _ => { (default : sam_eptregs_s) with cfg_mapd := true } }

/-- The device after `sam_sw_setup` with the non-DMA IN endpoint 8 in the
`SENDING` state, two requests queued. -/
def dev_sending : sam_usbdev_s :=
  g_udphs_setup.setep 8 (mkep 0x88 64 sam_epstate_e.SENDING [mkreq 1 8 0, mkreq 2 8 0])

/-- The device with endpoint 0 in `EP0DATAOUT`, holding the SETUP packet
SET_DESCRIPTOR with 8 bytes of OUT data; the hardware reports RX-ready on
endpoint 0 with the 8 payload bytes in the FIFO. -/
def dev_dataout : sam_usbdev_s :=
  ((dev_default ⟨0x00, 7, 0, 0, 8⟩).setep EP0 (mkep 0 64 sam_epstate_e.EP0DATAOUT [])).hwevent EP0
    { (default : sam_eptregs_s) with
      sta_rxrdytxkl := true, sta_bytecnt := 8, fifo := [1, 2, 3, 4, 5, 6, 7, 8] }

/-- The device with endpoint 0 in `EP0STATUSIN` and one 8-byte request queued
on it, nothing transferred yet; the hardware reports a received SETUP
packet, GET_STATUS for the device. -/
def dev_setup_pending : sam_usbdev_s :=
  ((dev_default ⟨0, 0, 0, 0, 0⟩).setep EP0
      (mkep 0 64 sam_epstate_e.EP0STATUSIN [mkreq 1 8 0])).hwevent EP0
    { (default : sam_eptregs_s) with
      sta_rxsetup := true, fifo := [0x80, 0, 0, 0, 0, 0, 2, 0] }

/-- The SETUP packet `c` is stored in `priv->ctrl` and processed by
`sam_ep0_setup`. -/
def sam_ep0_process (fuel : Nat) (priv : sam_usbdev_s) (c : usb_ctrlreq_s) :
    Option sam_usbdev_s :=
  sam_ep0_setup fuel { priv with ctrl := c }

/-- The SETUP packet SET_FEATURE(ENDPOINT_HALT) for the endpoint `e`:
host-to-device, standard, recipient endpoint, `index = e`, `len = 0`. -/
def setup_setfeature_halt (e : Nat) : usb_ctrlreq_s :=
  { type := 0x02, req := USB_REQ_SETFEATURE, value := USB_FEATURE_ENDPOINTHALT, index := e,
    len := 0 }

/-- The SETUP packet CLEAR_FEATURE(ENDPOINT_HALT) for the endpoint `e`. -/
def setup_clearfeature_halt (e : Nat) : usb_ctrlreq_s :=
  { type := 0x02, req := USB_REQ_CLEARFEATURE, value := USB_FEATURE_ENDPOINTHALT, index := e,
    len := 0 }

/-- The SETUP packet GET_STATUS for the endpoint `e`: device-to-host,
standard, recipient endpoint, `value = 0`, `index = e`, `len = 2`. -/
def setup_getstatus_ep (e : Nat) : usb_ctrlreq_s :=
  { type := 0x82, req := USB_REQ_GETSTATUS, value := 0, index := e, len := 2 }

/-- The device in the `DEFAULT` state with endpoint 0 configured and `IDLE`
and the OUT endpoint 8 configured and `IDLE`. -/
def dev_enabled : sam_usbdev_s :=
  ((dev_default ⟨0, 0, 0, 0, 0⟩).setep EP0 (mkep 0 64 sam_epstate_e.IDLE [])).setep 8
    (mkep 0x08 64 sam_epstate_e.IDLE [])

/-- The endpoint structure as `sam_ep_reset` leaves it: queue empty,
`DISABLED`, flags and bank cleared. -/
def sam_ep_reset_ep (ep : sam_ep_s) : sam_ep_s :=
  { ep with
    queue := [], epstate := sam_epstate_e.DISABLED, stalled := false, halted := false,
    txnullpkt := false, bank := 0 }

/-- The completion callbacks with `-ESHUTDOWN` for the requests queued on the
endpoint `e`, in queue order. -/
def sam_shutdown_calls (priv : sam_usbdev_s) (e : Nat) : List (Nat × sam_req_s) :=
  (priv.eplist e).queue.map (fun r => (e, { r with result := -ESHUTDOWN }))

/-- The body of the last loop of `sam_reset` for the endpoint `epno`. -/
def sam_reset_body (priv : sam_usbdev_s) (epno : Nat) : sam_usbdev_s :=
  (sam_req_cancel priv epno).setep epno
    { (sam_req_cancel priv epno).eplist epno with
      stalled := false, halted := false, txnullpkt := false }

/-- The device with endpoint 0 sending and the endpoints 1 and 8 holding
requests, one of them stalled, on hardware that reports the configuration
of endpoint 0 as mapped. -/
def dev_busy : sam_usbdev_s :=
  (((dev_addressed.setep EP0 (mkep 0 64 sam_epstate_e.SENDING [mkreq 1 18 0])).setep 1
      { mkep 0x81 512 sam_epstate_e.STALLED [mkreq 2 512 0, mkreq 3 512 0] with
        stalled := true, halted := true }).setep 8
    (mkep 0x08 64 sam_epstate_e.IDLE [mkreq 4 64 0]))

/-- The device in the `DEFAULT` state that processed SET_ADDRESS(5): the
address 5 is held in `devaddr`, endpoint 0 is in `EP0ADDRESS`, and the
hardware reports TX-ready (the status packet was sent) on endpoint 0. -/
def dev_ep0address : sam_usbdev_s :=
  (({ dev_default ⟨0, 5, 5, 0, 0⟩ with devaddr := 5 }).setep EP0
      (mkep 0 64 sam_epstate_e.EP0ADDRESS [])).hwevent EP0
    { (default : sam_eptregs_s) with eptctl_txrdy := true }

/-- The device with the DMA-capable OUT endpoint 1 in `RECEIVING`, a
zero-length read request at the head of its queue and a 64-byte request
behind it. -/
def dev_zlp : sam_usbdev_s :=
  g_udphs_setup.setep 1 (mkep 0x01 512 sam_epstate_e.RECEIVING [mkreq 1 0 0, mkreq 2 64 0])

/-- The device with the DMA-capable OUT endpoint 1 in `RECEIVING`: all 100
bytes of its only request are in flight, and the DMA channel reports the
end of the channel transfer with 10 bytes left in the buffer count. -/
def dev_dma_eoc : sam_usbdev_s :=
  (g_udphs_setup.setep 1
      (mkep 0x01 512 sam_epstate_e.RECEIVING [{ mkreq 1 100 0 with inflight := 100 }])).hwevent 1
    { (default : sam_eptregs_s) with dma_endtrst := true, dma_bufcnt := 10 }

/-- The device with the non-DMA OUT endpoint 8 in `RECEIVING`, holding one
empty 8-byte read request; the hardware reports a received packet of 8
bytes, `1 .. 8`, in the FIFO of the endpoint. -/
def dev_rx8 : sam_usbdev_s :=
  (g_udphs_setup.setep 8 (mkep 0x08 64 sam_epstate_e.RECEIVING [mkreq 1 8 0])).hwevent 8
    { (default : sam_eptregs_s) with
      sta_rxrdytxkl := true, sta_bytecnt := 8, fifo := [1, 2, 3, 4, 5, 6, 7, 8] }

/-- The device after `sam_sw_setup` with the non-DMA OUT endpoint 8 in the
`RECEIVING` state, two requests queued. -/
def dev_receiving : sam_usbdev_s :=
  g_udphs_setup.setep 8 (mkep 0x08 64 sam_epstate_e.RECEIVING [mkreq 1 8 0, mkreq 2 8 0])

/-- The device with endpoint 0 `IDLE`, holding the SETUP packet
GET_DESCRIPTOR(device) with the length field 255 that was answered before;
the hardware reports a received packet of zero bytes (the status stage of
the host) on endpoint 0. -/
def dev_statusout : sam_usbdev_s :=
  ((dev_default ⟨0x80, 6, 0x0100, 0, 255⟩).setep EP0 (mkep 0 64 sam_epstate_e.IDLE [])).hwevent
    EP0 { (default : sam_eptregs_s) with sta_rxrdytxkl := true, sta_bytecnt := 0 }

/-- The device-level part of two driver states is the same: everything except
the endpoint list, the `rxpending` flag and the traces of register writes,
callbacks and assertions. -/
structure same_dev (a b : sam_usbdev_s) : Prop where
  driver : a.driver = b.driver
  ctrl : a.ctrl = b.ctrl
  devstate : a.devstate = b.devstate
  prevstate : a.prevstate = b.prevstate
  devaddr : a.devaddr = b.devaddr
  selfpowered : a.selfpowered = b.selfpowered
  epavail : a.epavail = b.epavail
  ep0out : a.ep0out = b.ep0out
  ctrl_devaddr : a.ctrl_devaddr = b.ctrl_devaddr
  ctrl_faddren : a.ctrl_faddren = b.ctrl_faddren
  intsta_speed : a.intsta_speed = b.intsta_speed
  regs : a.regs = b.regs
  nbanks : a.nbanks = b.nbanks
  cls : a.cls = b.cls

/-! ## Basic facts about the state updates -/

section frame

variable (priv : sam_usbdev_s) (i j : Nat) (ep : sam_ep_s) (op : sam_hwop_e)
  (c : Bool) (site : sam_assert_e)

@[simp] theorem setep_eplist_same : (priv.setep i ep).eplist i = ep := by
  simp [sam_usbdev_s.setep]

theorem setep_eplist_ne (h : j ≠ i) : (priv.setep i ep).eplist j = priv.eplist j := by
  simp [sam_usbdev_s.setep, Function.update_noteq h]

@[simp] theorem setep_done : (priv.setep i ep).done = priv.done := rfl
@[simp] theorem setep_hw : (priv.setep i ep).hw = priv.hw := rfl
@[simp] theorem setep_cls : (priv.setep i ep).cls = priv.cls := rfl
@[simp] theorem setep_failed : (priv.setep i ep).failed = priv.failed := rfl
@[simp] theorem setep_regs : (priv.setep i ep).regs = priv.regs := rfl
@[simp] theorem setep_ctrl : (priv.setep i ep).ctrl = priv.ctrl := rfl
@[simp] theorem setep_driver : (priv.setep i ep).driver = priv.driver := rfl
@[simp] theorem setep_devstate : (priv.setep i ep).devstate = priv.devstate := rfl
@[simp] theorem setep_prevstate : (priv.setep i ep).prevstate = priv.prevstate := rfl
@[simp] theorem setep_devaddr : (priv.setep i ep).devaddr = priv.devaddr := rfl
@[simp] theorem setep_epavail : (priv.setep i ep).epavail = priv.epavail := rfl
@[simp] theorem setep_rxpending : (priv.setep i ep).rxpending = priv.rxpending := rfl
@[simp] theorem setep_selfpowered : (priv.setep i ep).selfpowered = priv.selfpowered := rfl
@[simp] theorem setep_ep0out : (priv.setep i ep).ep0out = priv.ep0out := rfl
@[simp] theorem setep_ctrl_devaddr : (priv.setep i ep).ctrl_devaddr = priv.ctrl_devaddr := rfl
@[simp] theorem setep_ctrl_faddren : (priv.setep i ep).ctrl_faddren = priv.ctrl_faddren := rfl
@[simp] theorem setep_intsta_speed : (priv.setep i ep).intsta_speed = priv.intsta_speed := rfl
@[simp] theorem setep_nbanks : (priv.setep i ep).nbanks = priv.nbanks := rfl

@[simp] theorem putreg_eplist : (priv.putreg op).eplist = priv.eplist := rfl
@[simp] theorem putreg_done : (priv.putreg op).done = priv.done := rfl
@[simp] theorem putreg_hw : (priv.putreg op).hw = priv.hw ++ [op] := rfl
@[simp] theorem putreg_cls : (priv.putreg op).cls = priv.cls := rfl
@[simp] theorem putreg_failed : (priv.putreg op).failed = priv.failed := rfl
@[simp] theorem putreg_regs : (priv.putreg op).regs = priv.regs := rfl
@[simp] theorem putreg_ctrl : (priv.putreg op).ctrl = priv.ctrl := rfl
@[simp] theorem putreg_driver : (priv.putreg op).driver = priv.driver := rfl
@[simp] theorem putreg_devstate : (priv.putreg op).devstate = priv.devstate := rfl
@[simp] theorem putreg_prevstate : (priv.putreg op).prevstate = priv.prevstate := rfl
@[simp] theorem putreg_devaddr : (priv.putreg op).devaddr = priv.devaddr := rfl
@[simp] theorem putreg_epavail : (priv.putreg op).epavail = priv.epavail := rfl
@[simp] theorem putreg_rxpending : (priv.putreg op).rxpending = priv.rxpending := rfl
@[simp] theorem putreg_selfpowered : (priv.putreg op).selfpowered = priv.selfpowered := rfl
@[simp] theorem putreg_ep0out : (priv.putreg op).ep0out = priv.ep0out := rfl
@[simp] theorem putreg_ctrl_devaddr : (priv.putreg op).ctrl_devaddr = priv.ctrl_devaddr := rfl
@[simp] theorem putreg_ctrl_faddren : (priv.putreg op).ctrl_faddren = priv.ctrl_faddren := rfl
@[simp] theorem putreg_intsta_speed : (priv.putreg op).intsta_speed = priv.intsta_speed := rfl
@[simp] theorem putreg_nbanks : (priv.putreg op).nbanks = priv.nbanks := rfl

@[simp] theorem debugassert_eplist : (priv.debugassert c site).eplist = priv.eplist := by
  cases c <;> rfl
@[simp] theorem debugassert_done : (priv.debugassert c site).done = priv.done := by
  cases c <;> rfl
@[simp] theorem debugassert_hw : (priv.debugassert c site).hw = priv.hw := by
  cases c <;> rfl
@[simp] theorem debugassert_cls : (priv.debugassert c site).cls = priv.cls := by
  cases c <;> rfl
@[simp] theorem debugassert_regs : (priv.debugassert c site).regs = priv.regs := by
  cases c <;> rfl
@[simp] theorem debugassert_ctrl : (priv.debugassert c site).ctrl = priv.ctrl := by
  cases c <;> rfl
@[simp] theorem debugassert_driver : (priv.debugassert c site).driver = priv.driver := by
  cases c <;> rfl
@[simp] theorem debugassert_devstate : (priv.debugassert c site).devstate = priv.devstate := by
  cases c <;> rfl
@[simp] theorem debugassert_prevstate :
    (priv.debugassert c site).prevstate = priv.prevstate := by
  cases c <;> rfl
@[simp] theorem debugassert_devaddr : (priv.debugassert c site).devaddr = priv.devaddr := by
  cases c <;> rfl
@[simp] theorem debugassert_epavail : (priv.debugassert c site).epavail = priv.epavail := by
  cases c <;> rfl
@[simp] theorem debugassert_rxpending :
    (priv.debugassert c site).rxpending = priv.rxpending := by
  cases c <;> rfl
@[simp] theorem debugassert_selfpowered :
    (priv.debugassert c site).selfpowered = priv.selfpowered := by
  cases c <;> rfl
@[simp] theorem debugassert_ep0out : (priv.debugassert c site).ep0out = priv.ep0out := by
  cases c <;> rfl
@[simp] theorem debugassert_ctrl_devaddr :
    (priv.debugassert c site).ctrl_devaddr = priv.ctrl_devaddr := by
  cases c <;> rfl
@[simp] theorem debugassert_ctrl_faddren :
    (priv.debugassert c site).ctrl_faddren = priv.ctrl_faddren := by
  cases c <;> rfl
@[simp] theorem debugassert_intsta_speed :
    (priv.debugassert c site).intsta_speed = priv.intsta_speed := by
  cases c <;> rfl
@[simp] theorem debugassert_nbanks : (priv.debugassert c site).nbanks = priv.nbanks := by
  cases c <;> rfl

end frame

/-! ## The request queue -/

/-- On an empty queue `sam_req_complete` does nothing. -/
theorem sam_req_complete_nil (priv : sam_usbdev_s) (i : Nat) (result : Int)
    (h : (priv.eplist i).queue = []) : sam_req_complete priv i result = priv := by
  simp [sam_req_complete, sam_req_dequeue, h]

/-- On a queue `r :: rest` the function `sam_req_complete` calls back for `r`
with the result and leaves `rest` on an `IDLE` endpoint. -/
theorem sam_req_complete_cons (priv : sam_usbdev_s) (i : Nat) (result : Int)
    (r : sam_req_s) (rest : List sam_req_s) (h : (priv.eplist i).queue = r :: rest) :
    (sam_req_complete priv i result).done = priv.done ++ [(i, { r with result := result })]
    ∧ (sam_req_complete priv i result).eplist i =
        { priv.eplist i with queue := rest, epstate := sam_epstate_e.IDLE, txnullpkt := false }
    := by
  simp [sam_req_complete, sam_req_dequeue, h]

/-- The endpoints other than `i` are not touched by `sam_req_complete`. -/
theorem sam_req_complete_other (priv : sam_usbdev_s) (i j : Nat) (result : Int) (h : j ≠ i) :
    (sam_req_complete priv i result).eplist j = priv.eplist j := by
  unfold sam_req_complete
  cases hq : sam_req_dequeue (priv.eplist i) with
  | mk o ep =>
    cases o with
    | none => rfl
    | some r => simp [setep_eplist_ne _ _ _ _ h]

/-- The loop of `sam_req_cancel` with enough passes completes the queued
requests in order, each with `-ESHUTDOWN`, and empties the queue. -/
theorem sam_req_cancel_loop_spec (q : List sam_req_s) :
    ∀ (n : Nat) (priv : sam_usbdev_s) (i : Nat), (priv.eplist i).queue = q → q.length ≤ n →
      (sam_req_cancel_loop n priv i).done
          = priv.done ++ q.map (fun r => (i, { r with result := -ESHUTDOWN }))
      ∧ ((sam_req_cancel_loop n priv i).eplist i).queue = []
      ∧ (q ≠ [] → ((sam_req_cancel_loop n priv i).eplist i).epstate = sam_epstate_e.IDLE) := by
  induction q with
  | nil =>
    intro n priv i h _
    cases n with
    | zero => simp [sam_req_cancel_loop, h]
    | succ n => simp [sam_req_cancel_loop, sam_rqempty, h]
  | cons r rest ih =>
    intro n priv i h hn
    cases n with
    | zero => simp at hn
    | succ n =>
      have hc := sam_req_complete_cons priv i (-ESHUTDOWN) r rest h
      have hq : ((sam_req_complete priv i (-ESHUTDOWN)).eplist i).queue = rest := by
        rw [hc.2]
      have hlen : rest.length ≤ n := by simpa using hn
      obtain ⟨h1, h2, h3⟩ := ih n (sam_req_complete priv i (-ESHUTDOWN)) i hq hlen
      have hne : sam_rqempty (priv.eplist i) = false := by simp [sam_rqempty, h]
      simp only [sam_req_cancel_loop, hne, Bool.not_false, if_true]
      refine ⟨?_, h2, ?_⟩
      · rw [h1, hc.1]; simp
      · intro _
        cases rest with
        | nil =>
          cases n with
          | zero => simp [sam_req_cancel_loop, hc.2]
          | succ n => simp [sam_req_cancel_loop, sam_rqempty, hq, hc.2]
        | cons r2 rest2 => exact h3 (by simp)

/-- C9: `sam_req_cancel` on an endpoint whose queue was built by
`sam_req_enqueue` from the requests `rs` (in that order) invokes exactly
one completion callback per request, in enqueue order, each with the result
`-ESHUTDOWN`, and leaves the queue empty (head and tail null). -/
theorem sam_req_cancel_completes_all_in_order (priv : sam_usbdev_s) (i : Nat)
    (rs : List sam_req_s) :
    let ep := rs.foldl sam_req_enqueue { priv.eplist i with queue := [] }
    let out := sam_req_cancel (priv.setep i ep) i
    out.done = priv.done ++ rs.map (fun r => (i, { r with result := -ESHUTDOWN }))
    ∧ sam_rqpeek (out.eplist i) = none
    ∧ sam_rqtail (out.eplist i) = none := by
  intro ep out
  have hfold : ∀ (l : List sam_req_s) (e : sam_ep_s),
      (l.foldl sam_req_enqueue e).queue = e.queue ++ l := by
    intro l
    induction l with
    | nil => intro e; simp
    | cons a l ih => intro e; simp [List.foldl, ih, sam_req_enqueue]
  have hq : ep.queue = rs := by simp [ep, hfold]
  have hspec := sam_req_cancel_loop_spec rs rs.length
    ((priv.setep i ep).putreg (sam_hwop_e.ien_clr_dma (USB_EPNO ep.eplog))) i
    (by simp [hq]) (le_refl _)
  have hout : out = sam_req_cancel_loop rs.length
      ((priv.setep i ep).putreg (sam_hwop_e.ien_clr_dma (USB_EPNO ep.eplog))) i := by
    simp [out, sam_req_cancel, hq]
  rw [hout]
  refine ⟨by simpa using hspec.1, ?_, ?_⟩
  · simp [sam_rqpeek, hspec.2.1]
  · simp [sam_rqtail, hspec.2.1]

/-! ## Submitting and transferring requests -/

/-- The `while` statement of `sam_req_write` never ends on an `IDLE` endpoint. -/
theorem sam_req_write_wait_idle (fuel : Nat) :
    sam_req_write_wait fuel sam_epstate_e.IDLE = none := by
  induction fuel with
  | zero => rfl
  | succ n ih => simp [sam_req_write_wait, ih]

/-- The `while` statement of `sam_req_write` ends at once on an endpoint that
is not `IDLE`. -/
theorem sam_req_write_wait_busy (fuel : Nat) (st : sam_epstate_e)
    (h : st ≠ sam_epstate_e.IDLE) : sam_req_write_wait (fuel + 1) st = some () := by
  simp [sam_req_write_wait, h]

/-- Called on an `IDLE` endpoint, `sam_req_write` does not return. -/
theorem sam_req_write_idle (fuel : Nat) (priv : sam_usbdev_s) (i : Nat)
    (h : (priv.eplist i).epstate = sam_epstate_e.IDLE) : sam_req_write fuel priv i = none := by
  simp [sam_req_write, h, sam_req_write_wait_idle]

/-- C5: on a non-stalled IN endpoint that is `IDLE` with an empty queue,
`sam_ep_submit` of a write request with `len > 0` does not return, whatever
the fuel: it queues the request and calls `sam_req_write`, whose opening
`while (privep->epstate == UDPHS_EPSTATE_IDLE);` spins for ever. -/
theorem sam_ep_submit_write_idle_never_returns (fuel : Nat) (priv : sam_usbdev_s) (i : Nat)
    (req : sam_req_s)
    (hstalled : (priv.eplist i).stalled = false)
    (hin : USB_ISEPIN (priv.eplist i).eplog = true)
    (hidle : (priv.eplist i).epstate = sam_epstate_e.IDLE)
    (_hq : (priv.eplist i).queue = [])
    (_hlen : 0 < req.len) :
    sam_ep_submit fuel priv i req = none := by
  unfold sam_ep_submit
  simp only [hstalled, hin, Bool.true_or, if_true, Bool.false_eq_true, if_false]
  simp only [setep_eplist_same, sam_req_enqueue, hidle, if_true]
  apply sam_req_write_idle
  simp [hidle]

/-- Witness of C5: a 10-byte write request on the idle IN endpoint 8. -/
theorem sam_ep_submit_write_idle_never_returns_witness :
    sam_ep_submit 1000 (g_udphs_setup.setep 8 (mkep 0x88 64 sam_epstate_e.IDLE [])) 8
      (mkreq 1 10 0) = none :=
  sam_ep_submit_write_idle_never_returns 1000
    (g_udphs_setup.setep 8 (mkep 0x88 64 sam_epstate_e.IDLE [])) 8 (mkreq 1 10 0)
    (by simp [mkep]) (by decide) (by simp [mkep]) (by simp [mkep])
    (by simp [mkreq])

/-- C6: on a non-stalled OUT endpoint (endpoint number other than 0) that is
`IDLE`, `sam_ep_submit` of a read request returns `OK` with the request at
the tail of the queue, and the endpoint is still `IDLE`, not `RECEIVING`. -/
theorem sam_ep_submit_read_stays_idle (fuel : Nat) (priv : sam_usbdev_s) (i : Nat)
    (req : sam_req_s)
    (hstalled : (priv.eplist i).stalled = false)
    (hout : USB_ISEPIN (priv.eplist i).eplog = false)
    (hep : USB_EPNO (priv.eplist i).eplog ≠ EP0)
    (hidle : (priv.eplist i).epstate = sam_epstate_e.IDLE) :
    ∃ out, sam_ep_submit fuel priv i req = some (out, OK)
      ∧ sam_rqtail (out.eplist i)
          = some { req with result := -EINPROGRESS, xfrd := 0, inflight := 0 }
      ∧ (out.eplist i).epstate = sam_epstate_e.IDLE
      ∧ (out.eplist i).epstate ≠ sam_epstate_e.RECEIVING := by
  unfold sam_ep_submit
  simp only [hstalled, hout, Bool.false_eq_true, if_false, Bool.false_or, beq_iff_eq, hep]
  refine ⟨_, rfl, ?_, ?_, ?_⟩
  · by_cases hrx : priv.rxpending = true <;>
      simp [hrx, sam_rqtail, sam_req_enqueue]
  · by_cases hrx : priv.rxpending = true <;>
      simp [hrx, sam_req_enqueue, hidle]
  · by_cases hrx : priv.rxpending = true <;>
      simp [hrx, sam_req_enqueue, hidle]

/-- Witness of C6: a 64-byte read request on the idle OUT endpoint 8. -/
theorem sam_ep_submit_read_stays_idle_witness :
    ∃ out, sam_ep_submit 0 (g_udphs_setup.setep 8 (mkep 0x08 64 sam_epstate_e.IDLE [])) 8
        (mkreq 1 64 0) = some (out, OK)
      ∧ sam_rqtail (out.eplist 8)
          = some { mkreq 1 64 0 with result := -EINPROGRESS, xfrd := 0, inflight := 0 }
      ∧ (out.eplist 8).epstate = sam_epstate_e.IDLE
      ∧ (out.eplist 8).epstate ≠ sam_epstate_e.RECEIVING :=
  sam_ep_submit_read_stays_idle 0
    (g_udphs_setup.setep 8 (mkep 0x08 64 sam_epstate_e.IDLE [])) 8 (mkreq 1 64 0)
    (by simp [mkep]) (by decide) (by decide) (by simp [mkep])

/-- The head request after `sam_req_rdnodma` took a packet of `pktsize` bytes:
`inflight` is zero and `xfrd` has grown by `MIN(len - xfrd, pktsize)`. -/
theorem sam_req_rdnodma_head (priv : sam_usbdev_s) (i : Nat) (r : sam_req_s)
    (rest : List sam_req_s) (pktsize : Nat) (hq : (priv.eplist i).queue = r :: rest) :
    ∃ r', ((sam_req_rdnodma priv i r pktsize).1.eplist i).queue = r' :: rest
      ∧ r'.id = r.id ∧ r'.len = r.len ∧ r'.inflight = 0
      ∧ r'.xfrd = (((r.xfrd : Int) + min ((r.len : Int) - r.xfrd) pktsize) % 65536).toNat
      ∧ (sam_req_rdnodma priv i r pktsize).2 = OK
      ∧ ((sam_req_rdnodma priv i r pktsize).1.eplist i).maxpacket = (priv.eplist i).maxpacket
      ∧ ((sam_req_rdnodma priv i r pktsize).1.eplist i).eplog = (priv.eplist i).eplog
      ∧ (sam_req_rdnodma priv i r pktsize).1.done = priv.done := by
  have hmin : (if (r.len : Int) - r.xfrd < (pktsize : Int) then (r.len : Int) - r.xfrd
      else (pktsize : Int)) = min ((r.len : Int) - r.xfrd) pktsize := by
    rcases lt_or_le ((r.len : Int) - r.xfrd) (pktsize : Int) with h | h
    · rw [if_pos h, min_eq_left (le_of_lt h)]
    · rw [if_neg (not_lt.mpr h), min_eq_right h]
  unfold sam_req_rdnodma
  simp only [hmin, setep_eplist_same, sam_ep_s.sethead, hq, setep_done]
  refine ⟨_, rfl, ?_⟩
  refine ⟨rfl, rfl, rfl, rfl, trivial, trivial, trivial, ?_⟩
  split <;> rfl

/-- C7: on a non-DMA OUT endpoint with max-packet size `m > 0` whose head
read request has length `L > 0`, `sam_req_read` completes the head request
with `OK` for every packet size: the test reads `privreq->inflight`, which
`sam_req_rdnodma` has just set to zero, so `inflight < maxpacket` always
holds, also for a full-size packet into a buffer that still has room. -/
theorem sam_req_read_nodma_always_completes (priv : sam_usbdev_s) (i : Nat) (r : sam_req_s)
    (rest : List sam_req_s) (pktsize : Nat)
    (hq : (priv.eplist i).queue = r :: rest)
    (hdma : sam_ep_isdma (USB_EPNO (priv.eplist i).eplog) = false)
    (hm : 0 < (priv.eplist i).maxpacket)
    (hlen : 0 < r.len)
    (_hp : pktsize ≤ (priv.eplist i).maxpacket) :
    ∃ r', (sam_req_read priv i pktsize).1.done = priv.done ++ [(i, r')]
      ∧ r'.id = r.id ∧ r'.result = OK ∧ r'.len = r.len
      ∧ r'.xfrd = (((r.xfrd : Int) + min ((r.len : Int) - r.xfrd) pktsize) % 65536).toNat
      ∧ ((sam_req_read priv i pktsize).1.eplist i).queue = rest := by
  obtain ⟨r', h1, h2, h3, h4, h5, h6, h7, h8, h9⟩ := sam_req_rdnodma_head priv i r rest pktsize hq
  have hlen' : r.len ≠ 0 := Nat.pos_iff_ne_zero.mp hlen
  unfold sam_req_read
  simp only [sam_rqpeek, hq, List.head?_cons, hlen', if_false, hdma, Bool.false_eq_true, h6,
    if_true, h1, h4, h7, hm, decide_True, Bool.true_or]
  set p1 := (sam_req_rdnodma priv i r pktsize).1 with hp1
  set p2 := p1.putreg (sam_hwop_e.eptctldis_rxrdytxkl (USB_EPNO (priv.eplist i).eplog)) with hp2
  set p3 := (if (p2.regs (USB_EPNO (priv.eplist i).eplog)).cfg_type ≠ 0 then
      p2.putreg (sam_hwop_e.ien_clr_ept (USB_EPNO (priv.eplist i).eplog)) else p2) with hp3
  have e3 : p3.eplist = p1.eplist := by
    rw [hp3]; split <;> simp [hp2]
  have d3 : p3.done = priv.done := by
    rw [hp3]; split <;> simp [hp2, h9]
  have hq4 : ((p3.setep i { p3.eplist i with epstate := sam_epstate_e.IDLE }).eplist i).queue
      = r' :: rest := by
    simp [e3, h1]
  obtain ⟨c1, c2⟩ := sam_req_complete_cons _ i OK r' rest hq4
  refine ⟨{ r' with result := OK }, ?_, h2, rfl, h3, h5, ?_⟩
  · rw [c1]; simp [d3]
  · rw [c2]

/-- Witness of C7: a full 64-byte packet into a 128-byte request on the
non-DMA endpoint 8 (max-packet size 64): 64 of 128 bytes are transferred and
the packet is not short, yet the request is completed. -/
theorem sam_req_read_nodma_always_completes_witness :
    ∃ r', (sam_req_read
          (g_udphs_setup.setep 8 (mkep 0x08 64 sam_epstate_e.RECEIVING [mkreq 1 128 0])) 8
          64).1.done
        = (g_udphs_setup.setep 8
            (mkep 0x08 64 sam_epstate_e.RECEIVING [mkreq 1 128 0])).done ++ [(8, r')]
      ∧ r'.id = (mkreq 1 128 0).id ∧ r'.result = OK ∧ r'.len = (mkreq 1 128 0).len
      ∧ r'.xfrd = ((((mkreq 1 128 0).xfrd : Int)
          + min (((mkreq 1 128 0).len : Int) - (mkreq 1 128 0).xfrd) (64 : Nat)) % 65536).toNat
      ∧ ((sam_req_read
          (g_udphs_setup.setep 8 (mkep 0x08 64 sam_epstate_e.RECEIVING [mkreq 1 128 0])) 8
          64).1.eplist 8).queue = [] :=
  sam_req_read_nodma_always_completes
    (g_udphs_setup.setep 8 (mkep 0x08 64 sam_epstate_e.RECEIVING [mkreq 1 128 0])) 8
    (mkreq 1 128 0) [] 64 (by simp [mkep]) (by decide) (by simp [mkep]) (by simp [mkreq])
    (by simp [mkep])

/-- The TX-ready (packet sent) branch of `sam_ep_interrupt` on an endpoint
that is `SENDING` or `EP0STATUSIN` does not return: it sets the endpoint
`IDLE` and calls `sam_req_write`. -/
theorem sam_ep_interrupt_txrdy_sending (fuel : Nat) (priv : sam_usbdev_s) (epno : Nat)
    (hst : (priv.eplist epno).epstate = sam_epstate_e.SENDING
      ∨ (priv.eplist epno).epstate = sam_epstate_e.EP0STATUSIN)
    (hctl : (priv.regs epno).eptctl_txrdy = true)
    (hsta : (priv.regs epno).sta_txrdy = false) :
    sam_ep_interrupt fuel priv epno = none := by
  have hw : sam_req_write fuel
      ((((priv.debugassert (decide (epno < SAM_UDPHS_NENDPOINTS))
          sam_assert_e.ep_interrupt_epno).debugassert
            (sam_rqpeek (priv.eplist epno)).isSome sam_assert_e.ep_interrupt_privreq)).setep epno
        { priv.eplist epno with epstate := sam_epstate_e.IDLE }) epno = none :=
    sam_req_write_idle _ _ _ (by simp)
  unfold sam_ep_interrupt
  simp only [debugassert_regs, debugassert_eplist, hctl, hsta, hst, Bool.not_false,
    Bool.and_self, if_true, hw]

/-- C8: on a non-DMA IN endpoint with max-packet size `m > 0`, a write
request with `len = m` and the NULLPKT flag, submitted while the endpoint is
`IDLE`, is never completed: `sam_ep_submit` does not return (no packet is
handed to the hardware, no callback is made), and a TX-ready interrupt on
the endpoint in the `SENDING` state does not return either. -/
theorem sam_write_nullpkt_never_completes (fuel : Nat) (priv : sam_usbdev_s) (i : Nat)
    (req : sam_req_s)
    (_hdma : sam_ep_isdma (USB_EPNO (priv.eplist i).eplog) = false)
    (hin : USB_ISEPIN (priv.eplist i).eplog = true)
    (hstalled : (priv.eplist i).stalled = false)
    (hidle : (priv.eplist i).epstate = sam_epstate_e.IDLE)
    (_hm : 0 < (priv.eplist i).maxpacket)
    (_hlen : req.len = (priv.eplist i).maxpacket)
    (_hflag : req.flags &&& USBDEV_REQFLAGS_NULLPKT ≠ 0) :
    sam_ep_submit fuel priv i req = none
    ∧ ∀ p : sam_usbdev_s, (p.eplist i).epstate = sam_epstate_e.SENDING →
        (p.regs i).eptctl_txrdy = true → (p.regs i).sta_txrdy = false →
        sam_ep_interrupt fuel p i = none := by
  constructor
  · unfold sam_ep_submit
    simp only [hstalled, hin, Bool.true_or, if_true, Bool.false_eq_true, if_false]
    simp only [setep_eplist_same, sam_req_enqueue, hidle, if_true]
    exact sam_req_write_idle _ _ _ (by simp [hidle])
  · intro p h1 h2 h3
    exact sam_ep_interrupt_txrdy_sending fuel p i (Or.inl h1) h2 h3

/-- Witness of C8: a 64-byte write request with NULLPKT on the idle non-DMA
IN endpoint 8 with max-packet size 64. -/
theorem sam_write_nullpkt_never_completes_witness :
    sam_ep_submit 1000 (g_udphs_setup.setep 8 (mkep 0x88 64 sam_epstate_e.IDLE [])) 8
        (mkreq 1 64 USBDEV_REQFLAGS_NULLPKT) = none
    ∧ ∀ p : sam_usbdev_s, (p.eplist 8).epstate = sam_epstate_e.SENDING →
        (p.regs 8).eptctl_txrdy = true → (p.regs 8).sta_txrdy = false →
        sam_ep_interrupt 1000 p 8 = none :=
  sam_write_nullpkt_never_completes 1000
    (g_udphs_setup.setep 8 (mkep 0x88 64 sam_epstate_e.IDLE [])) 8
    (mkreq 1 64 USBDEV_REQFLAGS_NULLPKT)
    (by decide) (by decide) (by simp [mkep]) (by simp [mkep]) (by simp [mkep])
    (by simp [mkep, mkreq]) (by decide)

/-! ## Device-level frame of the request helpers -/

theorem same_dev.refl (a : sam_usbdev_s) : same_dev a a := by
  constructor <;> rfl

theorem same_dev.trans {a b c : sam_usbdev_s} (h1 : same_dev a b) (h2 : same_dev b c) :
    same_dev a c := by
  constructor
  · exact h1.driver.trans h2.driver
  · exact h1.ctrl.trans h2.ctrl
  · exact h1.devstate.trans h2.devstate
  · exact h1.prevstate.trans h2.prevstate
  · exact h1.devaddr.trans h2.devaddr
  · exact h1.selfpowered.trans h2.selfpowered
  · exact h1.epavail.trans h2.epavail
  · exact h1.ep0out.trans h2.ep0out
  · exact h1.ctrl_devaddr.trans h2.ctrl_devaddr
  · exact h1.ctrl_faddren.trans h2.ctrl_faddren
  · exact h1.intsta_speed.trans h2.intsta_speed
  · exact h1.regs.trans h2.regs
  · exact h1.nbanks.trans h2.nbanks
  · exact h1.cls.trans h2.cls

theorem same_dev_setep (priv : sam_usbdev_s) (i : Nat) (ep : sam_ep_s) :
    same_dev (priv.setep i ep) priv := by
  constructor <;> rfl

theorem same_dev_putreg (priv : sam_usbdev_s) (op : sam_hwop_e) :
    same_dev (priv.putreg op) priv := by
  constructor <;> rfl

theorem same_dev_debugassert (priv : sam_usbdev_s) (c : Bool) (site : sam_assert_e) :
    same_dev (priv.debugassert c site) priv := by
  cases c <;> constructor <;> rfl

theorem same_dev_req_complete (priv : sam_usbdev_s) (i : Nat) (result : Int) :
    same_dev (sam_req_complete priv i result) priv := by
  unfold sam_req_complete
  cases hq : sam_req_dequeue (priv.eplist i) with
  | mk o ep =>
    cases o with
    | none => exact same_dev.refl _
    | some r => constructor <;> simp

theorem same_dev_ep0_setup_terminate (n : Nat) :
    ∀ (priv : sam_usbdev_s) (privreq : Option sam_req_s),
      same_dev (sam_ep0_setup_terminate n priv privreq) priv := by
  induction n with
  | zero => intro priv _; exact same_dev.refl _
  | succ n ih =>
    intro priv privreq
    unfold sam_ep0_setup_terminate
    split
    · exact (ih _ _).trans (same_dev_req_complete _ _ _)
    · exact same_dev.refl _

theorem same_dev_ep0_setup_begin (priv : sam_usbdev_s) :
    same_dev (sam_ep0_setup_begin priv) priv := by
  unfold sam_ep0_setup_begin
  exact (same_dev_setep _ _ _).trans (same_dev_ep0_setup_terminate _ _ _)

/-- After the opening part of `sam_ep0_setup` endpoint 0 is `IDLE` and not
stalled. -/
theorem sam_ep0_setup_begin_ep0 (priv : sam_usbdev_s) :
    ((sam_ep0_setup_begin priv).eplist EP0).epstate = sam_epstate_e.IDLE
    ∧ ((sam_ep0_setup_begin priv).eplist EP0).stalled = false := by
  simp [sam_ep0_setup_begin]

/-- The function `sam_ep_stall` returns `OK` whenever it returns. -/
theorem sam_ep_stall_ok (fuel : Nat) (priv : sam_usbdev_s) (i : Nat) (resume : Bool)
    (r : sam_usbdev_s × Int) (h : sam_ep_stall fuel priv i resume = some r) : r.2 = OK := by
  unfold sam_ep_stall at h
  simp only at h
  split_ifs at h
  · split at h
    · cases h
    · cases h; rfl
  all_goals (cases h; rfl)

/-- A resume request (`sam_ep_stall(ep, true)`) on an endpoint that is `IDLE`
changes nothing. -/
theorem sam_ep_stall_resume_idle (fuel : Nat) (priv : sam_usbdev_s) (i : Nat)
    (h : (priv.eplist i).epstate = sam_epstate_e.IDLE) :
    sam_ep_stall fuel priv i true = some (priv, OK) := by
  unfold sam_ep_stall
  simp [h, sam_usbdev_s.debugassert]

theorem sam_ep0_stall_priv (priv : sam_usbdev_s) (d : sam_ep0_decoded_s)
    (hd : sam_ep0_stall priv = some d) : d.priv = priv := by
  cases hd; rfl

theorem sam_ep0_dispatched_result (fuel : Nat) (priv : sam_usbdev_s) (d : sam_ep0_decoded_s)
    (hd : sam_ep0_dispatched fuel priv = some d) :
    d.ep0result = sam_ep0setup_e.DISPATCHED := by
  unfold sam_ep0_dispatched at hd
  split at hd
  · cases hd
  · cases hd; rfl

theorem sam_ep0_feature_result (fuel : Nat) (priv : sam_usbdev_s) (epno : Nat) (resume : Bool)
    (d : sam_ep0_decoded_s) (hd : sam_ep0_feature fuel priv epno resume = some d) :
    d.ep0result = sam_ep0setup_e.SUCCESS := by
  unfold sam_ep0_feature at hd
  cases hs : sam_ep_stall fuel priv epno resume with
  | none => simp [hs] at hd
  | some r =>
    have hok := sam_ep_stall_ok fuel priv epno resume r hs
    simp only [hs, hok, OK, lt_self_iff_false, if_false] at hd
    cases hd; rfl

/-- When the `switch` of `sam_ep0_setup` ends with `ep0result` being `STALL`,
it has not changed the driver state. -/
theorem sam_ep0_setup_switch_stall (fuel : Nat) (priv : sam_usbdev_s) (d : sam_ep0_decoded_s)
    (hd : sam_ep0_setup_switch fuel priv = some d)
    (hres : d.ep0result = sam_ep0setup_e.STALL) : d.priv = priv := by
  have hD : ∀ d', sam_ep0_dispatched fuel priv = some d' → d' = d → d.priv = priv := by
    intro d' h e
    have := sam_ep0_dispatched_result fuel priv d' h
    rw [e, hres] at this; cases this
  have hF : ∀ p e b d', sam_ep0_feature fuel p e b = some d' → d' = d → d.priv = priv := by
    intro p e b d' h e'
    have := sam_ep0_feature_result fuel p e b d' h
    rw [e', hres] at this; cases this
  have hS : ∀ (p : sam_usbdev_s) (r : sam_ep0setup_e) (x y : Nat),
      r ≠ sam_ep0setup_e.STALL → some (sam_ep0_decoded_s.mk p r x y) = some d →
      d.priv = priv := by
    intro p r x y hr h
    cases h
    exact (hr hres).elim
  unfold sam_ep0_setup_switch at hd
  split_ifs at hd
  · unfold sam_ep0_getstatus at hd
    simp only at hd
    split_ifs at hd
    all_goals first
      | exact sam_ep0_stall_priv _ _ hd
      | exact hS _ _ _ _ (by decide) hd
  · unfold sam_ep0_clearfeature at hd
    simp only at hd
    split_ifs at hd
    · exact hD _ hd rfl
    · exact hF _ _ _ _ hd rfl
    · exact sam_ep0_stall_priv _ _ hd
  · unfold sam_ep0_setfeature at hd
    simp only at hd
    split_ifs at hd
    · exact hS _ _ _ _ (by decide) hd
    · exact hD _ hd rfl
    · exact hF _ _ _ _ hd rfl
    · exact sam_ep0_stall_priv _ _ hd
  · unfold sam_ep0_setaddress at hd
    split_ifs at hd
    · exact sam_ep0_stall_priv _ _ hd
    · exact hS _ _ _ _ (by decide) hd
  · unfold sam_ep0_setup_others at hd
    simp only at hd
    split_ifs at hd
    all_goals first
      | exact sam_ep0_stall_priv _ _ hd
      | exact hD _ hd rfl
      | exact hS _ _ _ _ (by decide) hd

theorem sam_req_complete_hw (priv : sam_usbdev_s) (i : Nat) (result : Int) :
    (sam_req_complete priv i result).hw = priv.hw := by
  unfold sam_req_complete
  cases hq : sam_req_dequeue (priv.eplist i) with
  | mk o ep =>
    cases o with
    | none => rfl
    | some r => simp

theorem sam_ep0_setup_begin_hw (priv : sam_usbdev_s) :
    (sam_ep0_setup_begin priv).hw = priv.hw := by
  have h : ∀ (n : Nat) (p : sam_usbdev_s) (r : Option sam_req_s),
      (sam_ep0_setup_terminate n p r).hw = p.hw := by
    intro n
    induction n with
    | zero => intro p r; rfl
    | succ n ih =>
      intro p r
      unfold sam_ep0_setup_terminate
      split
      · rw [ih, sam_req_complete_hw]
      · rfl
  simp [sam_ep0_setup_begin, h]

/-! ## Endpoint 0: SETUP processing -/

/-- C1: for every standard SETUP packet whose decoded outcome in
`sam_ep0_setup` is `STALL`, `sam_ep0_setup` returns with endpoint 0 in the
`IDLE` state and its stalled flag clear, and without any register write: the
`STALL` case calls `sam_ep_stall(ep0, true)`, a resume request, which does
nothing on the `IDLE` endpoint.  The request is dropped. -/
theorem sam_ep0_setup_stall_outcome_leaves_ep0_idle (fuel : Nat) (priv : sam_usbdev_s)
    (hstd : sam_ep0_isstandard priv.ctrl = true)
    (hres : sam_ep0_setup_result fuel priv = some sam_ep0setup_e.STALL) :
    ∃ out, sam_ep0_setup fuel priv = some out
      ∧ (out.eplist EP0).epstate = sam_epstate_e.IDLE
      ∧ (out.eplist EP0).stalled = false
      ∧ out.hw = priv.hw := by
  have hc : (sam_ep0_setup_begin priv).ctrl = priv.ctrl := (same_dev_ep0_setup_begin priv).ctrl
  obtain ⟨hidle, hnst⟩ := sam_ep0_setup_begin_ep0 priv
  unfold sam_ep0_setup_result at hres
  unfold sam_ep0_setup
  simp only [hc, hstd, Bool.not_true, Bool.false_eq_true, if_false] at hres ⊢
  cases hsw : sam_ep0_setup_switch fuel (sam_ep0_setup_begin priv) with
  | none => simp [hsw] at hres
  | some d =>
    have hr : d.ep0result = sam_ep0setup_e.STALL := by simpa [hsw] using hres
    have hp : d.priv = sam_ep0_setup_begin priv := sam_ep0_setup_switch_stall _ _ _ hsw hr
    refine ⟨sam_ep0_setup_begin priv, ?_, hidle, hnst, sam_ep0_setup_begin_hw priv⟩
    simp only [sam_ep0_setup_finish, hr, hp, sam_ep_stall_resume_idle fuel _ EP0 hidle]

/-- Witness of C1: a standard SETUP packet with the unknown request code
0x55. -/
theorem sam_ep0_setup_stall_outcome_leaves_ep0_idle_witness :
    ∃ out, sam_ep0_setup 10
        { g_udphs_setup with ctrl := { type := 0, req := 0x55, value := 0, index := 0, len := 0 } }
        = some out
      ∧ (out.eplist EP0).epstate = sam_epstate_e.IDLE
      ∧ (out.eplist EP0).stalled = false
      ∧ out.hw
        = ({ g_udphs_setup with
              ctrl := { type := 0, req := 0x55, value := 0, index := 0, len := 0 } }).hw :=
  sam_ep0_setup_stall_outcome_leaves_ep0_idle 10
    { g_udphs_setup with ctrl := { type := 0, req := 0x55, value := 0, index := 0, len := 0 } }
    (by decide) (by decide)

/-- The `case USB_REQ_SETADDRESS` is the one taken for the request code 5. -/
theorem sam_ep0_setup_switch_setaddress (fuel : Nat) (priv : sam_usbdev_s)
    (hreq : priv.ctrl.req = USB_REQ_SETADDRESS) :
    sam_ep0_setup_switch fuel priv = sam_ep0_setaddress priv := by
  unfold sam_ep0_setup_switch
  simp [hreq, USB_REQ_SETADDRESS, USB_REQ_GETSTATUS, USB_REQ_CLEARFEATURE, USB_REQ_SETFEATURE]

/-- C4: for every standard SET_ADDRESS SETUP packet the outcome of
`sam_ep0_setup` is `ADDRESS` if and only if the recipient is the device,
`index = 0`, `len = 0` and `value ≤ 127`, and `STALL` otherwise.  In the
`ADDRESS` case the value is recorded in `devaddr`, the device state is
unchanged and endpoint 0 is in `EP0ADDRESS`; in the `STALL` case `devaddr`
is unchanged. -/
theorem sam_ep0_setup_setaddress_outcome (fuel : Nat) (priv : sam_usbdev_s)
    (hstd : sam_ep0_isstandard priv.ctrl = true)
    (hreq : priv.ctrl.req = USB_REQ_SETADDRESS) :
    (sam_ep0_setup_result fuel priv = some sam_ep0setup_e.ADDRESS ↔
      (priv.ctrl.type &&& USB_REQ_RECIPIENT_MASK = USB_REQ_RECIPIENT_DEVICE
        ∧ priv.ctrl.index = 0 ∧ priv.ctrl.len = 0 ∧ priv.ctrl.value ≤ 127))
    ∧ (sam_ep0_setup_result fuel priv = some sam_ep0setup_e.ADDRESS
        ∨ sam_ep0_setup_result fuel priv = some sam_ep0setup_e.STALL)
    ∧ ∃ out, sam_ep0_setup fuel priv = some out
      ∧ (sam_ep0_setup_result fuel priv = some sam_ep0setup_e.ADDRESS →
          out.devaddr = priv.ctrl.value ∧ out.devstate = priv.devstate
          ∧ (out.eplist EP0).epstate = sam_epstate_e.EP0ADDRESS)
      ∧ (sam_ep0_setup_result fuel priv = some sam_ep0setup_e.STALL →
          out.devaddr = priv.devaddr) := by
  have hsd := same_dev_ep0_setup_begin priv
  have hc : (sam_ep0_setup_begin priv).ctrl = priv.ctrl := hsd.ctrl
  have hreq' : (sam_ep0_setup_begin priv).ctrl.req = USB_REQ_SETADDRESS := by rw [hc]; exact hreq
  obtain ⟨hidle, -⟩ := sam_ep0_setup_begin_ep0 priv
  unfold sam_ep0_setup_result sam_ep0_setup
  simp only [hc, hstd, Bool.not_true, Bool.false_eq_true, if_false]
  by_cases hok : priv.ctrl.type &&& USB_REQ_RECIPIENT_MASK = USB_REQ_RECIPIENT_DEVICE
      ∧ priv.ctrl.index = 0 ∧ priv.ctrl.len = 0 ∧ priv.ctrl.value ≤ 127
  · have hv : priv.ctrl.value % 256 = priv.ctrl.value := Nat.mod_eq_of_lt (by omega)
    have hcond : ¬ (priv.ctrl.type &&& USB_REQ_RECIPIENT_MASK ≠ USB_REQ_RECIPIENT_DEVICE
        ∨ priv.ctrl.index ≠ 0 ∨ priv.ctrl.len ≠ 0 ∨ priv.ctrl.value > 127) := by
      obtain ⟨h1, h2, h3, h4⟩ := hok
      simp [h1, h2, h3]; omega
    have hsw : sam_ep0_setup_switch fuel (sam_ep0_setup_begin priv)
        = some ⟨{ sam_ep0_setup_begin priv with
              devaddr := (sam_ep0_setup_begin priv).ctrl.value % 256 },
            sam_ep0setup_e.ADDRESS, 0, 0⟩ := by
      rw [sam_ep0_setup_switch_setaddress fuel _ hreq']
      unfold sam_ep0_setaddress
      rw [← hc] at hcond
      rw [if_neg hcond]
    rw [hsw]
    refine ⟨by simp [hok], Or.inl rfl, _, rfl, ?_, ?_⟩
    · intro _
      simp [sam_ep0_setup_finish, sam_ep0_wrstatus, hc, hok.2.2.1, hv, hsd.devstate]
    · intro h; simp at h
  · have hcond : (priv.ctrl.type &&& USB_REQ_RECIPIENT_MASK ≠ USB_REQ_RECIPIENT_DEVICE
        ∨ priv.ctrl.index ≠ 0 ∨ priv.ctrl.len ≠ 0 ∨ priv.ctrl.value > 127) := by
      by_contra hn
      push_neg at hn
      exact hok ⟨hn.1, hn.2.1, hn.2.2.1, hn.2.2.2⟩
    have hsw : sam_ep0_setup_switch fuel (sam_ep0_setup_begin priv)
        = some ⟨sam_ep0_setup_begin priv, sam_ep0setup_e.STALL, 0, 0⟩ := by
      rw [sam_ep0_setup_switch_setaddress fuel _ hreq']
      unfold sam_ep0_setaddress
      rw [← hc] at hcond
      rw [if_pos hcond]
      rfl
    rw [hsw]
    refine ⟨by simp [hok], Or.inr rfl, sam_ep0_setup_begin priv, ?_, ?_, ?_⟩
    · simp only [sam_ep0_setup_finish, sam_ep_stall_resume_idle fuel _ EP0 hidle]
    · intro h; simp at h
    · intro _; exact hsd.devaddr

/-- Witness of C4: SET_ADDRESS with the address 5. -/
theorem sam_ep0_setup_setaddress_outcome_witness :
    (sam_ep0_setup_result 10 (dev_default ⟨0, 5, 5, 0, 0⟩) = some sam_ep0setup_e.ADDRESS ↔
      ((dev_default ⟨0, 5, 5, 0, 0⟩).ctrl.type &&& USB_REQ_RECIPIENT_MASK
          = USB_REQ_RECIPIENT_DEVICE
        ∧ (dev_default ⟨0, 5, 5, 0, 0⟩).ctrl.index = 0
        ∧ (dev_default ⟨0, 5, 5, 0, 0⟩).ctrl.len = 0
        ∧ (dev_default ⟨0, 5, 5, 0, 0⟩).ctrl.value ≤ 127))
    ∧ (sam_ep0_setup_result 10 (dev_default ⟨0, 5, 5, 0, 0⟩) = some sam_ep0setup_e.ADDRESS
        ∨ sam_ep0_setup_result 10 (dev_default ⟨0, 5, 5, 0, 0⟩) = some sam_ep0setup_e.STALL)
    ∧ ∃ out, sam_ep0_setup 10 (dev_default ⟨0, 5, 5, 0, 0⟩) = some out
      ∧ (sam_ep0_setup_result 10 (dev_default ⟨0, 5, 5, 0, 0⟩) = some sam_ep0setup_e.ADDRESS →
          out.devaddr = (dev_default ⟨0, 5, 5, 0, 0⟩).ctrl.value
          ∧ out.devstate = (dev_default ⟨0, 5, 5, 0, 0⟩).devstate
          ∧ (out.eplist EP0).epstate = sam_epstate_e.EP0ADDRESS)
      ∧ (sam_ep0_setup_result 10 (dev_default ⟨0, 5, 5, 0, 0⟩) = some sam_ep0setup_e.STALL →
          out.devaddr = (dev_default ⟨0, 5, 5, 0, 0⟩).devaddr) :=
  sam_ep0_setup_setaddress_outcome 10 (dev_default ⟨0, 5, 5, 0, 0⟩) (by decide) (by decide)

/-- What `sam_ep0_setup` returns for a well-formed SET_ADDRESS packet. -/
theorem sam_ep0_setup_setaddress_ok (fuel : Nat) (priv : sam_usbdev_s)
    (hstd : sam_ep0_isstandard priv.ctrl = true)
    (hreq : priv.ctrl.req = USB_REQ_SETADDRESS)
    (hok : priv.ctrl.type &&& USB_REQ_RECIPIENT_MASK = USB_REQ_RECIPIENT_DEVICE
      ∧ priv.ctrl.index = 0 ∧ priv.ctrl.len = 0 ∧ priv.ctrl.value ≤ 127) :
    sam_ep0_setup fuel priv = some
      (({ sam_ep0_setup_begin priv with devaddr := priv.ctrl.value }).setep EP0
        { (sam_ep0_setup_begin priv).eplist EP0 with epstate := sam_epstate_e.EP0ADDRESS }) := by
  have hsd := same_dev_ep0_setup_begin priv
  have hc : (sam_ep0_setup_begin priv).ctrl = priv.ctrl := hsd.ctrl
  have hreq' : (sam_ep0_setup_begin priv).ctrl.req = USB_REQ_SETADDRESS := by rw [hc]; exact hreq
  have hv : priv.ctrl.value % 256 = priv.ctrl.value := Nat.mod_eq_of_lt (by omega)
  have hcond : ¬ (priv.ctrl.type &&& USB_REQ_RECIPIENT_MASK ≠ USB_REQ_RECIPIENT_DEVICE
      ∨ priv.ctrl.index ≠ 0 ∨ priv.ctrl.len ≠ 0 ∨ priv.ctrl.value > 127) := by
    obtain ⟨h1, h2, h3, h4⟩ := hok
    simp [h1, h2, h3]; omega
  have hsw : sam_ep0_setup_switch fuel (sam_ep0_setup_begin priv)
      = some ⟨{ sam_ep0_setup_begin priv with
            devaddr := (sam_ep0_setup_begin priv).ctrl.value % 256 },
          sam_ep0setup_e.ADDRESS, 0, 0⟩ := by
    rw [sam_ep0_setup_switch_setaddress fuel _ hreq']
    unfold sam_ep0_setaddress
    rw [← hc] at hcond
    rw [if_neg hcond]
  unfold sam_ep0_setup
  simp only [hc, hstd, Bool.not_true, Bool.false_eq_true, if_false, hsw]
  simp [sam_ep0_setup_finish, sam_ep0_wrstatus, hc, hok.2.2.1, hv]

/-- C3: for every address `a` with `1 ≤ a ≤ 127` and a device in the `DEFAULT`
state, after `sam_ep0_setup` processed SET_ADDRESS(value = a, index = 0,
len = 0, recipient device) the device state is still `DEFAULT`, the address
field and address-enable bit of the controller are untouched and endpoint 0
is in `EP0ADDRESS`; after the next endpoint 0 interrupt that reports TX-ready
(packet sent, no packet received) the address field of the controller is `a`
with the address-enable bit set and the device state is `ADDRESS`. -/
theorem sam_setaddress_applied_after_txready (fuel : Nat) (priv : sam_usbdev_s) (a t : Nat)
    (ha1 : 1 ≤ a) (ha2 : a ≤ 127)
    (hdef : priv.devstate = sam_devstate_e.DEFAULT)
    (hctrl : priv.ctrl
      = { type := t, req := USB_REQ_SETADDRESS, value := a, index := 0, len := 0 })
    (ht1 : t &&& USB_REQ_TYPE_MASK = USB_REQ_TYPE_STANDARD)
    (ht2 : t &&& USB_REQ_RECIPIENT_MASK = USB_REQ_RECIPIENT_DEVICE) :
    ∃ p1, sam_ep0_setup fuel priv = some p1
      ∧ p1.devstate = sam_devstate_e.DEFAULT
      ∧ p1.ctrl_devaddr = priv.ctrl_devaddr
      ∧ p1.ctrl_faddren = priv.ctrl_faddren
      ∧ (p1.eplist EP0).epstate = sam_epstate_e.EP0ADDRESS
      ∧ ∀ r : sam_eptregs_s, r.eptctl_txrdy = true → r.sta_txrdy = false →
          r.sta_rxrdytxkl = false → r.sta_rxsetup = false →
          ∃ p2, sam_ep_interrupt fuel (p1.hwevent EP0 r) EP0 = some p2
            ∧ p2.ctrl_devaddr = a ∧ p2.ctrl_faddren = true
            ∧ p2.devstate = sam_devstate_e.ADDRESS := by
  have hsd := same_dev_ep0_setup_begin priv
  have hstd : sam_ep0_isstandard priv.ctrl = true := by
    simp [sam_ep0_isstandard, hctrl, ht1]
  have hset := sam_ep0_setup_setaddress_ok fuel priv hstd (by rw [hctrl])
    (by rw [hctrl]; exact ⟨ht2, rfl, rfl, ha2⟩)
  refine ⟨_, hset, ?_, ?_, ?_, ?_, ?_⟩
  · simp [hsd.devstate, hdef]
  · simp [hsd.ctrl_devaddr]
  · simp [hsd.ctrl_faddren]
  · simp
  · intro r h1 h2 h3 h4
    have ha0 : a ≠ 0 := by omega
    have hand : a &&& 0x7f = a := by
      have := Nat.and_pow_two_sub_one_eq_mod a 7
      simp only [Nat.reducePow, Nat.add_one_sub_one] at this
      rw [show (0x7f : Nat) = 127 from rfl, this]
      exact Nat.mod_eq_of_lt (by omega)
    unfold sam_ep_interrupt
    simp only [sam_usbdev_s.hwevent, debugassert_regs, debugassert_eplist, Function.update_same,
      h1, h2, h3, h4, Bool.not_false, Bool.and_self, if_true, Bool.false_eq_true, if_false,
      setep_eplist_same, debugassert_devaddr, hctrl]
    simp only [reduceCtorEq, or_self, if_false, if_true]
    split_ifs <;>
      simp [sam_setdevaddr, ha0, hand, (same_dev_req_complete _ _ _).ctrl_devaddr,
        (same_dev_req_complete _ _ _).ctrl_faddren, (same_dev_req_complete _ _ _).devstate]

/-- Witness of C3: SET_ADDRESS with the address 5 on the device in the
`DEFAULT` state. -/
theorem sam_setaddress_applied_after_txready_witness :
    ∃ p1, sam_ep0_setup 10 (dev_default ⟨0, 5, 5, 0, 0⟩) = some p1
      ∧ p1.devstate = sam_devstate_e.DEFAULT
      ∧ p1.ctrl_devaddr = (dev_default ⟨0, 5, 5, 0, 0⟩).ctrl_devaddr
      ∧ p1.ctrl_faddren = (dev_default ⟨0, 5, 5, 0, 0⟩).ctrl_faddren
      ∧ (p1.eplist EP0).epstate = sam_epstate_e.EP0ADDRESS
      ∧ ∀ r : sam_eptregs_s, r.eptctl_txrdy = true → r.sta_txrdy = false →
          r.sta_rxrdytxkl = false → r.sta_rxsetup = false →
          ∃ p2, sam_ep_interrupt 10 (p1.hwevent EP0 r) EP0 = some p2
            ∧ p2.ctrl_devaddr = 5 ∧ p2.ctrl_faddren = true
            ∧ p2.devstate = sam_devstate_e.ADDRESS :=
  sam_setaddress_applied_after_txready 10 (dev_default ⟨0, 5, 5, 0, 0⟩) 5 0
    (by decide) (by decide) rfl rfl (by decide) (by decide)

/-! ## Bus reset -/

theorem same_dev_req_cancel_loop (n : Nat) :
    ∀ (priv : sam_usbdev_s) (i : Nat), same_dev (sam_req_cancel_loop n priv i) priv := by
  induction n with
  | zero => intro priv _; exact same_dev.refl _
  | succ n ih =>
    intro priv i
    unfold sam_req_cancel_loop
    split
    · exact (ih _ _).trans (same_dev_req_complete _ _ _)
    · exact same_dev.refl _

theorem same_dev_req_cancel (priv : sam_usbdev_s) (i : Nat) :
    same_dev (sam_req_cancel priv i) priv := by
  unfold sam_req_cancel
  exact (same_dev_req_cancel_loop _ _ _).trans (same_dev_putreg _ _)

theorem same_dev_ep_reset (priv : sam_usbdev_s) (epno : Nat) :
    same_dev (sam_ep_reset priv epno) priv := by
  unfold sam_ep_reset
  exact (same_dev_setep _ _ _).trans ((same_dev_putreg _ _).trans
    ((same_dev_req_cancel _ _).trans (same_dev_putreg _ _)))

theorem same_dev_epset_reset_loop (n : Nat) :
    ∀ (priv : sam_usbdev_s) (epno bit epset : Nat),
      same_dev (sam_epset_reset_loop n priv epno bit epset) priv := by
  induction n with
  | zero => intro priv _ _ _; exact same_dev.refl _
  | succ n ih =>
    intro priv epno bit epset
    unfold sam_epset_reset_loop
    split_ifs
    · exact (ih _ _ _ _).trans (same_dev_ep_reset _ _)
    · exact ih _ _ _ _
    · exact same_dev.refl _

theorem same_dev_reset_loop (n : Nat) :
    ∀ (priv : sam_usbdev_s) (epno : Nat), same_dev (sam_reset_loop n priv epno) priv := by
  induction n with
  | zero => intro priv _; exact same_dev.refl _
  | succ n ih =>
    intro priv epno
    unfold sam_reset_loop
    split_ifs
    · exact (ih _ _).trans ((same_dev_setep _ _ _).trans (same_dev_req_cancel _ _))
    · exact same_dev.refl _

/-- The device state and address after `sam_ep_configure_internal`: when the
hardware reports the configuration as mapped, the device state is
`CONFIGURED`; the address is never changed. -/
theorem sam_ep_configure_internal_devstate (priv : sam_usbdev_s) (i : Nat) (desc : usb_epdesc_s) :
    (sam_ep_configure_internal priv i desc).1.devstate
        = (if (priv.regs (USB_EPNO desc.addr)).cfg_mapd = true then sam_devstate_e.CONFIGURED
           else priv.devstate)
    ∧ (sam_ep_configure_internal priv i desc).1.devaddr = priv.devaddr := by
  unfold sam_ep_configure_internal
  simp only
  by_cases hm : (priv.regs (USB_EPNO desc.addr)).cfg_mapd = true
  · simp only [hm, if_true]
    split_ifs <;> simp_all
  · simp only [hm, if_false]
    split_ifs <;> simp_all

/-- C2: after `sam_reset` the assigned address `devaddr` is 0, but when the
hardware accepts the default configuration of endpoint 0 the device state
is `CONFIGURED`, not `DEFAULT`: `sam_reset` sets `DEFAULT` and then calls
`sam_ep_configure_internal` for endpoint 0, which ends with
`priv->devstate = UDPHS_DEVSTATE_CONFIGURED`. -/
theorem sam_reset_leaves_configured (priv : sam_usbdev_s)
    (_hdriver : priv.driver.isSome = true)
    (hmapd : (priv.regs EP0).cfg_mapd = true) :
    (sam_reset priv).devstate = sam_devstate_e.CONFIGURED
    ∧ (sam_reset priv).devstate ≠ sam_devstate_e.DEFAULT
    ∧ (sam_reset priv).devaddr = 0 := by
  have key : (sam_reset priv).devstate = sam_devstate_e.CONFIGURED
      ∧ (sam_reset priv).devaddr = 0 := by
    unfold sam_reset
    simp only
    set p0 : sam_usbdev_s :=
      { sam_setdevaddr
          { ({ priv.putreg sam_hwop_e.enableclk with
                cls := (priv.putreg sam_hwop_e.enableclk).cls ++ [sam_class_e.disconnect] })
            with devaddr := 0 } 0 with
        devstate := sam_devstate_e.DEFAULT, rxpending := false } with hp0
    have h0 : p0.devaddr = 0 ∧ p0.regs = priv.regs := by
      simp [hp0, sam_setdevaddr]
    have h1 := same_dev_epset_reset_loop SAM_UDPHS_NENDPOINTS p0 0 1
      (SAM_EPSET_ALL &&& SAM_EPSET_ALL)
    have h2 := sam_ep_configure_internal_devstate (sam_epset_reset p0 SAM_EPSET_ALL) EP0 g_ep0desc
    have h3 := same_dev_reset_loop SAM_UDPHS_NENDPOINTS
      (sam_ep_configure_internal (sam_epset_reset p0 SAM_EPSET_ALL) EP0 g_ep0desc).1 0
    have hregs : (sam_epset_reset p0 SAM_EPSET_ALL).regs = priv.regs := by
      unfold sam_epset_reset
      rw [h1.regs, h0.2]
    have hepno : USB_EPNO g_ep0desc.addr = EP0 := by decide
    rw [hregs, hepno, hmapd] at h2
    constructor
    · show (sam_reset_loop _ _ _).devstate = _
      rw [h3.devstate, h2.1]; rfl
    · show (sam_reset_loop _ _ _).devaddr = _
      rw [h3.devaddr, h2.2]
      unfold sam_epset_reset
      rw [h1.devaddr, h0.1]
  exact ⟨key.1, by rw [key.1]; decide, key.2⟩

/-- Witness of C2: a bus reset of the device in the `ADDRESS` state with the
address 5, on hardware that reports endpoint 0 as mapped. -/
theorem sam_reset_leaves_configured_witness :
    (sam_reset dev_addressed).devstate = sam_devstate_e.CONFIGURED
    ∧ (sam_reset dev_addressed).devstate ≠ sam_devstate_e.DEFAULT
    ∧ (sam_reset dev_addressed).devaddr = 0 :=
  sam_reset_leaves_configured dev_addressed (by decide) (by decide)

/-! ## Endpoint allocation -/

theorem and_ep_bit_ne_zero {x e : Nat} (h : x &&& (SAM_EP_BIT e % 256) ≠ 0) :
    e < 8 ∧ x.testBit e = true := by
  obtain ⟨j, hj⟩ := Nat.ne_zero_implies_bit_true h
  have h256 : (256 : Nat) = 2 ^ 8 := rfl
  rw [h256] at hj
  simp only [Nat.testBit_and, Nat.testBit_mod_two_pow, SAM_EP_BIT, Nat.one_shiftLeft,
    Nat.testBit_two_pow, Bool.and_eq_true, decide_eq_true_eq] at hj
  obtain ⟨hx, hlt, he⟩ := hj
  subst he
  exact ⟨hlt, hx⟩

theorem testBit_ep_clear {a e j : Nat} (he : e < 8)
    (h : ((a &&& not32 (SAM_EP_BIT e % 256)) % 65536).testBit j = true) :
    a.testBit j = true ∧ j ≠ e := by
  have h65536 : (65536 : Nat) = 2 ^ 16 := rfl
  have hmod : SAM_EP_BIT e % 256 = 2 ^ e := by
    rw [SAM_EP_BIT, Nat.one_shiftLeft]
    apply Nat.mod_eq_of_lt
    calc 2 ^ e < 2 ^ 8 := Nat.pow_lt_pow_right (by decide) he
      _ = 256 := rfl
  have hff : (0xffffffff : Nat) = 2 ^ 32 - 1 := rfl
  rw [h65536, hmod, not32, hff] at h
  simp only [Nat.testBit_mod_two_pow, Nat.testBit_and, Nat.testBit_xor,
    Nat.testBit_two_pow_sub_one, Nat.testBit_two_pow, Bool.and_eq_true, decide_eq_true_eq,
    bne_iff_ne, ne_eq] at h
  obtain ⟨_, ha, hne⟩ := h
  refine ⟨ha, ?_⟩
  intro hje
  subst hje
  have : j < 32 := by omega
  simp [this] at hne

theorem testBit_ep_set {a i j : Nat}
    (h : ((a ||| SAM_EP_BIT i) % 65536).testBit j = true) : a.testBit j = true ∨ j = i := by
  have h65536 : (65536 : Nat) = 2 ^ 16 := rfl
  rw [h65536, SAM_EP_BIT, Nat.one_shiftLeft] at h
  simp only [Nat.testBit_mod_two_pow, Nat.testBit_or, Nat.testBit_two_pow, Bool.and_eq_true,
    Bool.or_eq_true, decide_eq_true_eq] at h
  rcases h.2 with h1 | h1
  · exact Or.inl h1
  · exact Or.inr h1.symm

theorem USB_EPNO_index (i : Fin SAM_UDPHS_NENDPOINTS) : USB_EPNO i.val = i.val := by
  revert i
  decide

/-- The loop of `sam_ep_reserve` returns an endpoint whose bit is in `epset`,
at or after the index it started from, and clears that bit in `epavail`. -/
theorem sam_ep_reserve_loop_some (n : Nat) :
    ∀ (priv : sam_usbdev_s) (epset epndx : Nat) (p : sam_usbdev_s) (e : Nat),
      sam_ep_reserve_loop n priv epset epndx = (p, some e) →
      epndx ≤ e ∧ epset &&& (SAM_EP_BIT e % 256) ≠ 0
      ∧ p = { priv with epavail := (priv.epavail &&& not32 (SAM_EP_BIT e % 256)) % 65536 } := by
  induction n with
  | zero =>
    intro priv epset epndx p e h
    simp [sam_ep_reserve_loop] at h
  | succ n ih =>
    intro priv epset epndx p e h
    unfold sam_ep_reserve_loop at h
    simp only at h
    split_ifs at h with h1 h2
    · simp only [Prod.mk.injEq, Option.some.injEq] at h
      obtain ⟨hp, he⟩ := h
      subst he
      exact ⟨le_refl _, h2, hp.symm⟩
    · obtain ⟨hle, hb, hp⟩ := ih priv epset (epndx + 1) p e h
      exact ⟨by omega, hb, hp⟩
    · simp at h

/-- The loop of `sam_ep_reserve` leaves the state alone when it finds nothing. -/
theorem sam_ep_reserve_loop_none (n : Nat) :
    ∀ (priv : sam_usbdev_s) (epset epndx : Nat) (p : sam_usbdev_s),
      sam_ep_reserve_loop n priv epset epndx = (p, none) → p = priv := by
  induction n with
  | zero =>
    intro priv epset epndx p h
    simp only [sam_ep_reserve_loop, Prod.mk.injEq] at h
    exact h.1.symm
  | succ n ih =>
    intro priv epset epndx p h
    unfold sam_ep_reserve_loop at h
    simp only at h
    split_ifs at h with h1 h2
    · simp at h
    · exact ih priv epset (epndx + 1) p h
    · simp only [Prod.mk.injEq] at h
      exact h.1.symm

/-- An endpoint returned by `sam_ep_reserve` is not endpoint 0, was marked
available, and its bit (and only its bit) is cleared in `epavail`. -/
theorem sam_ep_reserve_some (priv : sam_usbdev_s) (epset : Nat) (p : sam_usbdev_s) (e : Nat)
    (h : sam_ep_reserve priv epset = (p, some e)) :
    1 ≤ e ∧ e < 8 ∧ priv.epavail.testBit e = true
    ∧ p = { priv with epavail := (priv.epavail &&& not32 (SAM_EP_BIT e % 256)) % 65536 } := by
  unfold sam_ep_reserve at h
  simp only at h
  split_ifs at h with h1
  · obtain ⟨hle, hb, hp⟩ := sam_ep_reserve_loop_some _ _ _ _ _ _ h
    obtain ⟨he8, hbit⟩ := and_ep_bit_ne_zero hb
    have h256 : (256 : Nat) = 2 ^ 8 := rfl
    rw [h256] at hbit
    simp only [Nat.testBit_mod_two_pow, Nat.testBit_and, Bool.and_eq_true,
      decide_eq_true_eq] at hbit
    exact ⟨hle, he8, hbit.2.2, hp⟩
  · simp at h

theorem sam_ep_reserve_none (priv : sam_usbdev_s) (epset : Nat) (p : sam_usbdev_s)
    (h : sam_ep_reserve priv epset = (p, none)) : p = priv := by
  unfold sam_ep_reserve at h
  simp only at h
  split_ifs at h with h1
  · exact sam_ep_reserve_loop_none _ _ _ _ _ h
  · simp only [Prod.mk.injEq] at h
    exact h.1.symm

theorem sam_allocep_some (priv : sam_usbdev_s) (epno : Nat) (dirin : Bool) (eptype : Nat)
    (p : sam_usbdev_s) (e : Nat) (h : sam_allocep priv epno dirin eptype = (p, some e)) :
    1 ≤ e ∧ e < 8 ∧ priv.epavail.testBit e = true
    ∧ p = { priv with epavail := (priv.epavail &&& not32 (SAM_EP_BIT e % 256)) % 65536 } := by
  unfold sam_allocep at h
  simp only at h
  split_ifs at h
  · simp at h
  · exact sam_ep_reserve_some _ _ _ _ h
  · exact sam_ep_reserve_some _ _ _ _ h

theorem sam_allocep_none (priv : sam_usbdev_s) (epno : Nat) (dirin : Bool) (eptype : Nat)
    (p : sam_usbdev_s) (h : sam_allocep priv epno dirin eptype = (p, none)) : p = priv := by
  unfold sam_allocep at h
  simp only at h
  split_ifs at h
  · simp only [Prod.mk.injEq] at h
    exact h.1.symm
  · exact sam_ep_reserve_none _ _ _ h
  · exact sam_ep_reserve_none _ _ _ h

/-- The allocator invariant holds after `sam_sw_setup`, with nothing
allocated. -/
theorem sam_alloc_inv_setup (priv : sam_usbdev_s) (maxpacketsize : Nat → Nat) :
    sam_alloc_inv (sam_sw_setup priv maxpacketsize, []) := by
  refine ⟨by simp, ?_⟩
  intro i hi
  simp [sam_sw_setup, hi]

/-- Every allocator call preserves the allocator invariant. -/
theorem sam_alloc_inv_step (s : sam_usbdev_s × List Nat) (op : sam_allocop_e)
    (hinv : sam_alloc_inv s) : sam_alloc_inv (sam_alloc_step s op) := by
  obtain ⟨hheld, hlog⟩ := hinv
  cases op with
  | allocep epno dirin eptype =>
    unfold sam_alloc_step
    simp only
    cases hr : sam_allocep s.1 epno dirin eptype with
    | mk p o =>
      cases o with
      | none =>
        have hp := sam_allocep_none _ _ _ _ _ hr
        subst hp
        exact ⟨hheld, hlog⟩
      | some e =>
        obtain ⟨h1, h8, _, hp⟩ := sam_allocep_some _ _ _ _ _ _ hr
        subst hp
        refine ⟨?_, hlog⟩
        intro j hj
        by_contra hcon
        have hset : ((s.1.epavail &&& not32 (SAM_EP_BIT e % 256)) % 65536).testBit j = true := by
          simpa using hcon
        obtain ⟨ha, hne⟩ := testBit_ep_clear h8 hset
        rcases List.mem_cons.mp hj with hje | hjs
        · exact hne hje
        · rw [hheld j hjs] at ha
          cases ha
  | freeep i =>
    unfold sam_alloc_step
    simp only
    refine ⟨?_, ?_⟩
    · intro j hj
      obtain ⟨hjs, hne⟩ := List.mem_filter.mp hj
      have hne' : j ≠ i.val := by simpa using hne
      by_contra hcon
      have hi : USB_EPNO ((s.1.eplist i.val).eplog) = i.val := by
        rw [hlog i.val i.isLt]
        exact USB_EPNO_index i
      have hset : ((s.1.epavail ||| SAM_EP_BIT i.val) % 65536).testBit j = true := by
        have : (sam_freeep s.1 i.val).epavail = (s.1.epavail ||| SAM_EP_BIT i.val) % 65536 := by
          simp [sam_freeep, sam_ep_unreserve, hi]
        rw [← this]
        simpa using hcon
      rcases testBit_ep_set hset with ha | ha
      · rw [hheld j hjs] at ha
        cases ha
      · exact hne' ha
    · intro k hk
      exact hlog k hk

/-- The allocator invariant holds after every sequence of allocator calls
that starts from the state set up by `sam_sw_setup`. -/
theorem sam_alloc_inv_run (ops : List sam_allocop_e) :
    ∀ s, sam_alloc_inv s → sam_alloc_inv (sam_alloc_run ops s) := by
  induction ops with
  | nil => intro s h; exact h
  | cons op ops ih =>
    intro s h
    exact ih _ (sam_alloc_inv_step s op h)

/-- C10: in every sequence of `sam_allocep` and `sam_freeep` calls that
starts from the state set up by `sam_sw_setup`, an endpoint returned by
`sam_allocep` is not one that is currently allocated (returned by an earlier
`sam_allocep` and not freed since), and it is not endpoint 0. -/
theorem sam_allocep_never_returns_allocated (priv : sam_usbdev_s) (maxpacketsize : Nat → Nat)
    (ops : List sam_allocop_e) (epno : Nat) (dirin : Bool) (eptype : Nat) (e : Nat)
    (h : (sam_allocep (sam_alloc_run ops (sam_sw_setup priv maxpacketsize, [])).1
        epno dirin eptype).2 = some e) :
    e ∉ (sam_alloc_run ops (sam_sw_setup priv maxpacketsize, [])).2 ∧ e ≠ EP0 := by
  have hinv := sam_alloc_inv_run ops _ (sam_alloc_inv_setup priv maxpacketsize)
  cases hr : sam_allocep (sam_alloc_run ops (sam_sw_setup priv maxpacketsize, [])).1
      epno dirin eptype with
  | mk p o =>
    rw [hr] at h
    simp only at h
    subst h
    obtain ⟨h1, _, havail, _⟩ := sam_allocep_some _ _ _ _ _ _ hr
    refine ⟨?_, ?_⟩
    · intro hmem
      rw [hinv.1 e hmem] at havail
      cases havail
    · simp only [EP0]; omega

/-- Witness of C10: after `alloc_scenario` endpoint 2 is allocated, and a
request for any endpoint returns endpoint 1. -/
theorem sam_allocep_never_returns_allocated_witness :
    1 ∉ (sam_alloc_run alloc_scenario
          (sam_sw_setup g_udphs (fun epno => if epno = 0 then 64 else 1024), [])).2
    ∧ 1 ≠ EP0 :=
  sam_allocep_never_returns_allocated g_udphs (fun epno => if epno = 0 then 64 else 1024)
    alloc_scenario 0 true 2 1 (by decide)

/-- C11: for every logical endpoint number `e` with `8 ≤ e < 16`,
`sam_allocep` returns `NULL` and leaves `epavail` alone, also when endpoint
`e` is available: `sam_ep_reserve` takes the 16-bit set `epset` as a
`uint8_t`, so the bit `SAM_EP_BIT(e)` is lost in the call. -/
theorem sam_allocep_high_endpoint_fails (priv : sam_usbdev_s) (e : Nat) (dirin : Bool)
    (eptype : Nat) (h8 : 8 ≤ e) (h16 : e < SAM_UDPHS_NENDPOINTS)
    (_havail : priv.epavail.testBit e = true) :
    sam_allocep priv e dirin eptype = (priv, none) := by
  unfold SAM_UDPHS_NENDPOINTS at h16
  have hepno : USB_EPNO (e % 256) = e := by
    interval_cases e <;> decide
  have hbit : SAM_EP_BIT e % 256 = 0 := by
    interval_cases e <;> decide
  have hpos : e > 0 := by omega
  have hlt : ¬ e ≥ SAM_UDPHS_NENDPOINTS := by unfold SAM_UDPHS_NENDPOINTS; omega
  unfold sam_allocep
  simp only [hepno, hpos, if_true, hlt, if_false]
  unfold sam_ep_reserve
  simp [hbit]

/-- Witness of C11: endpoint 8 right after `sam_sw_setup`, when every
endpoint but endpoint 0 is available. -/
theorem sam_allocep_high_endpoint_fails_witness :
    sam_allocep g_udphs_setup 8 true 2 = (g_udphs_setup, none) :=
  sam_allocep_high_endpoint_fails g_udphs_setup 8 true 2 (by decide) (by decide) (by decide)

/-- C12: for every endpoint descriptor with max-packet size `m` on full-speed
hardware that reports the configuration as mapped, `sam_ep_configure`
returns `OK` with the endpoint `IDLE`, but the max-packet size of the
endpoint is `m % 256`, not `m`: the local `maxpacket` of
`sam_ep_configure_internal` is a `uint8_t`. -/
theorem sam_ep_configure_truncates_maxpacket (priv : sam_usbdev_s) (i : Nat)
    (desc : usb_epdesc_s) (last : Bool)
    (_hm1 : 1 ≤ desc.mxpacketsize) (_hm2 : desc.mxpacketsize ≤ 1024)
    (hfs : priv.intsta_speed = false)
    (hmapd : (priv.regs (USB_EPNO desc.addr)).cfg_mapd = true) :
    (sam_ep_configure priv i desc last).2 = OK
    ∧ ((sam_ep_configure priv i desc last).1.eplist i).epstate = sam_epstate_e.IDLE
    ∧ ((sam_ep_configure priv i desc last).1.eplist i).maxpacket = desc.mxpacketsize % 256 := by
  unfold sam_ep_configure sam_ep_configure_internal
  simp only [hfs, Bool.false_eq_true, if_false]
  split_ifs <;> simp_all

/-- Witness of C12: a descriptor with the max-packet size 512. -/
theorem sam_ep_configure_truncates_maxpacket_witness :
    (sam_ep_configure dev_mapped 8 (mkepdesc 512) true).2 = OK
    ∧ ((sam_ep_configure dev_mapped 8 (mkepdesc 512) true).1.eplist 8).epstate
        = sam_epstate_e.IDLE
    ∧ ((sam_ep_configure dev_mapped 8 (mkepdesc 512) true).1.eplist 8).maxpacket
        = (mkepdesc 512).mxpacketsize % 256 :=
  sam_ep_configure_truncates_maxpacket dev_mapped 8 (mkepdesc 512) true
    (by decide) (by decide) (by decide) (by decide)

/-- C14: on a stalled IN endpoint whose state is `STALLED`, `sam_ep_stall`
with `resume = true` does not return, whatever the fuel: it sets the
endpoint `IDLE` and calls `sam_req_write`, whose opening `while` statement
spins for ever on an `IDLE` endpoint. -/
theorem sam_ep_stall_resume_in_never_returns (fuel : Nat) (priv : sam_usbdev_s) (i : Nat)
    (hst : (priv.eplist i).epstate = sam_epstate_e.STALLED)
    (hin : USB_ISEPIN (priv.eplist i).eplog = true) :
    sam_ep_stall fuel priv i true = none := by
  unfold sam_ep_stall
  simp only [debugassert_eplist, hst, if_true, putreg_eplist, setep_eplist_same, hin]
  rw [sam_req_write_idle]
  simp

/-- Witness of C14: resuming the stalled IN endpoint 8. -/
theorem sam_ep_stall_resume_in_never_returns_witness :
    sam_ep_stall 1000
      (g_udphs_setup.setep 8 { mkep 0x88 64 sam_epstate_e.STALLED [] with stalled := true })
      8 true = none :=
  sam_ep_stall_resume_in_never_returns 1000
    (g_udphs_setup.setep 8 { mkep 0x88 64 sam_epstate_e.STALLED [] with stalled := true })
    8 (by simp [mkep]) (by decide)

/-! ## Stalling an endpoint -/

/-- What `sam_req_complete` does to the queue and to the callback trace, for
an empty queue as well. -/
theorem sam_req_complete_queue (priv : sam_usbdev_s) (i : Nat) (result : Int) :
    ((sam_req_complete priv i result).eplist i).queue = (priv.eplist i).queue.tail
    ∧ (sam_req_complete priv i result).done
        = priv.done ++ (match (priv.eplist i).queue.head? with
            | some r => [(i, { r with result := result })]
            | none => [])
    ∧ ((sam_req_complete priv i result).eplist i).halted = (priv.eplist i).halted := by
  cases hq : (priv.eplist i).queue with
  | nil => simp [sam_req_complete_nil priv i result hq, hq]
  | cons r rest =>
    obtain ⟨h1, h2⟩ := sam_req_complete_cons priv i result r rest hq
    simp [h1, h2]

/-- C13: for an endpoint whose state is neither `DISABLED` nor `STALLED`,
`sam_ep_stall` with `resume = false` returns `OK`, leaves the endpoint
`STALLED` with its stalled flag set, and completes exactly the head request
(if there is one) with `-EIO`, the remaining requests staying queued in
their order; for an endpoint that is `DISABLED` or already `STALLED` it
returns `OK` and changes neither the endpoint (state, flags, queue) nor the
callback trace. -/
theorem sam_ep_stall_stalls_endpoint (fuel : Nat) (priv : sam_usbdev_s) (i : Nat) :
    (((priv.eplist i).epstate ≠ sam_epstate_e.DISABLED
        ∧ (priv.eplist i).epstate ≠ sam_epstate_e.STALLED) →
      ∃ out, sam_ep_stall fuel priv i false = some (out, OK)
        ∧ (out.eplist i).epstate = sam_epstate_e.STALLED
        ∧ (out.eplist i).stalled = true
        ∧ (out.eplist i).queue = (priv.eplist i).queue.tail
        ∧ out.done = priv.done ++ (match (priv.eplist i).queue.head? with
            | some r => [(i, { r with result := - EIO })]
            | none => []))
    ∧ (((priv.eplist i).epstate = sam_epstate_e.DISABLED
        ∨ (priv.eplist i).epstate = sam_epstate_e.STALLED) →
      ∃ out, sam_ep_stall fuel priv i false = some (out, OK)
        ∧ out.eplist i = priv.eplist i ∧ out.done = priv.done) := by
  constructor
  · intro hst
    obtain ⟨hq, hd, _⟩ := sam_req_complete_queue
      (priv.debugassert (decide ((priv.eplist i).epstate = sam_epstate_e.IDLE))
        sam_assert_e.ep_stall_idle) i (- EIO)
    simp only [debugassert_eplist, debugassert_done] at hq hd
    unfold sam_ep_stall
    simp only [Bool.false_eq_true, if_false, debugassert_eplist, hst, ne_eq, not_false_eq_true,
      and_self, if_true]
    refine ⟨_, rfl, ?_, ?_, ?_, ?_⟩
    · split_ifs <;> simp
    · split_ifs <;> simp
    · split_ifs <;> simp [hq]
    · split_ifs <;> simp [hd]
  · intro hst
    have hn : ¬ ((priv.eplist i).epstate ≠ sam_epstate_e.DISABLED
        ∧ (priv.eplist i).epstate ≠ sam_epstate_e.STALLED) := by
      rcases hst with h | h <;> simp [h]
    unfold sam_ep_stall
    simp only [Bool.false_eq_true, if_false, debugassert_eplist, hn]
    exact ⟨_, rfl, by simp, by simp⟩

/-- Witness of C13: stalling the endpoint 8 while it is sending the first of
two queued requests. -/
theorem sam_ep_stall_stalls_endpoint_witness :
    ∃ out, sam_ep_stall 0 dev_sending 8 false = some (out, OK)
      ∧ (out.eplist 8).epstate = sam_epstate_e.STALLED
      ∧ (out.eplist 8).stalled = true
      ∧ (out.eplist 8).queue = (dev_sending.eplist 8).queue.tail
      ∧ out.done = dev_sending.done ++ (match (dev_sending.eplist 8).queue.head? with
          | some r => [(8, { r with result := - EIO })]
          | none => []) :=
  (sam_ep_stall_stalls_endpoint 0 dev_sending 8).1 (by decide)

/-! ## Endpoint 0: GET_STATUS -/

/-- When the decoded outcome of a standard SETUP packet is `STALL`,
`sam_ep0_setup` returns the state it had before the `switch`. -/
theorem sam_ep0_setup_of_stall (fuel : Nat) (priv : sam_usbdev_s)
    (hstd : sam_ep0_isstandard priv.ctrl = true)
    (hres : sam_ep0_setup_result fuel priv = some sam_ep0setup_e.STALL) :
    sam_ep0_setup fuel priv = some (sam_ep0_setup_begin priv) := by
  have hc : (sam_ep0_setup_begin priv).ctrl = priv.ctrl := (same_dev_ep0_setup_begin priv).ctrl
  obtain ⟨hidle, -⟩ := sam_ep0_setup_begin_ep0 priv
  unfold sam_ep0_setup_result at hres
  unfold sam_ep0_setup
  simp only [hc, hstd, Bool.not_true, Bool.false_eq_true, if_false] at hres ⊢
  cases hsw : sam_ep0_setup_switch fuel (sam_ep0_setup_begin priv) with
  | none => simp [hsw] at hres
  | some d =>
    have hr : d.ep0result = sam_ep0setup_e.STALL := by simpa [hsw] using hres
    have hp : d.priv = sam_ep0_setup_begin priv := sam_ep0_setup_switch_stall _ _ _ hsw hr
    simp only [sam_ep0_setup_finish, hr, hp, sam_ep_stall_resume_idle fuel _ EP0 hidle]

/-- The `case USB_REQ_GETSTATUS` is the one taken for the request code 0. -/
theorem sam_ep0_setup_switch_getstatus (fuel : Nat) (priv : sam_usbdev_s)
    (hreq : priv.ctrl.req = USB_REQ_GETSTATUS) :
    sam_ep0_setup_switch fuel priv = sam_ep0_getstatus priv := by
  unfold sam_ep0_setup_switch
  simp [hreq]

/-- The outcome of `sam_ep0_setup` for a standard GET_STATUS packet is the one
of `sam_ep0_getstatus` on the state before the `switch`. -/
theorem sam_ep0_setup_result_getstatus (fuel : Nat) (priv : sam_usbdev_s)
    (hstd : sam_ep0_isstandard priv.ctrl = true)
    (hreq : priv.ctrl.req = USB_REQ_GETSTATUS) :
    sam_ep0_setup_result fuel priv
      = (sam_ep0_getstatus (sam_ep0_setup_begin priv)).map (fun d => d.ep0result) := by
  have hc : (sam_ep0_setup_begin priv).ctrl = priv.ctrl := (same_dev_ep0_setup_begin priv).ctrl
  unfold sam_ep0_setup_result
  simp only [hc, hstd, Bool.not_true, Bool.false_eq_true, if_false]
  rw [sam_ep0_setup_switch_getstatus fuel _ (by rw [hc]; exact hreq)]

/-- C16: for every standard GET_STATUS SETUP packet in which `len ≠ 2`, or
the direction bit is not IN, or the high byte of `index` is not 0, or
`value ≠ 0`, whatever the recipient, the outcome of `sam_ep0_setup` is
`STALL` and no response bytes are written to the FIFO (the function returns
with the trace of register and FIFO accesses unchanged). -/
theorem sam_ep0_setup_getstatus_malformed_stalls (fuel : Nat) (priv : sam_usbdev_s)
    (hstd : sam_ep0_isstandard priv.ctrl = true)
    (hreq : priv.ctrl.req = USB_REQ_GETSTATUS)
    (hbad : priv.ctrl.len ≠ 2 ∨ priv.ctrl.type &&& USB_REQ_DIR_IN = 0
      ∨ wb_msb priv.ctrl.index ≠ 0 ∨ priv.ctrl.value ≠ 0) :
    sam_ep0_setup_result fuel priv = some sam_ep0setup_e.STALL
    ∧ ∃ out, sam_ep0_setup fuel priv = some out ∧ out.hw = priv.hw := by
  have hc : (sam_ep0_setup_begin priv).ctrl = priv.ctrl := (same_dev_ep0_setup_begin priv).ctrl
  have hres : sam_ep0_setup_result fuel priv = some sam_ep0setup_e.STALL := by
    rw [sam_ep0_setup_result_getstatus fuel priv hstd hreq]
    unfold sam_ep0_getstatus
    simp only [hc, if_pos hbad, sam_ep0_stall, Option.map_some']
  exact ⟨hres, _, sam_ep0_setup_of_stall fuel priv hstd hres, sam_ep0_setup_begin_hw priv⟩

/-- Witness of C16: GET_STATUS for the device with `len = 1`. -/
theorem sam_ep0_setup_getstatus_malformed_stalls_witness :
    sam_ep0_setup_result 10 (dev_default ⟨0x80, 0, 0, 0, 1⟩) = some sam_ep0setup_e.STALL
    ∧ ∃ out, sam_ep0_setup 10 (dev_default ⟨0x80, 0, 0, 0, 1⟩) = some out
      ∧ out.hw = (dev_default ⟨0x80, 0, 0, 0, 1⟩).hw :=
  sam_ep0_setup_getstatus_malformed_stalls 10 (dev_default ⟨0x80, 0, 0, 0, 1⟩)
    (by decide) (by decide) (by decide)

/-- Counterexample to C17 as stated: GET_STATUS for the device with `len = 2`,
direction IN, `value = 0` and `index = 1` (high byte 0) is well-formed in
the sense of the claim, yet its outcome is `STALL`, not `SUCCESS`: the
device case of `sam_ep0_setup` also tests `index.w == 0`. -/
theorem sam_ep0_setup_getstatus_device_index_counterexample :
    (dev_default ⟨0x80, 0, 0, 1, 2⟩).ctrl.len = 2
    ∧ (dev_default ⟨0x80, 0, 0, 1, 2⟩).ctrl.type &&& USB_REQ_DIR_IN ≠ 0
    ∧ wb_msb (dev_default ⟨0x80, 0, 0, 1, 2⟩).ctrl.index = 0
    ∧ (dev_default ⟨0x80, 0, 0, 1, 2⟩).ctrl.value = 0
    ∧ (dev_default ⟨0x80, 0, 0, 1, 2⟩).ctrl.type &&& USB_REQ_RECIPIENT_MASK
        = USB_REQ_RECIPIENT_DEVICE
    ∧ sam_ep0_setup_result 10 (sam_selfpowered (dev_default ⟨0x80, 0, 0, 1, 2⟩) true).1
        = some sam_ep0setup_e.STALL
    ∧ sam_ep0_setup_result 10 (sam_selfpowered (dev_default ⟨0x80, 0, 0, 1, 2⟩) true).1
        ≠ some sam_ep0setup_e.SUCCESS := by
  decide

/-- C17 (amended): for every boolean `b`, after `sam_selfpowered(dev, b)`
every standard GET_STATUS SETUP packet with recipient device, `len = 2`,
direction IN, `value = 0` and `index = 0` has the outcome `SUCCESS`; the
response written to the FIFO of endpoint 0 is two bytes, the first with
bit 0 equal to `b`, bit 1 set and the other bits clear, the second 0; and
endpoint 0 is in `EP0STATUSIN`. -/
theorem sam_ep0_setup_getstatus_device (fuel : Nat) (priv : sam_usbdev_s) (b : Bool)
    (hstd : sam_ep0_isstandard priv.ctrl = true)
    (hreq : priv.ctrl.req = USB_REQ_GETSTATUS)
    (hdev : priv.ctrl.type &&& USB_REQ_RECIPIENT_MASK = USB_REQ_RECIPIENT_DEVICE)
    (hlen : priv.ctrl.len = 2)
    (hdir : priv.ctrl.type &&& USB_REQ_DIR_IN ≠ 0)
    (hindex : priv.ctrl.index = 0)
    (hvalue : priv.ctrl.value = 0) :
    sam_ep0_setup_result fuel (sam_selfpowered priv b).1 = some sam_ep0setup_e.SUCCESS
    ∧ ∃ out, sam_ep0_setup fuel (sam_selfpowered priv b).1 = some out
      ∧ out.hw = priv.hw ++ [sam_hwop_e.fifo_write 0 [if b then 3 else 2, 0]]
      ∧ (out.eplist EP0).epstate = sam_epstate_e.EP0STATUSIN := by
  set p := (sam_selfpowered priv b).1 with hp
  have hpc : p.ctrl = priv.ctrl := rfl
  have hps : p.selfpowered = b := rfl
  have hph : p.hw = priv.hw := rfl
  have hsd := same_dev_ep0_setup_begin p
  have hc : (sam_ep0_setup_begin p).ctrl = priv.ctrl := hsd.ctrl.trans hpc
  have hstd' : sam_ep0_isstandard p.ctrl = true := hstd
  have hreq' : p.ctrl.req = USB_REQ_GETSTATUS := hreq
  have hgood : ¬ (priv.ctrl.len ≠ 2 ∨ priv.ctrl.type &&& USB_REQ_DIR_IN = 0
      ∨ wb_msb priv.ctrl.index ≠ 0 ∨ priv.ctrl.value ≠ 0) := by
    simp [hlen, hdir, hindex, hvalue, wb_msb]
  have hne : ¬ (USB_REQ_RECIPIENT_DEVICE = USB_REQ_RECIPIENT_ENDPOINT) := by decide
  have hget : sam_ep0_getstatus (sam_ep0_setup_begin p)
      = some ⟨sam_ep0_setup_begin p, sam_ep0setup_e.SUCCESS,
          ((if b then 1 else 0) <<< USB_FEATURE_SELFPOWERED)
            ||| (1 <<< USB_FEATURE_REMOTEWAKEUP), 2⟩ := by
    unfold sam_ep0_getstatus
    simp only [hc]
    rw [if_neg hgood]
    simp only [hdev, if_neg hne, hindex, if_true, hsd.selfpowered, hps]
  have hresp : [wb_lsb (((if b then 1 else 0) <<< USB_FEATURE_SELFPOWERED)
        ||| (1 <<< USB_FEATURE_REMOTEWAKEUP)),
      wb_msb (((if b then 1 else 0) <<< USB_FEATURE_SELFPOWERED)
        ||| (1 <<< USB_FEATURE_REMOTEWAKEUP))] = [if b then 3 else 2, 0] := by
    cases b <;> decide
  refine ⟨?_, ?_⟩
  · rw [sam_ep0_setup_result_getstatus fuel p hstd' hreq', hget]
    rfl
  · unfold sam_ep0_setup
    have hstd2 : sam_ep0_isstandard (sam_ep0_setup_begin p).ctrl = true := by
      rw [hc]; exact hstd
    simp only [hstd2, Bool.not_true, Bool.false_eq_true, if_false]
    rw [sam_ep0_setup_switch_getstatus fuel _ (by rw [hc]; exact hreq), hget]
    simp only [sam_ep0_setup_finish, hc, hlen, hresp]
    refine ⟨_, rfl, ?_, ?_⟩
    · simp [sam_ep0_wrstatus, copyout, peek, sam_ep0_setup_begin_hw, hph, List.range]
      cases b <;> simp [List.range, List.range.loop]
    · simp [sam_ep0_wrstatus]

/-- Witness of C17 (amended): a self-powered device. -/
theorem sam_ep0_setup_getstatus_device_witness :
    sam_ep0_setup_result 10 (sam_selfpowered (dev_default ⟨0x80, 0, 0, 0, 2⟩) true).1
      = some sam_ep0setup_e.SUCCESS
    ∧ ∃ out, sam_ep0_setup 10 (sam_selfpowered (dev_default ⟨0x80, 0, 0, 0, 2⟩) true).1
        = some out
      ∧ out.hw = (dev_default ⟨0x80, 0, 0, 0, 2⟩).hw
          ++ [sam_hwop_e.fifo_write 0 [if true then 3 else 2, 0]]
      ∧ (out.eplist EP0).epstate = sam_epstate_e.EP0STATUSIN :=
  sam_ep0_setup_getstatus_device 10 (dev_default ⟨0x80, 0, 0, 0, 2⟩) true
    (by decide) (by decide) (by decide) (by decide) (by decide) (by decide) (by decide)

/-! ## Endpoint 0: the stages of a control transfer -/

/-- C20: when RX-ready is reported on endpoint 0 while it is in `EP0DATAOUT`
(the OUT data of the stored SETUP packet has arrived), `sam_ep_interrupt`
copies nothing into `ep0out`, does not call `sam_ep0_setup` (no callback, no
call of the class driver, the stored packet untouched) and leaves endpoint
0 in `EP0DATAOUT`: the test in front of the copy reads
`privep->epstate != UDPHS_EPSTATE_EP0DATAOUT`, so the data is treated as an
unexpected packet and the endpoint interrupt is disabled (or, with
FRCESTALL set, the packet is dropped). -/
theorem sam_ep_interrupt_dataout_not_processed (fuel : Nat) (priv : sam_usbdev_s)
    (hst : (priv.eplist EP0).epstate = sam_epstate_e.EP0DATAOUT)
    (_hout : USB_REQ_ISOUT priv.ctrl.type = true)
    (hlen : 0 < priv.ctrl.len)
    (htx : (priv.regs EP0).eptctl_txrdy = false)
    (hrx : (priv.regs EP0).sta_rxrdytxkl = true)
    (hbc : (priv.regs EP0).sta_bytecnt = priv.ctrl.len)
    (hss : (priv.regs EP0).sta_stallsnt = false)
    (hrs : (priv.regs EP0).sta_rxsetup = false) :
    ∃ out, sam_ep_interrupt fuel priv EP0 = some out
      ∧ out.ep0out = priv.ep0out
      ∧ (out.eplist EP0).epstate = sam_epstate_e.EP0DATAOUT
      ∧ out.ctrl = priv.ctrl ∧ out.cls = priv.cls ∧ out.done = priv.done
      ∧ out.hw = priv.hw ++
          [if (priv.regs EP0).sta_frcestall then sam_hwop_e.eptclrsta_rxrdytxkl EP0
           else sam_hwop_e.ien_clr_ept EP0] := by
  have hbc0 : (priv.regs EP0).sta_bytecnt ≠ 0 := by omega
  unfold sam_ep_interrupt
  simp only [debugassert_regs, debugassert_eplist, htx, hrx, hss, hrs, hst, Bool.false_and,
    Bool.false_eq_true, if_false, if_true, reduceCtorEq, ne_eq, not_true_eq_false, hbc0,
    and_false]
  by_cases hf : (priv.regs EP0).sta_frcestall = true
  · simp [hf, hst]
  · simp [hf, hst]

/-- Witness of C20: SET_DESCRIPTOR with 8 bytes of OUT data, the data has
arrived. -/
theorem sam_ep_interrupt_dataout_not_processed_witness :
    ∃ out, sam_ep_interrupt 10 dev_dataout EP0 = some out
      ∧ out.ep0out = dev_dataout.ep0out
      ∧ (out.eplist EP0).epstate = sam_epstate_e.EP0DATAOUT
      ∧ out.ctrl = dev_dataout.ctrl ∧ out.cls = dev_dataout.cls ∧ out.done = dev_dataout.done
      ∧ out.hw = dev_dataout.hw ++
          [if (dev_dataout.regs EP0).sta_frcestall then sam_hwop_e.eptclrsta_rxrdytxkl EP0
           else sam_hwop_e.ien_clr_ept EP0] :=
  sam_ep_interrupt_dataout_not_processed 10 dev_dataout (by decide) (by decide) (by decide)
    (by decide) (by decide) (by decide) (by decide) (by decide)

/-- The loop that opens `sam_ep0_setup`, with enough passes, completes the
requests queued on endpoint 0 in order, every one with the result computed
from `privreq`, and empties the queue. -/
theorem sam_ep0_setup_terminate_spec (q : List sam_req_s) :
    ∀ (n : Nat) (priv : sam_usbdev_s) (privreq : Option sam_req_s),
      (priv.eplist EP0).queue = q → q.length ≤ n →
      (sam_ep0_setup_terminate n priv privreq).done
          = priv.done ++ q.map (fun r => (EP0, { r with
              result := sam_ep0_setup_termresult privreq }))
      ∧ ((sam_ep0_setup_terminate n priv privreq).eplist EP0).queue = [] := by
  induction q with
  | nil =>
    intro n priv privreq h _
    cases n with
    | zero => simp [sam_ep0_setup_terminate, h]
    | succ n => simp [sam_ep0_setup_terminate, sam_rqempty, h]
  | cons r rest ih =>
    intro n priv privreq h hn
    cases n with
    | zero => simp at hn
    | succ n =>
      have hne : sam_rqempty (priv.eplist EP0) = false := by simp [sam_rqempty, h]
      simp only [sam_ep0_setup_terminate, hne, Bool.not_false, if_true]
      obtain ⟨c1, c2⟩ := sam_req_complete_cons priv EP0
        (sam_ep0_setup_termresult privreq) r rest h
      have hq : ((sam_req_complete priv EP0
        (sam_ep0_setup_termresult privreq)).eplist EP0).queue = rest := by rw [c2]
      obtain ⟨h1, h2⟩ := ih n _ privreq hq (by simpa using hn)
      refine ⟨?_, h2⟩
      rw [h1, c1]
      simp

/-- The callbacks made and the queue left by the opening part of
`sam_ep0_setup`. -/
theorem sam_ep0_setup_begin_spec (priv : sam_usbdev_s) :
    (sam_ep0_setup_begin priv).done
        = priv.done ++ (priv.eplist EP0).queue.map (fun r => (EP0, { r with
            result := sam_ep0_setup_termresult (priv.eplist EP0).queue.head? }))
    ∧ ((sam_ep0_setup_begin priv).eplist EP0).queue = [] := by
  obtain ⟨h1, h2⟩ := sam_ep0_setup_terminate_spec (priv.eplist EP0).queue
    (priv.eplist EP0).queue.length priv (sam_rqpeek (priv.eplist EP0)) rfl (le_refl _)
  unfold sam_ep0_setup_begin
  simp only [setep_done, setep_eplist_same]
  exact ⟨h1, h2⟩

theorem map_result_eq_zipWith (q : List sam_req_s) (c : Int) :
    q.map (fun r => (EP0, { r with result := c }))
      = List.zipWith (fun (r : sam_req_s) (res : Int) => (EP0, { r with result := res })) q
          (List.replicate q.length c) := by
  induction q with
  | nil => rfl
  | cons a q ih => simp [List.replicate_succ, ih]

theorem sam_ep0_setup_termresult_cases (privreq : Option sam_req_s) :
    sam_ep0_setup_termresult privreq = OK ∨ sam_ep0_setup_termresult privreq = -EPROTO := by
  unfold sam_ep0_setup_termresult
  cases privreq with
  | none => exact Or.inl rfl
  | some r =>
    by_cases h : r.xfrd ≠ r.len
    · right; simp [h]
    · left; simp [h]

@[simp] theorem sam_ep0_read_ctrl_eplist (priv : sam_usbdev_s) :
    (sam_ep0_read_ctrl priv).eplist = priv.eplist := rfl

@[simp] theorem sam_ep0_read_ctrl_done (priv : sam_usbdev_s) :
    (sam_ep0_read_ctrl priv).done = priv.done := rfl

/-- Counterexample to C19 as stated: endpoint 0 is in `EP0STATUSIN` with one
8-byte request pending, nothing transferred; a SETUP packet (GET_STATUS for
the device) is received and processed.  The pending request is completed
with `-EPROTO`, not with `OK`. -/
theorem sam_setup_received_eproto_counterexample :
    (dev_setup_pending.eplist EP0).queue = [mkreq 1 8 0]
    ∧ (sam_ep_interrupt 10 dev_setup_pending EP0).map (fun p => p.done)
        = some [(EP0, { mkreq 1 8 0 with result := -EPROTO })] := by
  decide

/-- C19 (amended): for every state of endpoint 0 and every non-empty request
queue `r :: rest` of endpoint 0, when a SETUP packet is received (the
RXSETUP branch of `sam_ep_interrupt`, which stores the packet, here in
`p3`) and `sam_ep0_setup` then processes it (at once when the packet has
direction IN or length 0, otherwise from `EP0DATAOUT`), every request that
was pending on endpoint 0 is completed, in queue order, each with `OK` or
`-EPROTO`, and the queue of endpoint 0 is empty before the new request is
decoded.  The head request is completed with `OK` when endpoint 0 was
`SENDING` or `RECEIVING` or when its transferred count equals its length,
and with `-EPROTO` otherwise. -/
theorem sam_setup_received_completes_pending (fuel : Nat) (priv : sam_usbdev_s)
    (r : sam_req_s) (rest : List sam_req_s)
    (hq : (priv.eplist EP0).queue = r :: rest)
    (htx : (priv.regs EP0).eptctl_txrdy = false)
    (hrx : (priv.regs EP0).sta_rxrdytxkl = false)
    (hss : (priv.regs EP0).sta_stallsnt = false)
    (hrs : (priv.regs EP0).sta_rxsetup = true)
    (htype : (priv.regs EP0).cfg_type ≠ UDPHS_EPTCFG_TYPE_ISO) :
    ∃ p3 : sam_usbdev_s,
      p3.ctrl = (sam_ep0_read_ctrl priv).ctrl
      ∧ ((USB_REQ_ISOUT p3.ctrl.type && decide (p3.ctrl.len > 0)) = true →
          sam_ep_interrupt fuel priv EP0
            = some (p3.setep EP0 { p3.eplist EP0 with epstate := sam_epstate_e.EP0DATAOUT }))
      ∧ ((USB_REQ_ISOUT p3.ctrl.type && decide (p3.ctrl.len > 0)) = false →
          sam_ep_interrupt fuel priv EP0
            = sam_ep0_setup fuel
                (p3.setep EP0 { p3.eplist EP0 with epstate := sam_epstate_e.IDLE }))
      ∧ ∀ st : sam_epstate_e,
          ((sam_ep0_setup_begin (p3.setep EP0 { p3.eplist EP0 with epstate := st })).eplist
              EP0).queue = []
          ∧ ∃ results : List Int, results.length = rest.length + 1
            ∧ (sam_ep0_setup_begin (p3.setep EP0 { p3.eplist EP0 with epstate := st })).done
                = priv.done ++ List.zipWith
                    (fun (q : sam_req_s) (res : Int) => (EP0, { q with result := res }))
                    (r :: rest) results
            ∧ (∀ res ∈ results, res = OK ∨ res = -EPROTO)
            ∧ results.head? = some
                (if (priv.eplist EP0).epstate = sam_epstate_e.SENDING
                    ∨ (priv.eplist EP0).epstate = sam_epstate_e.RECEIVING
                    ∨ r.xfrd = r.len then OK else -EPROTO) := by
  refine ⟨(sam_ep0_read_ctrl
      (if (priv.eplist EP0).epstate = sam_epstate_e.RECEIVING
          ∨ (priv.eplist EP0).epstate = sam_epstate_e.SENDING then
        sam_req_complete
          ((priv.debugassert (decide (EP0 < SAM_UDPHS_NENDPOINTS))
            sam_assert_e.ep_interrupt_epno).debugassert
              (sam_rqpeek (priv.eplist EP0)).isSome sam_assert_e.ep_interrupt_privreq) EP0 OK
      else
        ((priv.debugassert (decide (EP0 < SAM_UDPHS_NENDPOINTS))
            sam_assert_e.ep_interrupt_epno).debugassert
              (sam_rqpeek (priv.eplist EP0)).isSome sam_assert_e.ep_interrupt_privreq))).putreg
      (sam_hwop_e.eptclrsta_rxsetup EP0), ?_, ?_, ?_, ?_⟩
  · simp only [putreg_ctrl, sam_ep0_read_ctrl]
    split_ifs <;> simp [(same_dev_req_complete _ _ _).regs]
  · intro h
    unfold sam_ep_interrupt
    simp only [debugassert_regs, debugassert_eplist, htx, hrx, hss, hrs, Bool.false_and,
      Bool.false_eq_true, if_false, if_true, htype]
    rw [if_pos h]
  · intro h
    unfold sam_ep_interrupt
    simp only [debugassert_regs, debugassert_eplist, htx, hrx, hss, hrs, Bool.false_and,
      Bool.false_eq_true, if_false, if_true, htype]
    rw [if_neg (by rw [h]; simp)]
  · intro st
    by_cases hin : (priv.eplist EP0).epstate = sam_epstate_e.RECEIVING
        ∨ (priv.eplist EP0).epstate = sam_epstate_e.SENDING
    · simp only [if_pos hin]
      obtain ⟨c1, c2⟩ := sam_req_complete_cons
        ((priv.debugassert (decide (EP0 < SAM_UDPHS_NENDPOINTS))
            sam_assert_e.ep_interrupt_epno).debugassert
              (sam_rqpeek (priv.eplist EP0)).isSome sam_assert_e.ep_interrupt_privreq)
        EP0 OK r rest (by simpa using hq)
      obtain ⟨b1, b2⟩ := sam_ep0_setup_begin_spec
        (((sam_ep0_read_ctrl (sam_req_complete
          ((priv.debugassert (decide (EP0 < SAM_UDPHS_NENDPOINTS))
            sam_assert_e.ep_interrupt_epno).debugassert
              (sam_rqpeek (priv.eplist EP0)).isSome sam_assert_e.ep_interrupt_privreq)
            EP0 OK)).putreg (sam_hwop_e.eptclrsta_rxsetup EP0)).setep EP0
          { ((sam_ep0_read_ctrl (sam_req_complete
              ((priv.debugassert (decide (EP0 < SAM_UDPHS_NENDPOINTS))
                sam_assert_e.ep_interrupt_epno).debugassert
                  (sam_rqpeek (priv.eplist EP0)).isSome sam_assert_e.ep_interrupt_privreq)
                EP0 OK)).putreg (sam_hwop_e.eptclrsta_rxsetup EP0)).eplist EP0
            with epstate := st })
      refine ⟨b2, OK :: List.replicate rest.length (sam_ep0_setup_termresult rest.head?),
        by simp, ?_, ?_, ?_⟩
      · rw [b1]
        simp only [setep_done, putreg_done, sam_ep0_read_ctrl_done, c1, setep_eplist_same,
          putreg_eplist, sam_ep0_read_ctrl_eplist, c2, debugassert_done]
        rw [map_result_eq_zipWith]
        simp
      · intro res hres
        rcases List.mem_cons.mp hres with h | h
        · exact Or.inl h
        · rw [List.eq_of_mem_replicate h]
          exact sam_ep0_setup_termresult_cases _
      · have : (priv.eplist EP0).epstate = sam_epstate_e.SENDING
            ∨ (priv.eplist EP0).epstate = sam_epstate_e.RECEIVING ∨ r.xfrd = r.len := by
          rcases hin with h | h
          · exact Or.inr (Or.inl h)
          · exact Or.inl h
        simp [this]
    · simp only [if_neg hin]
      obtain ⟨b1, b2⟩ := sam_ep0_setup_begin_spec
        (((sam_ep0_read_ctrl
          ((priv.debugassert (decide (EP0 < SAM_UDPHS_NENDPOINTS))
            sam_assert_e.ep_interrupt_epno).debugassert
              (sam_rqpeek (priv.eplist EP0)).isSome
              sam_assert_e.ep_interrupt_privreq)).putreg
            (sam_hwop_e.eptclrsta_rxsetup EP0)).setep EP0
          { ((sam_ep0_read_ctrl
              ((priv.debugassert (decide (EP0 < SAM_UDPHS_NENDPOINTS))
                sam_assert_e.ep_interrupt_epno).debugassert
                  (sam_rqpeek (priv.eplist EP0)).isSome
                  sam_assert_e.ep_interrupt_privreq)).putreg
                (sam_hwop_e.eptclrsta_rxsetup EP0)).eplist EP0
            with epstate := st })
      refine ⟨b2, List.replicate (rest.length + 1) (sam_ep0_setup_termresult (some r)),
        by simp, ?_, ?_, ?_⟩
      · rw [b1]
        simp only [setep_done, putreg_done, sam_ep0_read_ctrl_done, setep_eplist_same,
          putreg_eplist, sam_ep0_read_ctrl_eplist, debugassert_done, debugassert_eplist, hq,
          List.head?_cons]
        rw [map_result_eq_zipWith]
        simp
      · intro res hres
        rw [List.eq_of_mem_replicate hres]
        exact sam_ep0_setup_termresult_cases _
      · have h1 : (priv.eplist EP0).epstate ≠ sam_epstate_e.SENDING := fun h => hin (Or.inr h)
        have h2 : (priv.eplist EP0).epstate ≠ sam_epstate_e.RECEIVING := fun h => hin (Or.inl h)
        by_cases hx : r.xfrd = r.len
        · simp [List.replicate_succ, sam_ep0_setup_termresult, hx]
        · simp [List.replicate_succ, sam_ep0_setup_termresult, hx, h1, h2]

/-- Witness of C19 (amended): one request pending on endpoint 0 in
`EP0STATUSIN`. -/
theorem sam_setup_received_completes_pending_witness :
    ∃ p3 : sam_usbdev_s,
      p3.ctrl = (sam_ep0_read_ctrl dev_setup_pending).ctrl
      ∧ ((USB_REQ_ISOUT p3.ctrl.type && decide (p3.ctrl.len > 0)) = true →
          sam_ep_interrupt 10 dev_setup_pending EP0
            = some (p3.setep EP0 { p3.eplist EP0 with epstate := sam_epstate_e.EP0DATAOUT }))
      ∧ ((USB_REQ_ISOUT p3.ctrl.type && decide (p3.ctrl.len > 0)) = false →
          sam_ep_interrupt 10 dev_setup_pending EP0
            = sam_ep0_setup 10
                (p3.setep EP0 { p3.eplist EP0 with epstate := sam_epstate_e.IDLE }))
      ∧ ∀ st : sam_epstate_e,
          ((sam_ep0_setup_begin (p3.setep EP0 { p3.eplist EP0 with epstate := st })).eplist
              EP0).queue = []
          ∧ ∃ results : List Int, results.length = ([] : List sam_req_s).length + 1
            ∧ (sam_ep0_setup_begin (p3.setep EP0 { p3.eplist EP0 with epstate := st })).done
                = dev_setup_pending.done ++ List.zipWith
                    (fun (q : sam_req_s) (res : Int) => (EP0, { q with result := res }))
                    (mkreq 1 8 0 :: []) results
            ∧ (∀ res ∈ results, res = OK ∨ res = -EPROTO)
            ∧ results.head? = some
                (if (dev_setup_pending.eplist EP0).epstate = sam_epstate_e.SENDING
                    ∨ (dev_setup_pending.eplist EP0).epstate = sam_epstate_e.RECEIVING
                    ∨ (mkreq 1 8 0).xfrd = (mkreq 1 8 0).len then OK else -EPROTO) :=
  sam_setup_received_completes_pending 10 dev_setup_pending (mkreq 1 8 0) []
    (by decide) (by decide) (by decide) (by decide) (by decide) (by decide)

/-! ## Endpoint 0: the ENDPOINT_HALT feature -/

theorem sam_ep0_setup_terminate_other (n : Nat) :
    ∀ (priv : sam_usbdev_s) (privreq : Option sam_req_s) (j : Nat), j ≠ EP0 →
      (sam_ep0_setup_terminate n priv privreq).eplist j = priv.eplist j := by
  induction n with
  | zero => intro priv _ j _; rfl
  | succ n ih =>
    intro priv privreq j hj
    unfold sam_ep0_setup_terminate
    split
    · rw [ih _ _ j hj, sam_req_complete_other _ _ _ _ hj]
    · rfl

/-- The opening part of `sam_ep0_setup` touches no endpoint but endpoint 0. -/
theorem sam_ep0_setup_begin_other (priv : sam_usbdev_s) (j : Nat) (hj : j ≠ EP0) :
    (sam_ep0_setup_begin priv).eplist j = priv.eplist j := by
  unfold sam_ep0_setup_begin
  rw [setep_eplist_ne _ _ _ _ hj, sam_ep0_setup_terminate_other _ _ _ _ hj]

theorem USB_EPNO_wb_lsb (e : Nat) (he : e < SAM_UDPHS_NENDPOINTS) :
    USB_EPNO (wb_lsb e) = e ∧ wb_msb e = 0 := by
  unfold SAM_UDPHS_NENDPOINTS at he
  interval_cases e <;> decide

/-- GET_STATUS for an endpoint other than endpoint 0 answers with the stalled
flag of that endpoint and changes no endpoint but endpoint 0. -/
theorem sam_ep0_setup_getstatus_ep (fuel : Nat) (priv : sam_usbdev_s) (e : Nat)
    (he0 : e ≠ EP0) (he : e < SAM_UDPHS_NENDPOINTS)
    (hctrl : priv.ctrl = setup_getstatus_ep e) :
    ∃ out, sam_ep0_setup fuel priv = some out
      ∧ out.hw = priv.hw
          ++ [sam_hwop_e.fifo_write 0 [if (priv.eplist e).stalled then 1 else 0, 0]]
      ∧ ∀ j, j ≠ EP0 → out.eplist j = priv.eplist j := by
  have hsd := same_dev_ep0_setup_begin priv
  have hc : (sam_ep0_setup_begin priv).ctrl = setup_getstatus_ep e := hsd.ctrl.trans hctrl
  obtain ⟨hepno, hmsb⟩ := USB_EPNO_wb_lsb e he
  have hstd : sam_ep0_isstandard (sam_ep0_setup_begin priv).ctrl = true := by
    rw [hc]
    show (0x82 &&& USB_REQ_TYPE_MASK == USB_REQ_TYPE_STANDARD) = true
    decide
  have hget : sam_ep0_getstatus (sam_ep0_setup_begin priv)
      = some ⟨sam_ep0_setup_begin priv, sam_ep0setup_e.SUCCESS,
          if (priv.eplist e).stalled then 1 else 0, 2⟩ := by
    unfold sam_ep0_getstatus
    simp only [hc, setup_getstatus_ep, hmsb, hepno, sam_ep0_setup_begin_other priv e he0]
    have h1 : (0x82 &&& USB_REQ_DIR_IN) ≠ 0 := by decide
    have h2 : 0x82 &&& USB_REQ_RECIPIENT_MASK = USB_REQ_RECIPIENT_ENDPOINT := by decide
    simp [h1, h2, Nat.not_le.mpr he]
  unfold sam_ep0_setup
  simp only [hstd, Bool.not_true, Bool.false_eq_true, if_false]
  rw [sam_ep0_setup_switch_getstatus fuel _ (by rw [hc]; rfl), hget]
  simp only [sam_ep0_setup_finish, hc, setup_getstatus_ep]
  refine ⟨_, rfl, ?_, ?_⟩
  · simp only [sam_ep0_wrstatus, sam_ep0_setup_begin_hw, setep_hw]
    cases (priv.eplist e).stalled <;> simp [sam_usbdev_s.putreg, sam_ep0_setup_begin_hw] <;> decide
  · intro j hj
    simp only [sam_ep0_wrstatus]
    cases (priv.eplist e).stalled <;>
      simp [setep_eplist_ne _ _ _ _ hj, sam_ep0_setup_begin_other priv j hj]

/-- A stall request (`sam_ep_stall(ep, false)`) returns `OK`; it leaves an
endpoint that is neither `DISABLED` nor `STALLED` in `STALLED` with the
stalled flag set, leaves any other endpoint as it was, and touches no
endpoint but the one it is called for. -/
theorem sam_ep_stall_stall_spec (fuel : Nat) (priv : sam_usbdev_s) (i : Nat) :
    ∃ out, sam_ep_stall fuel priv i false = some (out, OK)
      ∧ (∀ j, j ≠ i → out.eplist j = priv.eplist j)
      ∧ (((priv.eplist i).epstate ≠ sam_epstate_e.DISABLED
            ∧ (priv.eplist i).epstate ≠ sam_epstate_e.STALLED) →
          (out.eplist i).epstate = sam_epstate_e.STALLED ∧ (out.eplist i).stalled = true)
      ∧ (¬ ((priv.eplist i).epstate ≠ sam_epstate_e.DISABLED
            ∧ (priv.eplist i).epstate ≠ sam_epstate_e.STALLED) →
          out.eplist i = priv.eplist i)
      ∧ (out.eplist i).eplog = (priv.eplist i).eplog := by
  by_cases hst : (priv.eplist i).epstate ≠ sam_epstate_e.DISABLED
      ∧ (priv.eplist i).epstate ≠ sam_epstate_e.STALLED
  · unfold sam_ep_stall
    simp only [Bool.false_eq_true, if_false, debugassert_eplist, hst, ne_eq, not_false_eq_true,
      and_self, if_true]
    refine ⟨_, rfl, ?_, ?_, ?_, ?_⟩
    · intro j hj
      split_ifs <;>
        simp [setep_eplist_ne _ _ _ _ hj, sam_req_complete_other _ _ _ _ hj]
    · intro _
      split_ifs <;> simp
    · intro h; exact (h trivial).elim
    · have hlog : ∀ (p : sam_usbdev_s) (res : Int),
          ((sam_req_complete p i res).eplist i).eplog = (p.eplist i).eplog := by
        intro p res
        cases hq : (p.eplist i).queue with
        | nil => rw [sam_req_complete_nil p i res hq]
        | cons r rest => rw [(sam_req_complete_cons p i res r rest hq).2]
      split_ifs <;> simp [hlog]
  · unfold sam_ep_stall
    simp only [Bool.false_eq_true, if_false, debugassert_eplist, hst]
    exact ⟨_, rfl, by simp, fun h => h.elim, by simp, by simp⟩

/-- A resume request (`sam_ep_stall(ep, true)`) on an OUT endpoint that is
`STALLED` returns `OK` with the endpoint `IDLE` and the stalled flag clear. -/
theorem sam_ep_stall_resume_out_spec (fuel : Nat) (priv : sam_usbdev_s) (i : Nat)
    (hst : (priv.eplist i).epstate = sam_epstate_e.STALLED)
    (hout : USB_ISEPIN (priv.eplist i).eplog = false) :
    ∃ out, sam_ep_stall fuel priv i true = some (out, OK)
      ∧ (∀ j, j ≠ i → out.eplist j = priv.eplist j)
      ∧ (out.eplist i).epstate = sam_epstate_e.IDLE ∧ (out.eplist i).stalled = false := by
  unfold sam_ep_stall
  simp only [if_true, debugassert_eplist, hst, putreg_eplist, setep_eplist_same, hout,
    Bool.false_eq_true, if_false]
  refine ⟨_, rfl, ?_, by simp, by simp⟩
  intro j hj
  simp [setep_eplist_ne _ _ _ _ hj]

/-- SET_FEATURE(ENDPOINT_HALT) for an enabled endpoint other than endpoint 0
leaves that endpoint `STALLED` with its stalled flag set. -/
theorem sam_ep0_setup_setfeature_halt (fuel : Nat) (priv : sam_usbdev_s) (e : Nat)
    (he0 : e ≠ EP0) (he : e < SAM_UDPHS_NENDPOINTS)
    (hctrl : priv.ctrl = setup_setfeature_halt e)
    (hen : (priv.eplist e).epstate ≠ sam_epstate_e.DISABLED)
    (hinv : (priv.eplist e).epstate = sam_epstate_e.STALLED → (priv.eplist e).stalled = true) :
    ∃ out, sam_ep0_setup fuel priv = some out
      ∧ (out.eplist e).stalled = true
      ∧ (out.eplist e).epstate = sam_epstate_e.STALLED
      ∧ (out.eplist e).eplog = (priv.eplist e).eplog := by
  have hsd := same_dev_ep0_setup_begin priv
  have hc : (sam_ep0_setup_begin priv).ctrl = setup_setfeature_halt e := hsd.ctrl.trans hctrl
  obtain ⟨hepno, hmsb⟩ := USB_EPNO_wb_lsb e he
  have hb := sam_ep0_setup_begin_other priv e he0
  have hstd : sam_ep0_isstandard (sam_ep0_setup_begin priv).ctrl = true := by
    rw [hc]
    show (0x02 &&& USB_REQ_TYPE_MASK == USB_REQ_TYPE_STANDARD) = true
    decide
  have hsw : sam_ep0_setup_switch fuel (sam_ep0_setup_begin priv)
      = sam_ep0_feature fuel
          ((sam_ep0_setup_begin priv).setep e
            { (sam_ep0_setup_begin priv).eplist e with halted := true }) e false := by
    unfold sam_ep0_setup_switch sam_ep0_setfeature
    simp only [hc, setup_setfeature_halt, hepno, hmsb]
    have h2 : 0x02 &&& USB_REQ_RECIPIENT_MASK = USB_REQ_RECIPIENT_ENDPOINT := by decide
    simp only [h2]
    simp [USB_REQ_SETFEATURE, USB_REQ_GETSTATUS, USB_REQ_CLEARFEATURE,
      USB_REQ_RECIPIENT_ENDPOINT, USB_REQ_RECIPIENT_DEVICE, he]
  obtain ⟨o, ho, hoth, hstall, hkeep, hlog⟩ := sam_ep_stall_stall_spec fuel
    ((sam_ep0_setup_begin priv).setep e
      { (sam_ep0_setup_begin priv).eplist e with halted := true }) e
  simp only [setep_eplist_same, hb] at hstall hkeep hlog
  have hfin : (o.eplist e).stalled = true ∧ (o.eplist e).epstate = sam_epstate_e.STALLED := by
    by_cases hs : (priv.eplist e).epstate = sam_epstate_e.STALLED
    · have hk := hkeep (by simp [hs])
      rw [hk]
      exact ⟨hinv hs, hs⟩
    · obtain ⟨h1, h2⟩ := hstall ⟨hen, hs⟩
      exact ⟨h2, h1⟩
  unfold sam_ep0_setup
  simp only [hstd, Bool.not_true, Bool.false_eq_true, if_false, hsw, sam_ep0_feature, ho]
  have hnl : ¬ (OK < 0) := by decide
  simp only [hnl, if_false, sam_ep0_setup_finish]
  refine ⟨_, rfl, ?_, ?_, ?_⟩
  · simp [sam_ep0_wrstatus, setep_eplist_ne _ _ _ _ he0, hfin.1]
  · simp [sam_ep0_wrstatus, setep_eplist_ne _ _ _ _ he0, hfin.2]
  · simp [sam_ep0_wrstatus, setep_eplist_ne _ _ _ _ he0, hlog]

/-- CLEAR_FEATURE(ENDPOINT_HALT) for a stalled OUT endpoint other than
endpoint 0 clears the stalled flag of that endpoint. -/
theorem sam_ep0_setup_clearfeature_halt (fuel : Nat) (priv : sam_usbdev_s) (e : Nat)
    (he0 : e ≠ EP0) (he : e < SAM_UDPHS_NENDPOINTS)
    (hctrl : priv.ctrl = setup_clearfeature_halt e)
    (hst : (priv.eplist e).epstate = sam_epstate_e.STALLED)
    (hout : USB_ISEPIN (priv.eplist e).eplog = false) :
    ∃ out, sam_ep0_setup fuel priv = some out ∧ (out.eplist e).stalled = false := by
  have hsd := same_dev_ep0_setup_begin priv
  have hc : (sam_ep0_setup_begin priv).ctrl = setup_clearfeature_halt e := hsd.ctrl.trans hctrl
  obtain ⟨hepno, hmsb⟩ := USB_EPNO_wb_lsb e he
  have hb := sam_ep0_setup_begin_other priv e he0
  have hstd : sam_ep0_isstandard (sam_ep0_setup_begin priv).ctrl = true := by
    rw [hc]
    show (0x02 &&& USB_REQ_TYPE_MASK == USB_REQ_TYPE_STANDARD) = true
    decide
  have hsw : sam_ep0_setup_switch fuel (sam_ep0_setup_begin priv)
      = sam_ep0_feature fuel
          ((sam_ep0_setup_begin priv).setep e
            { (sam_ep0_setup_begin priv).eplist e with halted := false }) e true := by
    unfold sam_ep0_setup_switch sam_ep0_clearfeature
    simp only [hc, setup_clearfeature_halt, hepno, hmsb]
    have h2 : 0x02 &&& USB_REQ_RECIPIENT_MASK = USB_REQ_RECIPIENT_ENDPOINT := by decide
    simp only [h2]
    simp [USB_REQ_GETSTATUS, USB_REQ_CLEARFEATURE, he]
  obtain ⟨o, ho, _, _, hcl⟩ := sam_ep_stall_resume_out_spec fuel
    ((sam_ep0_setup_begin priv).setep e
      { (sam_ep0_setup_begin priv).eplist e with halted := false }) e
    (by simp [hb, hst]) (by simp [hb, hout])
  unfold sam_ep0_setup
  simp only [hstd, Bool.not_true, Bool.false_eq_true, if_false, hsw, sam_ep0_feature, ho]
  have hnl : ¬ (OK < 0) := by decide
  simp only [hnl, if_false, sam_ep0_setup_finish]
  refine ⟨_, rfl, ?_⟩
  simp [sam_ep0_wrstatus, setep_eplist_ne _ _ _ _ he0, hcl]

/-- Counterexample to C18 as stated: endpoint 0 is enabled (`IDLE`); after
SET_FEATURE(ENDPOINT_HALT) for endpoint 0 was processed, GET_STATUS for
endpoint 0 answers with the bytes 0, 0 (bit 0 clear): `sam_ep0_setup`
clears the stalled flag of endpoint 0 whenever it starts to process a SETUP
packet. -/
theorem sam_ep0_halt_getstatus_ep0_counterexample :
    (dev_enabled.eplist EP0).epstate ≠ sam_epstate_e.DISABLED
    ∧ ((sam_ep0_process 10 dev_enabled (setup_setfeature_halt 0)).bind
        (fun p1 => sam_ep0_process 10 p1 (setup_getstatus_ep 0))).map
          (fun p2 => p2.hw.getLast?)
        = some (some (sam_hwop_e.fifo_write 0 [0, 0])) := by
  decide

/-- C18 (amended): for every endpoint number `e` with `1 ≤ e < 16` whose
endpoint is enabled (state not `DISABLED`, and with its stalled flag set if
its state is `STALLED`, as in every state the driver reaches): after the
SETUP packet SET_FEATURE(ENDPOINT_HALT, recipient endpoint, `index = e`,
`len = 0`) was processed, a following GET_STATUS for the endpoint `e`
answers with the bytes 1, 0 (bit 0 set); and, when the endpoint is an OUT
endpoint, after a subsequent CLEAR_FEATURE(ENDPOINT_HALT, `index = e`,
`len = 0`) was processed, GET_STATUS for `e` answers with the bytes 0, 0. -/
theorem sam_ep0_halt_feature_getstatus (fuel : Nat) (priv : sam_usbdev_s) (e : Nat)
    (he1 : 1 ≤ e) (he : e < SAM_UDPHS_NENDPOINTS)
    (hen : (priv.eplist e).epstate ≠ sam_epstate_e.DISABLED)
    (hinv : (priv.eplist e).epstate = sam_epstate_e.STALLED → (priv.eplist e).stalled = true) :
    ∃ p1 p2, sam_ep0_process fuel priv (setup_setfeature_halt e) = some p1
      ∧ sam_ep0_process fuel p1 (setup_getstatus_ep e) = some p2
      ∧ p2.hw = p1.hw ++ [sam_hwop_e.fifo_write 0 [1, 0]]
      ∧ (USB_ISEPIN (priv.eplist e).eplog = false →
          ∃ p3 p4, sam_ep0_process fuel p2 (setup_clearfeature_halt e) = some p3
            ∧ sam_ep0_process fuel p3 (setup_getstatus_ep e) = some p4
            ∧ p4.hw = p3.hw ++ [sam_hwop_e.fifo_write 0 [0, 0]]) := by
  have he0 : e ≠ EP0 := by unfold EP0; omega
  obtain ⟨p1, hp1, hs1, hst1, hlog1⟩ := sam_ep0_setup_setfeature_halt fuel
    { priv with ctrl := setup_setfeature_halt e } e he0 he rfl hen hinv
  obtain ⟨p2, hp2, hw2, hoth2⟩ := sam_ep0_setup_getstatus_ep fuel
    { p1 with ctrl := setup_getstatus_ep e } e he0 he rfl
  refine ⟨p1, p2, hp1, hp2, ?_, ?_⟩
  · rw [hw2]
    have : ({ p1 with ctrl := setup_getstatus_ep e } : sam_usbdev_s).eplist e = p1.eplist e := rfl
    simp only [this, hs1, if_true]
  · intro hout
    have h2e : p2.eplist e = p1.eplist e := hoth2 e he0
    obtain ⟨p3, hp3, hs3⟩ := sam_ep0_setup_clearfeature_halt fuel
      { p2 with ctrl := setup_clearfeature_halt e } e he0 he rfl
      (by show (p2.eplist e).epstate = _; rw [h2e, hst1])
      (by show USB_ISEPIN (p2.eplist e).eplog = _; rw [h2e, hlog1]; exact hout)
    obtain ⟨p4, hp4, hw4, _⟩ := sam_ep0_setup_getstatus_ep fuel
      { p3 with ctrl := setup_getstatus_ep e } e he0 he rfl
    refine ⟨p3, p4, hp3, hp4, ?_⟩
    rw [hw4]
    have : ({ p3 with ctrl := setup_getstatus_ep e } : sam_usbdev_s).eplist e = p3.eplist e := rfl
    simp only [this, hs3, Bool.false_eq_true, if_false]

/-- Witness of C18 (amended): the enabled OUT endpoint 8. -/
theorem sam_ep0_halt_feature_getstatus_witness :
    ∃ p1 p2, sam_ep0_process 10 dev_enabled (setup_setfeature_halt 8) = some p1
      ∧ sam_ep0_process 10 p1 (setup_getstatus_ep 8) = some p2
      ∧ p2.hw = p1.hw ++ [sam_hwop_e.fifo_write 0 [1, 0]]
      ∧ (USB_ISEPIN (dev_enabled.eplist 8).eplog = false →
          ∃ p3 p4, sam_ep0_process 10 p2 (setup_clearfeature_halt 8) = some p3
            ∧ sam_ep0_process 10 p3 (setup_getstatus_ep 8) = some p4
            ∧ p4.hw = p3.hw ++ [sam_hwop_e.fifo_write 0 [0, 0]]) :=
  sam_ep0_halt_feature_getstatus 10 dev_enabled 8 (by decide) (by decide) (by decide)
    (by decide)

/-! ## Bus reset: the endpoints -/

/-- What `sam_req_complete` leaves alone in the endpoint it is called for. -/
theorem sam_req_complete_fields (priv : sam_usbdev_s) (i : Nat) (result : Int) :
    ((sam_req_complete priv i result).eplist i).eplog = (priv.eplist i).eplog
    ∧ ((sam_req_complete priv i result).eplist i).maxpacket = (priv.eplist i).maxpacket := by
  cases hq : (priv.eplist i).queue with
  | nil => rw [sam_req_complete_nil priv i result hq]; exact ⟨rfl, rfl⟩
  | cons r rest => rw [(sam_req_complete_cons priv i result r rest hq).2]; exact ⟨rfl, rfl⟩

theorem sam_req_cancel_loop_frame (n : Nat) :
    ∀ (priv : sam_usbdev_s) (i : Nat),
      ((sam_req_cancel_loop n priv i).eplist i).eplog = (priv.eplist i).eplog
      ∧ ((sam_req_cancel_loop n priv i).eplist i).maxpacket = (priv.eplist i).maxpacket
      ∧ (∀ j, j ≠ i → (sam_req_cancel_loop n priv i).eplist j = priv.eplist j)
      ∧ ((priv.eplist i).queue = [] → sam_req_cancel_loop n priv i = priv) := by
  induction n with
  | zero => intro priv i; exact ⟨rfl, rfl, fun _ _ => rfl, fun _ => rfl⟩
  | succ n ih =>
    intro priv i
    unfold sam_req_cancel_loop
    by_cases hq : (priv.eplist i).queue = []
    · simp [sam_rqempty, hq]
    · have hne : sam_rqempty (priv.eplist i) = false := by simpa [sam_rqempty] using hq
      simp only [hne, Bool.not_false, if_true]
      obtain ⟨h1, h2, h3, _⟩ := ih (sam_req_complete priv i (-ESHUTDOWN)) i
      obtain ⟨f1, f2⟩ := sam_req_complete_fields priv i (-ESHUTDOWN)
      refine ⟨h1.trans f1, h2.trans f2, ?_, fun h => (hq h).elim⟩
      intro j hj
      rw [h3 j hj, sam_req_complete_other _ _ _ _ hj]

/-- The function `sam_req_cancel` completes the requests queued on the endpoint
with `-ESHUTDOWN`, in order, empties its queue, keeps its address and
max-packet size, and touches no other endpoint. -/
theorem sam_req_cancel_spec (priv : sam_usbdev_s) (i : Nat) :
    (sam_req_cancel priv i).done = priv.done ++ sam_shutdown_calls priv i
    ∧ ((sam_req_cancel priv i).eplist i).queue = []
    ∧ ((sam_req_cancel priv i).eplist i).eplog = (priv.eplist i).eplog
    ∧ ((sam_req_cancel priv i).eplist i).maxpacket = (priv.eplist i).maxpacket
    ∧ (∀ j, j ≠ i → (sam_req_cancel priv i).eplist j = priv.eplist j)
    ∧ ((priv.eplist i).queue = [] → (sam_req_cancel priv i).eplist = priv.eplist) := by
  obtain ⟨s1, s2, _⟩ := sam_req_cancel_loop_spec (priv.eplist i).queue
    (priv.eplist i).queue.length
    (priv.putreg (sam_hwop_e.ien_clr_dma (USB_EPNO (priv.eplist i).eplog))) i rfl (le_refl _)
  obtain ⟨f1, f2, f3, f4⟩ := sam_req_cancel_loop_frame (priv.eplist i).queue.length
    (priv.putreg (sam_hwop_e.ien_clr_dma (USB_EPNO (priv.eplist i).eplog))) i
  unfold sam_req_cancel
  refine ⟨?_, s2, f1, f2, f3, ?_⟩
  · simpa [sam_shutdown_calls] using s1
  · intro hq
    simp only [putreg_eplist]
    rw [f4 hq]
    rfl

/-- The function `sam_ep_reset` leaves the endpoint as `sam_ep_reset_ep`
describes, completes its requests with `-ESHUTDOWN` and touches no other
endpoint. -/
theorem sam_ep_reset_spec (priv : sam_usbdev_s) (epno : Nat) :
    (sam_ep_reset priv epno).eplist epno = sam_ep_reset_ep (priv.eplist epno)
    ∧ (∀ j, j ≠ epno → (sam_ep_reset priv epno).eplist j = priv.eplist j)
    ∧ (sam_ep_reset priv epno).done = priv.done ++ sam_shutdown_calls priv epno := by
  obtain ⟨c1, c2, c3, c4, c5, _⟩ := sam_req_cancel_spec
    (priv.putreg (sam_hwop_e.ien_clr_ept epno)) epno
  simp only [putreg_eplist, putreg_done] at c1 c2 c3 c4 c5
  unfold sam_ep_reset
  refine ⟨?_, ?_, ?_⟩
  · simp only [setep_eplist_same, putreg_eplist, sam_ep_reset_ep]
    rw [c2, c3, c4]
  · intro j hj
    simp only [setep_eplist_ne _ _ _ _ hj, putreg_eplist]
    exact c5 j hj
  · simp only [setep_done, putreg_done]
    rw [c1]
    rfl

/-- Resetting the endpoints of a duplicate-free list one after the other. -/
theorem foldl_ep_reset_spec (l : List Nat) :
    l.Nodup → ∀ priv : sam_usbdev_s,
      (∀ j, j ∉ l → (l.foldl sam_ep_reset priv).eplist j = priv.eplist j)
      ∧ (∀ j, j ∈ l → (l.foldl sam_ep_reset priv).eplist j = sam_ep_reset_ep (priv.eplist j))
      ∧ (l.foldl sam_ep_reset priv).done
          = priv.done ++ l.flatMap (fun e => sam_shutdown_calls priv e)
      ∧ same_dev (l.foldl sam_ep_reset priv) priv := by
  induction l with
  | nil => intro _ priv; exact ⟨fun _ _ => rfl, by simp, by simp, same_dev.refl _⟩
  | cons e t ih =>
    intro hnd priv
    obtain ⟨het, ht⟩ := List.nodup_cons.mp hnd
    obtain ⟨i1, i2, i3, i4⟩ := ih ht (sam_ep_reset priv e)
    obtain ⟨r1, r2, r3⟩ := sam_ep_reset_spec priv e
    simp only [List.foldl_cons]
    refine ⟨?_, ?_, ?_, i4.trans (same_dev_ep_reset _ _)⟩
    · intro j hj
      have hje : j ≠ e := fun h => hj (by simp [h])
      have hjt : j ∉ t := fun h => hj (by simp [h])
      rw [i1 j hjt, r2 j hje]
    · intro j hj
      rcases List.mem_cons.mp hj with h | h
      · subst h
        rw [i1 j het, r1]
      · have hje : j ≠ e := fun h' => het (h' ▸ h)
        rw [i2 j h, r2 j hje]
    · rw [i3, r3, List.flatMap_cons, List.append_assoc]
      congr 2
      apply List.flatMap_congr
      intro x hx
      have hxe : x ≠ e := fun h' => het (h' ▸ hx)
      simp only [sam_shutdown_calls, r2 x hxe]

theorem sam_epset_reset_bits (epno : Nat) (h : epno < 16) :
    65536 - 2 ^ epno ≠ 0
    ∧ (65536 - 2 ^ epno) &&& 2 ^ epno ≠ 0
    ∧ (2 ^ epno <<< 1) % 2 ^ 32 = 2 ^ (epno + 1)
    ∧ ((65536 - 2 ^ epno) &&& not32 (2 ^ epno)) % 65536 = 65536 - 2 ^ (epno + 1) := by
  interval_cases epno <;> decide

/-- The loop of `sam_epset_reset`, started for the set of all endpoints from
`epno` upwards, resets the endpoints `epno .. 15` one after the other. -/
theorem sam_epset_reset_loop_all (n : Nat) :
    ∀ (priv : sam_usbdev_s) (epno : Nat), epno + n = 16 →
      sam_epset_reset_loop n priv epno (2 ^ epno) (65536 - 2 ^ epno)
        = (List.range' epno n).foldl sam_ep_reset priv := by
  induction n with
  | zero => intro priv epno _; rfl
  | succ n ih =>
    intro priv epno h
    have hlt : epno < 16 := by omega
    obtain ⟨b1, b2, b3, b4⟩ := sam_epset_reset_bits epno hlt
    have hc : epno < SAM_UDPHS_NENDPOINTS ∧ 65536 - 2 ^ epno ≠ 0 := ⟨hlt, b1⟩
    unfold sam_epset_reset_loop
    rw [if_pos hc, if_pos b2, b3, b4, ih _ (epno + 1) (by omega)]
    rfl

theorem sam_epset_reset_all (priv : sam_usbdev_s) :
    sam_epset_reset priv SAM_EPSET_ALL = (List.range' 0 16).foldl sam_ep_reset priv := by
  have h := sam_epset_reset_loop_all 16 priv 0 rfl
  unfold sam_epset_reset
  exact h

/-- The last loop of `sam_reset` runs its body for the endpoints
`epno .. 15`. -/
theorem sam_reset_loop_all (n : Nat) :
    ∀ (priv : sam_usbdev_s) (epno : Nat), epno + n = 16 →
      sam_reset_loop n priv epno = (List.range' epno n).foldl sam_reset_body priv := by
  induction n with
  | zero => intro priv epno _; rfl
  | succ n ih =>
    intro priv epno h
    have hlt : epno < SAM_UDPHS_NENDPOINTS := by unfold SAM_UDPHS_NENDPOINTS; omega
    unfold sam_reset_loop
    rw [if_pos hlt]
    simp only
    rw [ih _ (epno + 1) (by omega)]
    rfl

/-- The body of the last loop of `sam_reset`, on an endpoint whose queue is
empty, only clears the three flags. -/
theorem sam_reset_body_spec (priv : sam_usbdev_s) (epno : Nat)
    (hq : (priv.eplist epno).queue = []) :
    (sam_reset_body priv epno).eplist epno
        = { priv.eplist epno with stalled := false, halted := false, txnullpkt := false }
    ∧ (∀ j, j ≠ epno → (sam_reset_body priv epno).eplist j = priv.eplist j)
    ∧ (sam_reset_body priv epno).done = priv.done := by
  obtain ⟨c1, _, _, _, c5, c6⟩ := sam_req_cancel_spec priv epno
  unfold sam_reset_body
  refine ⟨?_, ?_, ?_⟩
  · simp only [setep_eplist_same, c6 hq]
  · intro j hj
    rw [setep_eplist_ne _ _ _ _ hj, c5 j hj]
  · simp [c1, sam_shutdown_calls, hq]

/-- The last loop of `sam_reset` over endpoints whose queues are empty clears
the three flags of the endpoints it visits and changes nothing else in the
endpoint list; no callback is made. -/
theorem foldl_reset_body_spec (l : List Nat) :
    ∀ priv : sam_usbdev_s, (∀ j, j ∈ l → (priv.eplist j).queue = []) →
      (∀ j, ((l.foldl sam_reset_body priv).eplist j).queue = (priv.eplist j).queue
        ∧ ((l.foldl sam_reset_body priv).eplist j).epstate = (priv.eplist j).epstate
        ∧ ((l.foldl sam_reset_body priv).eplist j).maxpacket = (priv.eplist j).maxpacket
        ∧ (j ∈ l ∨ ((priv.eplist j).stalled = false ∧ (priv.eplist j).halted = false
              ∧ (priv.eplist j).txnullpkt = false) →
            ((l.foldl sam_reset_body priv).eplist j).stalled = false
            ∧ ((l.foldl sam_reset_body priv).eplist j).halted = false
            ∧ ((l.foldl sam_reset_body priv).eplist j).txnullpkt = false))
      ∧ (l.foldl sam_reset_body priv).done = priv.done := by
  induction l with
  | nil =>
    intro priv _
    refine ⟨fun j => ⟨rfl, rfl, rfl, ?_⟩, rfl⟩
    intro h
    rcases h with h | h
    · simp at h
    · exact h
  | cons e t ih =>
    intro priv hq
    obtain ⟨b1, b2, b3⟩ := sam_reset_body_spec priv e (hq e (by simp))
    have hq' : ∀ j, j ∈ t → ((sam_reset_body priv e).eplist j).queue = [] := by
      intro j hjt
      by_cases hj : j = e
      · subst hj; rw [b1]; exact hq j (by simp)
      · rw [b2 j hj]; exact hq j (by simp [hjt])
    obtain ⟨i1, i2⟩ := ih (sam_reset_body priv e) hq'
    simp only [List.foldl_cons]
    refine ⟨?_, i2.trans b3⟩
    intro j
    obtain ⟨j1, j2, j3, j4⟩ := i1 j
    by_cases hj : j = e
    · subst hj
      refine ⟨by rw [j1, b1], by rw [j2, b1], by rw [j3, b1], fun _ => j4 (Or.inr ?_)⟩
      rw [b1]
      exact ⟨rfl, rfl, rfl⟩
    · refine ⟨by rw [j1, b2 j hj], by rw [j2, b2 j hj], by rw [j3, b2 j hj], ?_⟩
      intro h
      apply j4
      rcases h with h | h
      · rcases List.mem_cons.mp h with h' | h'
        · exact (hj h').elim
        · exact Or.inl h'
      · right; rw [b2 j hj]; exact h

/-- The endpoint list and the callback trace after
`sam_ep_configure_internal` for endpoint 0 with `g_ep0desc`. -/
theorem sam_ep_configure_internal_ep0 (priv : sam_usbdev_s) :
    ((sam_ep_configure_internal priv EP0 g_ep0desc).1.eplist EP0).epstate = sam_epstate_e.IDLE
    ∧ ((sam_ep_configure_internal priv EP0 g_ep0desc).1.eplist EP0).maxpacket = 64
    ∧ ((sam_ep_configure_internal priv EP0 g_ep0desc).1.eplist EP0).queue
        = (priv.eplist EP0).queue
    ∧ (∀ j, j ≠ EP0 →
        (sam_ep_configure_internal priv EP0 g_ep0desc).1.eplist j = priv.eplist j)
    ∧ (sam_ep_configure_internal priv EP0 g_ep0desc).1.done = priv.done := by
  have hm : (if priv.intsta_speed = true then g_ep0desc.mxpacketsize % 256 &&& 0x7ff
      else g_ep0desc.mxpacketsize % 256) = 64 := by
    split <;> decide
  unfold sam_ep_configure_internal
  simp only [hm]
  refine ⟨?_, ?_, ?_, ?_, ?_⟩
  · split_ifs <;> simp
  · split_ifs <;> simp
  · split_ifs <;> simp
  · intro j hj
    split_ifs <;> simp [setep_eplist_ne _ _ _ _ hj]
  · split_ifs <;> simp

/-- C15: after `sam_reset` (bus reset) of a device with a bound class driver
on hardware that accepts the default configuration of endpoint 0, every
endpoint `1 .. 15` is `DISABLED` with an empty queue, every request that
was queued on an endpoint `0 .. 15` has been completed with `-ESHUTDOWN`
(the callbacks in the order of the endpoints, each queue in its order),
endpoint 0 is `IDLE` with the max-packet size 64 and an empty queue, and
the stalled, halted and txnullpkt flags of every endpoint are clear. -/
theorem sam_reset_endpoints (priv : sam_usbdev_s)
    (_hdriver : priv.driver.isSome = true)
    (_hmapd : (priv.regs EP0).cfg_mapd = true) :
    (∀ e, 1 ≤ e → e < SAM_UDPHS_NENDPOINTS →
        ((sam_reset priv).eplist e).epstate = sam_epstate_e.DISABLED
        ∧ ((sam_reset priv).eplist e).queue = [])
    ∧ (sam_reset priv).done
        = priv.done ++ (List.range' 0 16).flatMap (fun e => sam_shutdown_calls priv e)
    ∧ ((sam_reset priv).eplist EP0).epstate = sam_epstate_e.IDLE
    ∧ ((sam_reset priv).eplist EP0).maxpacket = 64
    ∧ ((sam_reset priv).eplist EP0).queue = []
    ∧ ∀ e, e < SAM_UDPHS_NENDPOINTS →
        ((sam_reset priv).eplist e).stalled = false
        ∧ ((sam_reset priv).eplist e).halted = false
        ∧ ((sam_reset priv).eplist e).txnullpkt = false := by
  set p0 : sam_usbdev_s :=
    { sam_setdevaddr
        { ({ priv.putreg sam_hwop_e.enableclk with
              cls := (priv.putreg sam_hwop_e.enableclk).cls ++ [sam_class_e.disconnect] })
          with devaddr := 0 } 0 with
      devstate := sam_devstate_e.DEFAULT, rxpending := false } with hp0
  have h0 : p0.eplist = priv.eplist ∧ p0.done = priv.done := by
    simp [hp0, sam_setdevaddr]
  have hall : (List.range' 0 16).Nodup := List.nodup_range' 0 16
  have hmem : ∀ j, j ∈ List.range' 0 16 ↔ j < 16 := by
    intro j; simp [List.mem_range']
  obtain ⟨_, r2, r3, _⟩ := foldl_ep_reset_spec (List.range' 0 16) hall p0
  rw [← sam_epset_reset_all p0] at r2 r3
  obtain ⟨c1, c2, c3, c4, c5⟩ := sam_ep_configure_internal_ep0 (sam_epset_reset p0 SAM_EPSET_ALL)
  set p2 := (sam_ep_configure_internal (sam_epset_reset p0 SAM_EPSET_ALL) EP0 g_ep0desc).1
    with hp2
  -- the endpoints after the reset of all endpoints and the configuration of endpoint 0
  have hq1 : ∀ j, j < 16 → ((sam_epset_reset p0 SAM_EPSET_ALL).eplist j)
      = sam_ep_reset_ep (priv.eplist j) := by
    intro j hj
    rw [r2 j ((hmem j).mpr hj), h0.1]
  have hq2 : ∀ j, j < 16 → (p2.eplist j).queue = [] := by
    intro j hj
    by_cases hj0 : j = EP0
    · subst hj0
      rw [c3, hq1 _ hj]
      rfl
    · rw [c4 j hj0, hq1 j hj]
      rfl
  have hout : sam_reset priv
      = { (List.range' 0 16).foldl sam_reset_body p2 with speed_full := true } := by
    unfold sam_reset
    simp only
    rw [show SAM_UDPHS_NENDPOINTS = 16 from rfl, sam_reset_loop_all 16 _ 0 rfl]
  have hlist : (sam_reset priv).eplist = ((List.range' 0 16).foldl sam_reset_body p2).eplist := by
    rw [hout]
  have hdone : (sam_reset priv).done = ((List.range' 0 16).foldl sam_reset_body p2).done := by
    rw [hout]
  obtain ⟨f1, f2⟩ := foldl_reset_body_spec (List.range' 0 16) p2
    (fun j hj => hq2 j ((hmem j).mp hj))
  rw [hlist, hdone, f2, c5, r3, h0.2]
  have hflat : (List.range' 0 16).flatMap (fun e => sam_shutdown_calls p0 e)
      = (List.range' 0 16).flatMap (fun e => sam_shutdown_calls priv e) := by
    have hcalls : ∀ e, sam_shutdown_calls p0 e = sam_shutdown_calls priv e := by
      intro e
      unfold sam_shutdown_calls
      rw [h0.1]
    exact congrArg _ (funext hcalls)
  refine ⟨?_, by rw [hflat], ?_, ?_, ?_, ?_⟩
  · intro e he1 he
    have he0 : e ≠ EP0 := by unfold EP0; omega
    obtain ⟨j1, j2, _, _⟩ := f1 e
    rw [j1, j2, c4 e he0, hq1 e he]
    exact ⟨rfl, rfl⟩
  · rw [(f1 EP0).2.1, c1]
  · rw [(f1 EP0).2.2.1, c2]
  · rw [(f1 EP0).1]
    exact hq2 EP0 (by decide)
  · intro e he
    exact (f1 e).2.2.2 (Or.inl ((hmem e).mpr he))

/-- Witness of C15: a bus reset while endpoint 0 is sending and the endpoints
1 and 8 hold requests. -/
theorem sam_reset_endpoints_witness :
    (∀ e, 1 ≤ e → e < SAM_UDPHS_NENDPOINTS →
        ((sam_reset dev_busy).eplist e).epstate = sam_epstate_e.DISABLED
        ∧ ((sam_reset dev_busy).eplist e).queue = [])
    ∧ (sam_reset dev_busy).done
        = dev_busy.done ++ (List.range' 0 16).flatMap (fun e => sam_shutdown_calls dev_busy e)
    ∧ ((sam_reset dev_busy).eplist EP0).epstate = sam_epstate_e.IDLE
    ∧ ((sam_reset dev_busy).eplist EP0).maxpacket = 64
    ∧ ((sam_reset dev_busy).eplist EP0).queue = []
    ∧ ∀ e, e < SAM_UDPHS_NENDPOINTS →
        ((sam_reset dev_busy).eplist e).stalled = false
        ∧ ((sam_reset dev_busy).eplist e).halted = false
        ∧ ((sam_reset dev_busy).eplist e).txnullpkt = false :=
  sam_reset_endpoints dev_busy (by decide) (by decide)

/-! ## Endpoint 0: applying the deferred address -/

/-- C21: when `sam_ep_interrupt` handles a TX-ready (packet sent) event on
endpoint 0 in the `EP0ADDRESS` state (no other event reported), it returns
with the deferred address `priv->devaddr` applied by `sam_setdevaddr`, but
endpoint 0 is left unchanged: it is still in `EP0ADDRESS`, not in `IDLE`. -/
theorem sam_ep_interrupt_ep0address_not_idle (fuel : Nat) (priv : sam_usbdev_s)
    (hst : (priv.eplist EP0).epstate = sam_epstate_e.EP0ADDRESS)
    (h1 : (priv.regs EP0).eptctl_txrdy = true)
    (h2 : (priv.regs EP0).sta_txrdy = false)
    (h3 : (priv.regs EP0).sta_rxrdytxkl = false)
    (h4 : (priv.regs EP0).sta_stallsnt = false)
    (h5 : (priv.regs EP0).sta_rxsetup = false) :
    ∃ out, sam_ep_interrupt fuel priv EP0 = some out
      ∧ (priv.devaddr ≠ 0 → out.ctrl_devaddr = priv.devaddr &&& 0x7f
          ∧ out.ctrl_faddren = true ∧ out.devstate = sam_devstate_e.ADDRESS)
      ∧ (priv.devaddr = 0 → out.ctrl_faddren = false
          ∧ out.devstate = sam_devstate_e.DEFAULT)
      ∧ out.eplist EP0 = priv.eplist EP0
      ∧ (out.eplist EP0).epstate = sam_epstate_e.EP0ADDRESS
      ∧ (out.eplist EP0).epstate ≠ sam_epstate_e.IDLE := by
  unfold sam_ep_interrupt
  simp only [debugassert_regs, debugassert_eplist, h1, h2, h3, h4, h5, hst, Bool.not_false,
    Bool.and_self, if_true, Bool.false_eq_true, if_false, reduceCtorEq, or_self,
    debugassert_devaddr]
  refine ⟨_, rfl, ?_, ?_, ?_, ?_, ?_⟩
  · intro h
    simp [sam_setdevaddr, h]
  · intro h
    simp [sam_setdevaddr, h]
  · unfold sam_setdevaddr
    split <;> simp
  · unfold sam_setdevaddr
    split <;> simp [hst]
  · unfold sam_setdevaddr
    split <;> simp [hst]

/-- Witness of C21: the SET_ADDRESS status phase completes on the device
that holds the address 5. -/
theorem sam_ep_interrupt_ep0address_not_idle_witness :
    ∃ out, sam_ep_interrupt 10 dev_ep0address EP0 = some out
      ∧ (dev_ep0address.devaddr ≠ 0 → out.ctrl_devaddr = dev_ep0address.devaddr &&& 0x7f
          ∧ out.ctrl_faddren = true ∧ out.devstate = sam_devstate_e.ADDRESS)
      ∧ (dev_ep0address.devaddr = 0 → out.ctrl_faddren = false
          ∧ out.devstate = sam_devstate_e.DEFAULT)
      ∧ out.eplist EP0 = dev_ep0address.eplist EP0
      ∧ (out.eplist EP0).epstate = sam_epstate_e.EP0ADDRESS
      ∧ (out.eplist EP0).epstate ≠ sam_epstate_e.IDLE :=
  sam_ep_interrupt_ep0address_not_idle 10 dev_ep0address
    (by simp [dev_ep0address, sam_usbdev_s.hwevent, mkep]) rfl rfl rfl rfl rfl

/-! ## Suspend and resume -/

/-- On a suspended device `sam_suspend` does nothing, however often it is
called. -/
theorem sam_suspend_iterate_suspended (n : Nat) (priv : sam_usbdev_s)
    (h : priv.devstate = sam_devstate_e.SUSPENDED) : sam_suspend^[n] priv = priv := by
  apply Function.iterate_fixed
  simp [sam_suspend, h]

/-- C22: on a device in a state `s` other than `SUSPENDED`, `n ≥ 1`
consecutive calls of `sam_suspend` followed by one `sam_resume` leave the
device state equal to `s`; the calls made on the way are exactly one
`CLASS_SUSPEND` and one `CLASS_RESUME` of the bound class driver, around the
two board notifications `sam_usbsuspend(false)` and `sam_usbsuspend(true)`.
And `sam_resume` on a device that is not `SUSPENDED` changes nothing at
all: neither `devstate` nor `prevstate`, and nobody is notified. -/
theorem sam_suspend_resume_restores_state (priv : sam_usbdev_s) (n : Nat) (hn : 1 ≤ n)
    (hs : priv.devstate ≠ sam_devstate_e.SUSPENDED) :
    (sam_resume (sam_suspend^[n] priv)).devstate = priv.devstate
    ∧ (sam_resume (sam_suspend^[n] priv)).cls
        = priv.cls ++ (if priv.driver.isSome then [sam_class_e.suspend] else [])
          ++ [sam_class_e.usbsuspend false, sam_class_e.usbsuspend true]
          ++ (if priv.driver.isSome then [sam_class_e.resume] else [])
    ∧ ∀ p : sam_usbdev_s, p.devstate ≠ sam_devstate_e.SUSPENDED → sam_resume p = p := by
  obtain ⟨k, rfl⟩ : ∃ k, n = k + 1 := ⟨n - 1, by omega⟩
  have h1 : (sam_suspend priv).devstate = sam_devstate_e.SUSPENDED := by
    unfold sam_suspend
    rw [if_pos hs]
    rfl
  rw [Function.iterate_succ_apply, sam_suspend_iterate_suspended k _ h1]
  refine ⟨?_, ?_, ?_⟩
  · unfold sam_resume
    rw [if_pos h1]
    unfold sam_suspend
    rw [if_pos hs]
    by_cases hd : priv.driver.isSome = true <;> simp [hd, sam_usbdev_s.putreg]
  · unfold sam_resume
    rw [if_pos h1]
    unfold sam_suspend
    rw [if_pos hs]
    by_cases hd : priv.driver.isSome = true <;> simp [hd, sam_usbdev_s.putreg]
  · intro p hp
    unfold sam_resume
    rw [if_neg hp]

/-- Witness of C22: three suspend events and one resume on the configured
device `dev_addressed` (state `ADDRESS`, class driver bound). -/
theorem sam_suspend_resume_restores_state_witness :
    (sam_resume (sam_suspend^[3] dev_addressed)).devstate = dev_addressed.devstate
    ∧ (sam_resume (sam_suspend^[3] dev_addressed)).cls
        = dev_addressed.cls
          ++ (if dev_addressed.driver.isSome then [sam_class_e.suspend] else [])
          ++ [sam_class_e.usbsuspend false, sam_class_e.usbsuspend true]
          ++ (if dev_addressed.driver.isSome then [sam_class_e.resume] else [])
    ∧ ∀ p : sam_usbdev_s, p.devstate ≠ sam_devstate_e.SUSPENDED → sam_resume p = p :=
  sam_suspend_resume_restores_state dev_addressed 3 (by decide) (by decide)

/-! ## Zero-length read requests -/

/-- C23: when the head read request of an endpoint (DMA-capable or not) has
`len = 0` (and, as always, `xfrd ≤ len`), `sam_req_read` returns `OK` for
every packet size, having called back for that request with the result `OK`,
`xfrd = 0` and the buffer untouched, and having removed it from the queue;
the trace of register writes and FIFO accesses is unchanged, so the FIFO
was not read and no DMA transfer was started. -/
theorem sam_req_read_zero_length_completes (priv : sam_usbdev_s) (i : Nat) (r : sam_req_s)
    (rest : List sam_req_s) (pktsize : Nat)
    (hq : (priv.eplist i).queue = r :: rest) (hlen : r.len = 0) (hx : r.xfrd ≤ r.len) :
    ∃ r', (sam_req_read priv i pktsize).1.done = priv.done ++ [(i, r')]
      ∧ r'.id = r.id ∧ r'.result = OK ∧ r'.xfrd = 0 ∧ r'.buf = r.buf
      ∧ (sam_req_read priv i pktsize).2 = OK
      ∧ ((sam_req_read priv i pktsize).1.eplist i).queue = rest
      ∧ (sam_req_read priv i pktsize).1.hw = priv.hw := by
  have hx0 : r.xfrd = 0 := by omega
  obtain ⟨c1, c2⟩ := sam_req_complete_cons priv i OK r rest hq
  have hrd : sam_req_read priv i pktsize = (sam_req_complete priv i OK, OK) := by
    unfold sam_req_read
    simp only [sam_rqpeek, hq, List.head?_cons]
    rw [if_pos hlen]
  rw [hrd]
  exact ⟨{ r with result := OK }, c1, rfl, rfl, hx0, rfl, rfl, by rw [c2],
    sam_req_complete_hw priv i OK⟩

/-- Witness of C23: a zero-length read request at the head of the queue of
the DMA-capable endpoint 1, a 64-byte packet in the FIFO. -/
theorem sam_req_read_zero_length_completes_witness :
    ∃ r', (sam_req_read dev_zlp 1 64).1.done = dev_zlp.done ++ [(1, r')]
      ∧ r'.id = (mkreq 1 0 0).id ∧ r'.result = OK ∧ r'.xfrd = 0 ∧ r'.buf = (mkreq 1 0 0).buf
      ∧ (sam_req_read dev_zlp 1 64).2 = OK
      ∧ ((sam_req_read dev_zlp 1 64).1.eplist 1).queue = [mkreq 2 64 0]
      ∧ (sam_req_read dev_zlp 1 64).1.hw = dev_zlp.hw :=
  sam_req_read_zero_length_completes dev_zlp 1 (mkreq 1 0 0) [mkreq 2 64 0] 64
    (by simp [dev_zlp, mkep]) rfl (by decide)

/-! ## The interrupt dispatcher -/

/-- The endpoint loop of the dispatcher passes over indices whose interrupt
bit is not pending without calling anything. -/
theorem sam_udphs_interrupt_ept_loop_skip (fuel : Nat) (int_ept : Nat → Nat) (pending : Nat) :
    ∀ (n m i : Nat) (s : sam_usbdev_s × List Nat),
      (∀ j, i ≤ j → j < i + n → j ≤ SAM_UDPHS_NENDPOINTS ∧ pending &&& int_ept j = 0) →
      sam_udphs_interrupt_ept_loop fuel int_ept pending (n + m) i s
        = sam_udphs_interrupt_ept_loop fuel int_ept pending m (i + n) s := by
  intro n
  induction n with
  | zero => intro m i s _; simp
  | succ n ih =>
    intro m i s h
    obtain ⟨hi, hp⟩ := h i (le_refl _) (by omega)
    have e : n + 1 + m = (n + m) + 1 := by omega
    have step : sam_udphs_interrupt_ept_loop fuel int_ept pending (n + m + 1) i s
        = sam_udphs_interrupt_ept_loop fuel int_ept pending (n + m) (i + 1) s := by
      simp [sam_udphs_interrupt_ept_loop, hi, hp]
    have e2 : i + 1 + n = i + (n + 1) := by omega
    rw [e, step, ih m (i + 1) s (fun j h1 h2 => h j (by omega) (by omega)), e2]

/-- C24: in the endpoint section of a pass of the dispatcher loop of
`sam_udphs_interrupt`, when none of the endpoints 1..15 has its interrupt
bit pending, `sam_ep_interrupt` is not called for endpoint 0, whether or not
the bit `UDPHS_INT_EPT(0)` is pending and enabled: the loop starts at
`i = 1`.  The only call that can then be made is the one for the index
`i = 16 = SAM_UDPHS_NENDPOINTS`, which the loop bound `i <= ...` admits. -/
theorem sam_udphs_interrupt_never_services_ep0 (fuel : Nat) (int_ept_mask : Nat)
    (int_ept : Nat → Nat) (pending : Nat) (priv : sam_usbdev_s)
    (h : ∀ i, 1 ≤ i → i ≤ 15 → pending &&& int_ept i = 0) :
    sam_udphs_interrupt_ept fuel int_ept_mask int_ept pending priv
      = if pending &&& int_ept_mask ≠ 0 ∧ pending &&& int_ept SAM_UDPHS_NENDPOINTS ≠ 0 then
          (sam_ep_interrupt fuel priv SAM_UDPHS_NENDPOINTS).map
            (fun p => (p, [SAM_UDPHS_NENDPOINTS]))
        else some (priv, []) := by
  unfold sam_udphs_interrupt_ept
  by_cases hm : pending &&& int_ept_mask ≠ 0
  · rw [if_pos hm]
    have hskip := sam_udphs_interrupt_ept_loop_skip fuel int_ept pending 15 2 1 (priv, [])
      (fun j h1 h2 => ⟨by simp only [SAM_UDPHS_NENDPOINTS]; omega, h j h1 (by omega)⟩)
    have e : SAM_UDPHS_NENDPOINTS + 1 = 15 + 2 := rfl
    rw [e, hskip]
    by_cases h16 : pending &&& int_ept SAM_UDPHS_NENDPOINTS ≠ 0
    · rw [if_pos ⟨hm, h16⟩]
      have h16' : pending &&& int_ept 16 ≠ 0 := h16
      cases hc : sam_ep_interrupt fuel priv SAM_UDPHS_NENDPOINTS with
      | none =>
        have hc' : sam_ep_interrupt fuel priv 16 = none := hc
        simp [sam_udphs_interrupt_ept_loop, SAM_UDPHS_NENDPOINTS, h16', hc']
      | some p =>
        have hc' : sam_ep_interrupt fuel priv 16 = some p := hc
        simp [sam_udphs_interrupt_ept_loop, SAM_UDPHS_NENDPOINTS, h16', hc']
    · rw [if_neg (fun hh => h16 hh.2)]
      have h16' : pending &&& int_ept 16 = 0 := by
        have := not_not.mp h16
        exact this
      simp [sam_udphs_interrupt_ept_loop, SAM_UDPHS_NENDPOINTS, h16']
  · rw [if_neg hm, if_neg (fun hh => hm hh.1)]

/-- Witness of C24: a SETUP packet is waiting in the FIFO of endpoint 0 and
only the interrupt bit of endpoint 0 (bit 8 of `UDPHS_INTSTA`) is pending
and enabled. -/
theorem sam_udphs_interrupt_never_services_ep0_witness :
    sam_udphs_interrupt_ept 10 0xffff00 (fun n => 1 <<< (n + 8)) 0x100 dev_setup_pending
      = if 0x100 &&& 0xffff00 ≠ 0
            ∧ 0x100 &&& (fun n => 1 <<< (n + 8)) SAM_UDPHS_NENDPOINTS ≠ 0 then
          (sam_ep_interrupt 10 dev_setup_pending SAM_UDPHS_NENDPOINTS).map
            (fun p => (p, [SAM_UDPHS_NENDPOINTS]))
        else some (dev_setup_pending, []) :=
  sam_udphs_interrupt_never_services_ep0 10 0xffff00 (fun n => 1 <<< (n + 8)) 0x100
    dev_setup_pending (by intro i h1 h2; interval_cases i <;> decide)

/-! ## DMA completion -/

/-- C25: when `sam_dma_interrupt` finds neither the end-of-buffer nor the
end-of-channel bit in the DMA status, it sets `result = -EIO`, but the head
request is completed only if `len == xfrd`.  For a head request with
`xfrd ≠ len` the function returns with the request still at the head of the
queue and without any completion callback; only for `xfrd = len` is the
request removed and called back with `-EIO`. -/
theorem sam_dma_interrupt_error_keeps_request (priv : sam_usbdev_s) (epno : Nat)
    (r : sam_req_s) (rest : List sam_req_s)
    (hq : (priv.eplist epno).queue = r :: rest)
    (hb : (priv.regs epno).dma_endbfst = false)
    (ht : (priv.regs epno).dma_endtrst = false) :
    (r.xfrd ≠ r.len →
      (sam_dma_interrupt priv epno).eplist epno = priv.eplist epno
      ∧ (sam_dma_interrupt priv epno).done = priv.done)
    ∧ (r.xfrd = r.len →
      ((sam_dma_interrupt priv epno).eplist epno).queue = rest
      ∧ (sam_dma_interrupt priv epno).done
          = priv.done ++ [(epno, { r with result := - EIO })]) := by
  unfold sam_dma_interrupt
  simp only [debugassert_eplist, debugassert_regs, sam_rqpeek, hq, List.head?_cons, hb, ht,
    Bool.false_eq_true, if_false]
  constructor
  · intro hx
    rw [if_neg (fun h => hx h.symm)]
    simp
  · intro hx
    rw [if_pos hx.symm]
    obtain ⟨c1, c2⟩ := sam_req_complete_cons
      (((priv.debugassert (decide (epno < SAM_UDPHS_NENDPOINTS) && sam_ep_isdma epno)
          sam_assert_e.dma_interrupt_epno).debugassert
            (some r).isSome sam_assert_e.dma_interrupt_privreq).putreg
        (sam_hwop_e.dmacontrol_clr_endtren_endben epno)) epno (- EIO) r rest (by simpa using hq)
    constructor
    · rw [c2]
    · rw [c1]; simp

/-- Witness of C25: a DMA error on endpoint 1 while none of the 512 bytes of
the head request has been transferred. -/
theorem sam_dma_interrupt_error_keeps_request_witness :
    ((mkreq 2 512 0).xfrd ≠ (mkreq 2 512 0).len →
      (sam_dma_interrupt dev_busy 1).eplist 1 = dev_busy.eplist 1
      ∧ (sam_dma_interrupt dev_busy 1).done = dev_busy.done)
    ∧ ((mkreq 2 512 0).xfrd = (mkreq 2 512 0).len →
      ((sam_dma_interrupt dev_busy 1).eplist 1).queue = [mkreq 3 512 0]
      ∧ (sam_dma_interrupt dev_busy 1).done
          = dev_busy.done ++ [(1, { mkreq 2 512 0 with result := - EIO })]) :=
  sam_dma_interrupt_error_keeps_request dev_busy 1 (mkreq 2 512 0) [mkreq 3 512 0]
    (by simp [dev_busy, mkep, setep_eplist_ne]) rfl rfl

/-- C26: the end-of-channel branch of `sam_dma_interrupt` does not preserve
`inflight ≤ len - xfrd`.  With a residual count `c ≤ inflight` it adds
`inflight - c` to `xfrd` and then subtracts `c` from `inflight` (where the
end-of-buffer branch stores `c`), so the head request ends with
`xfrd + inflight = xfrd₀ + 2 (inflight₀ - c)`, which exceeds `len` whenever
`len < xfrd₀ + 2 (inflight₀ - c)`, although the bound held before. -/
theorem sam_dma_interrupt_eoc_breaks_inflight_bound (priv : sam_usbdev_s) (epno : Nat)
    (r : sam_req_s) (rest : List sam_req_s) (c : Nat)
    (hq : (priv.eplist epno).queue = r :: rest)
    (hb : (priv.regs epno).dma_endbfst = false)
    (ht : (priv.regs epno).dma_endtrst = true)
    (hc : (priv.regs epno).dma_bufcnt = c)
    (hlen : r.len < 65536)
    (hinv : r.inflight ≤ r.len - r.xfrd) (hx : r.xfrd ≤ r.len)
    (hcle : c ≤ r.inflight)
    (hmore : r.xfrd + (r.inflight - c) ≠ r.len)
    (hbad : r.len < r.xfrd + 2 * (r.inflight - c)) :
    ∃ r', ((sam_dma_interrupt priv epno).eplist epno).queue = r' :: rest
      ∧ r'.len = r.len
      ∧ r'.xfrd = r.xfrd + (r.inflight - c)
      ∧ r'.inflight = r.inflight - c
      ∧ ¬ (r'.inflight ≤ r'.len - r'.xfrd) := by
  have e1 : (((r.xfrd : Int) + ((r.inflight : Int) - (c : Int))) % 65536).toNat
      = r.xfrd + (r.inflight - c) := by omega
  have e2 : ((((r.inflight : Int) - (c : Int))) % 65536).toNat = r.inflight - c := by omega
  unfold sam_dma_interrupt
  simp only [debugassert_eplist, debugassert_regs, sam_rqpeek, hq, List.head?_cons, hb, ht, hc,
    Bool.false_eq_true, if_false, if_true, sam_dma_interrupt_eoc, e1, e2]
  rw [if_neg (fun h => hmore h.symm)]
  refine ⟨{ r with xfrd := r.xfrd + (r.inflight - c), inflight := r.inflight - c }, ?_, rfl, rfl,
    rfl, ?_⟩
  · simp [sam_ep_s.sethead, hq]
  · simp only
    omega

/-- Witness of C26: 100 bytes in flight for a 100-byte request, and the
channel ends with 10 bytes left: `xfrd` and `inflight` both become 90. -/
theorem sam_dma_interrupt_eoc_breaks_inflight_bound_witness :
    ∃ r', ((sam_dma_interrupt dev_dma_eoc 1).eplist 1).queue = r' :: []
      ∧ r'.len = ({ mkreq 1 100 0 with inflight := 100 } : sam_req_s).len
      ∧ r'.xfrd = ({ mkreq 1 100 0 with inflight := 100 } : sam_req_s).xfrd
          + (({ mkreq 1 100 0 with inflight := 100 } : sam_req_s).inflight - 10)
      ∧ r'.inflight = ({ mkreq 1 100 0 with inflight := 100 } : sam_req_s).inflight - 10
      ∧ ¬ (r'.inflight ≤ r'.len - r'.xfrd) :=
  sam_dma_interrupt_eoc_breaks_inflight_bound dev_dma_eoc 1
    { mkreq 1 100 0 with inflight := 100 } [] 10
    (by simp [dev_dma_eoc, sam_usbdev_s.hwevent, mkep]) rfl rfl rfl (by decide) (by decide)
    (by decide) (by decide) (by decide) (by decide)

/-! ## The bound on the bytes in flight -/

/-- The head request after `sam_req_wrnodma` still has
`xfrd + inflight ≤ len`. -/
theorem sam_req_wrnodma_inflight_bound (priv : sam_usbdev_s) (i : Nat) (r : sam_req_s)
    (rest : List sam_req_s) (hq : (priv.eplist i).queue = r :: rest)
    (hlen : r.len < 65536) (hc : r.xfrd + r.inflight ≤ r.len) :
    ∃ r', ((sam_req_wrnodma priv i r).1.eplist i).queue = r' :: rest
      ∧ r'.len = r.len ∧ r'.xfrd + r'.inflight ≤ r'.len := by
  unfold sam_req_wrnodma
  by_cases hpos : (r.len : Int) - ((r.xfrd : Int) + (r.inflight : Int)) > 0
  · simp only [hpos, if_true]
    by_cases hf : (r.len : Int) - ((r.xfrd : Int) + (r.inflight : Int))
        ≥ ((priv.eplist i).maxpacket : Int)
    · simp only [hf, decide_True, if_true, Bool.true_and, Int.toNat_ofNat]
      refine ⟨{ r with inflight := (r.inflight + (priv.eplist i).maxpacket) % 65536 }, ?_, rfl, ?_⟩
      · simp [sam_ep_s.sethead, hq, apply_ite]
      · have : (r.inflight + (priv.eplist i).maxpacket) % 65536
            = r.inflight + (priv.eplist i).maxpacket := Nat.mod_eq_of_lt (by omega)
        simp only [this]
        omega
    · simp only [hf, decide_False, if_false, Bool.false_and, Bool.false_eq_true]
      refine ⟨{ r with inflight := (r.inflight
        + ((r.len : Int) - ((r.xfrd : Int) + (r.inflight : Int))).toNat) % 65536 }, ?_, rfl, ?_⟩
      · simp [sam_ep_s.sethead, hq]
      · simp only
        omega
  · simp only [hpos, if_false]
    exact ⟨r, by simp [hq], rfl, hc⟩

/-- The head request after `sam_req_wrdma` still has `xfrd + inflight ≤ len`. -/
theorem sam_req_wrdma_inflight_bound (priv : sam_usbdev_s) (i : Nat) (r : sam_req_s)
    (rest : List sam_req_s) (hq : (priv.eplist i).queue = r :: rest)
    (hlen : r.len < 65536) (hc : r.xfrd + r.inflight ≤ r.len) :
    ∃ r', ((sam_req_wrdma priv i r).1.eplist i).queue = r' :: rest
      ∧ r'.len = r.len ∧ r'.xfrd + r'.inflight ≤ r'.len := by
  unfold sam_req_wrdma
  by_cases hst : (priv.eplist i).epstate ≠ sam_epstate_e.IDLE
  · rw [if_pos hst]
    exact ⟨r, hq, rfl, hc⟩
  · rw [if_neg hst]
    simp only [Nat.cast_zero, sub_zero]
    by_cases hpos : (r.len : Int) - (r.xfrd : Int) > 0
    · simp only [hpos, if_true]
      refine ⟨{ r with inflight := ((r.len : Int) - (r.xfrd : Int)).toNat % 65536 }, ?_, rfl, ?_⟩
      · simp [sam_dma_single, sam_ep_s.sethead, hq]
      · simp only
        omega
    · simp only [hpos, if_false]
      refine ⟨{ r with inflight := 0 }, ?_, rfl, ?_⟩
      · simp [sam_ep_s.sethead, hq]
      · simp only
        omega

/-- The head request after `sam_req_rddma` has `xfrd + inflight ≤ len`. -/
theorem sam_req_rddma_inflight_bound (priv : sam_usbdev_s) (i : Nat) (r : sam_req_s)
    (rest : List sam_req_s) (hq : (priv.eplist i).queue = r :: rest)
    (hlen : r.len < 65536) (hc : r.xfrd + r.inflight ≤ r.len) :
    ∃ r', ((sam_req_rddma priv i r).1.eplist i).queue = r' :: rest
      ∧ r'.len = r.len ∧ r'.xfrd + r'.inflight ≤ r'.len := by
  unfold sam_req_rddma
  by_cases hst : (priv.eplist i).epstate ≠ sam_epstate_e.IDLE
  · rw [if_pos hst]
    exact ⟨r, hq, rfl, hc⟩
  · rw [if_neg hst]
    simp only [Nat.cast_zero, sub_zero]
    by_cases hpos : (r.len : Int) > 0
    · simp only [hpos, if_true]
      refine ⟨{ r with xfrd := 0, inflight := (r.len : Int).toNat % 65536 }, ?_, rfl, ?_⟩
      · simp [sam_dma_single, sam_ep_s.sethead, hq]
      · simp only
        omega
    · simp only [hpos, if_false]
      refine ⟨{ r with xfrd := 0, inflight := 0 }, ?_, rfl, ?_⟩
      · simp [sam_ep_s.sethead, hq]
      · simp only
        omega

/-- The head request after `sam_req_rdnodma` has `xfrd + inflight ≤ len`. -/
theorem sam_req_rdnodma_inflight_bound (priv : sam_usbdev_s) (i : Nat) (r : sam_req_s)
    (rest : List sam_req_s) (p : Nat) (hq : (priv.eplist i).queue = r :: rest)
    (hlen : r.len < 65536) :
    ∃ r', ((sam_req_rdnodma priv i r p).1.eplist i).queue = r' :: rest
      ∧ r'.len = r.len ∧ r'.xfrd + r'.inflight ≤ r'.len := by
  obtain ⟨r', h1, _, h3, h4, h5, _⟩ := sam_req_rdnodma_head priv i r rest p hq
  refine ⟨r', h1, h3, ?_⟩
  rw [h4, h5, h3]
  omega

/-- The end-of-buffer branch of `sam_dma_interrupt` keeps
`xfrd + inflight ≤ len` for every residual count `c ≤ inflight`. -/
theorem sam_dma_interrupt_eob_inflight_bound (priv : sam_usbdev_s) (epno : Nat) (r : sam_req_s)
    (c : Nat) (hlen : r.len < 65536) (hc : r.xfrd + r.inflight ≤ r.len)
    (hcle : c ≤ r.inflight) :
    (sam_dma_interrupt_eob priv epno r c).2.len = r.len
    ∧ (sam_dma_interrupt_eob priv epno r c).2.xfrd
        + (sam_dma_interrupt_eob priv epno r c).2.inflight ≤ r.len := by
  have e1 : (((r.xfrd : Int) + ((r.inflight : Int) - (c : Int))) % 65536).toNat
      = r.xfrd + (r.inflight - c) := by omega
  have e2 : c % 65536 = c := Nat.mod_eq_of_lt (by omega)
  unfold sam_dma_interrupt_eob
  simp only [e1, e2]
  split
  · constructor
    · rfl
    · simp only
      omega
  · constructor
    · rfl
    · simp only
      omega

/-! ## The copy loops -/

/-- Reading back the byte that was stored. -/
theorem peek_poke_same (m : List Nat) (k v : Nat) : peek (poke m k v) k = v := by
  unfold peek poke
  split
  · rename_i h
    simp [List.getD_eq_getElem?_getD, List.getElem?_set, h]
  · rename_i h
    have hk : m.length ≤ k := not_lt.mp h
    have hlen : (m ++ List.replicate (k - m.length) 0).length = k := by simp; omega
    rw [List.getD_eq_getElem?_getD, List.getElem?_append_right (by omega)]
    simp [hlen]

/-- A store does not change the other bytes. -/
theorem peek_poke_ne (m : List Nat) (k v j : Nat) (h : j ≠ k) :
    peek (poke m k v) j = peek m j := by
  unfold peek poke
  split
  · simp [List.getD_eq_getElem?_getD, List.getElem?_set, Ne.symm h]
  · rename_i hk
    have hk : m.length ≤ k := not_lt.mp hk
    simp only [List.getD_eq_getElem?_getD]
    by_cases hj : j < m.length
    · rw [List.append_assoc, List.getElem?_append_left hj]
    · have hj : m.length ≤ j := not_lt.mp hj
      rw [List.getElem?_eq_none hj]
      by_cases hjk : j < k
      · rw [List.getElem?_append_left (by simp; omega),
          List.getElem?_append_right hj, List.getElem?_replicate]
        split <;> rfl
      · rw [List.getElem?_eq_none (by simp; omega)]

/-- The bytes after the copy loop: the `n` bytes from `dst` on are those of
the source, every other byte is unchanged. -/
theorem peek_copyin (n : Nat) :
    ∀ (m : List Nat) (dst : Nat) (src : List Nat) (k j : Nat),
      peek (copyin n m dst src k) j
        = if dst ≤ j ∧ j < dst + n then peek src (k + (j - dst)) else peek m j := by
  induction n with
  | zero =>
    intro m dst src k j
    rw [copyin, if_neg (by omega)]
  | succ n ih =>
    intro m dst src k j
    rw [copyin, ih]
    by_cases h1 : dst + 1 ≤ j ∧ j < dst + 1 + n
    · rw [if_pos h1, if_pos ⟨by omega, by omega⟩]
      congr 1
      omega
    · rw [if_neg h1]
      by_cases h2 : j = dst
      · subst h2
        rw [peek_poke_same, if_pos ⟨le_refl _, by omega⟩]
        simp
      · rw [peek_poke_ne _ _ _ _ h2, if_neg (by omega)]

/-- The length of the memory that the copy loop has touched. -/
theorem copyin_length (n : Nat) :
    ∀ (m : List Nat) (dst : Nat) (src : List Nat) (k : Nat), dst ≤ m.length →
      (copyin n m dst src k).length = max m.length (dst + n) := by
  induction n with
  | zero => intro m dst src k h; simp [copyin, h]
  | succ n ih =>
    intro m dst src k h
    rw [copyin]
    by_cases hd : dst < m.length
    · have hl : (poke m dst (peek src k)).length = m.length := by simp [poke, hd]
      rw [ih _ _ _ _ (by rw [hl]; omega), hl]
      omega
    · have hl : (poke m dst (peek src k)).length = m.length + 1 := by
        simp [poke, hd]; omega
      rw [ih _ _ _ _ (by rw [hl]; omega), hl]
      omega

/-! ## Packets of a transfer without DMA -/

/-- A conditional register write does not change what the registers read as. -/
theorem ite_putreg_regs (c : Prop) [Decidable c] (priv : sam_usbdev_s) (op : sam_hwop_e) :
    (if c then priv.putreg op else priv).regs = priv.regs := by
  split <;> rfl

/-- C27: `sam_req_rdnodma` on a request with `xfrd = x ≤ len` and a packet of
`p` bytes takes `r = MIN(len - x, p)` bytes and advances `xfrd` to `x + r`,
but it stores them at the buffer positions `x + r .. x + 2r - 1`: the
destination `req.buf + req.xfrd` is computed after `xfrd` was advanced.
Every position below `x + r`, in particular `x .. x + r - 1`, keeps its old
content, and so does every position from `x + 2r` on. -/
theorem sam_req_rdnodma_stores_after_new_xfrd (priv : sam_usbdev_s) (i : Nat) (r : sam_req_s)
    (rest : List sam_req_s) (p : Nat)
    (hq : (priv.eplist i).queue = r :: rest) (hx : r.xfrd ≤ r.len) (hlen : r.len < 65536) :
    ∃ r', ((sam_req_rdnodma priv i r p).1.eplist i).queue = r' :: rest
      ∧ r'.xfrd = r.xfrd + min (r.len - r.xfrd) p
      ∧ (∀ j, j < min (r.len - r.xfrd) p →
          peek r'.buf (r.xfrd + min (r.len - r.xfrd) p + j)
            = peek (priv.regs (USB_EPNO (priv.eplist i).eplog)).fifo j)
      ∧ (∀ k, k < r.xfrd + min (r.len - r.xfrd) p → peek r'.buf k = peek r.buf k)
      ∧ (∀ k, r.xfrd + 2 * min (r.len - r.xfrd) p ≤ k → peek r'.buf k = peek r.buf k) := by
  have hrl : (if (r.len : Int) - r.xfrd < (p : Int) then (r.len : Int) - r.xfrd else (p : Int))
      = ((min (r.len - r.xfrd) p : Nat) : Int) := by
    split <;> omega
  have hxf : ((((r.xfrd : Int) + ((min (r.len - r.xfrd) p : Nat) : Int)) % 65536).toNat)
      = r.xfrd + min (r.len - r.xfrd) p := by omega
  unfold sam_req_rdnodma
  simp only [hrl, hxf, Int.toNat_ofNat, sam_ep_s.sethead, hq, setep_eplist_same,
    ite_putreg_regs]
  refine ⟨{ r with
      inflight := 0, xfrd := r.xfrd + min (r.len - r.xfrd) p,
      buf := copyin (min (r.len - r.xfrd) p) r.buf (r.xfrd + min (r.len - r.xfrd) p)
        (priv.regs (USB_EPNO (priv.eplist i).eplog)).fifo 0 }, rfl, rfl, ?_, ?_, ?_⟩
  · intro j hj
    simp only [peek_copyin]
    rw [if_pos ⟨by omega, by omega⟩]
    congr 1
    omega
  · intro k hk
    simp only [peek_copyin]
    rw [if_neg (by omega)]
  · intro k hk
    simp only [peek_copyin]
    rw [if_neg (by omega)]

/-- Witness of C27: an 8-byte packet for an empty 8-byte request on the
non-DMA endpoint 8. -/
theorem sam_req_rdnodma_stores_after_new_xfrd_witness :
    ∃ r', ((sam_req_rdnodma dev_rx8 8 (mkreq 1 8 0) 8).1.eplist 8).queue = r' :: []
      ∧ r'.xfrd = (mkreq 1 8 0).xfrd + min ((mkreq 1 8 0).len - (mkreq 1 8 0).xfrd) 8
      ∧ (∀ j, j < min ((mkreq 1 8 0).len - (mkreq 1 8 0).xfrd) 8 →
          peek r'.buf ((mkreq 1 8 0).xfrd + min ((mkreq 1 8 0).len - (mkreq 1 8 0).xfrd) 8 + j)
            = peek (dev_rx8.regs (USB_EPNO (dev_rx8.eplist 8).eplog)).fifo j)
      ∧ (∀ k, k < (mkreq 1 8 0).xfrd + min ((mkreq 1 8 0).len - (mkreq 1 8 0).xfrd) 8 →
          peek r'.buf k = peek (mkreq 1 8 0).buf k)
      ∧ (∀ k, (mkreq 1 8 0).xfrd + 2 * min ((mkreq 1 8 0).len - (mkreq 1 8 0).xfrd) 8 ≤ k →
          peek r'.buf k = peek (mkreq 1 8 0).buf k) :=
  sam_req_rdnodma_stores_after_new_xfrd dev_rx8 8 (mkreq 1 8 0) [] 8
    (by simp [dev_rx8, sam_usbdev_s.hwevent, mkep]) (by decide) (by decide)

/-- The example of C27 evaluated: the eight bytes of the packet end up behind
the eight bytes of the request buffer, which stay zero. -/
theorem sam_req_rdnodma_example :
    (((sam_req_rdnodma dev_rx8 8 (mkreq 1 8 0) 8).1.eplist 8).queue.map (fun r => r.buf))
      = [[0, 0, 0, 0, 0, 0, 0, 0, 1, 2, 3, 4, 5, 6, 7, 8]] := by
  decide

/-- C28: `sam_req_wrnodma` on the head request `r` (with `xfrd + inflight ≤
len`) of an endpoint with max-packet size `m` returns `OK`.  With
`b = len - xfrd - inflight > 0` bytes left and `n = MIN(m, b)`: `inflight`
grows by `n`, the bytes written to the FIFO are the buffer positions
`xfrd + inflight .. xfrd + inflight + n - 1`, the endpoint is `SENDING`,
and `txnullpkt` is set exactly when `b - n = 0`, `n = m` and the request has
the NULLPKT flag.  With `b = 0` the request and the trace of FIFO accesses
are unchanged and `txnullpkt` is cleared. -/
theorem sam_req_wrnodma_packet (priv : sam_usbdev_s) (i : Nat) (r : sam_req_s)
    (rest : List sam_req_s)
    (hq : (priv.eplist i).queue = r :: rest)
    (hlen : r.len < 65536)
    (hc : r.xfrd + r.inflight ≤ r.len) :
    (sam_req_wrnodma priv i r).2 = OK
    ∧ (0 < r.len - r.xfrd - r.inflight →
        ((sam_req_wrnodma priv i r).1.eplist i).queue
          = { r with
              inflight := r.inflight
                + min (priv.eplist i).maxpacket (r.len - r.xfrd - r.inflight) } :: rest
        ∧ (sam_req_wrnodma priv i r).1.hw
          = priv.hw ++ [sam_hwop_e.fifo_write (USB_EPNO (priv.eplist i).eplog)
              (copyout r.buf (r.xfrd + r.inflight)
                (min (priv.eplist i).maxpacket (r.len - r.xfrd - r.inflight)))]
        ∧ ((sam_req_wrnodma priv i r).1.eplist i).epstate = sam_epstate_e.SENDING
        ∧ (((sam_req_wrnodma priv i r).1.eplist i).txnullpkt = true
            ↔ (r.len - r.xfrd - r.inflight
                  - min (priv.eplist i).maxpacket (r.len - r.xfrd - r.inflight) = 0
                ∧ min (priv.eplist i).maxpacket (r.len - r.xfrd - r.inflight)
                  = (priv.eplist i).maxpacket
                ∧ r.flags &&& USBDEV_REQFLAGS_NULLPKT ≠ 0)))
    ∧ (r.len - r.xfrd - r.inflight = 0 →
        ((sam_req_wrnodma priv i r).1.eplist i).queue = r :: rest
        ∧ (sam_req_wrnodma priv i r).1.hw = priv.hw
        ∧ ((sam_req_wrnodma priv i r).1.eplist i).epstate = (priv.eplist i).epstate
        ∧ ((sam_req_wrnodma priv i r).1.eplist i).txnullpkt = false) := by
  set m := (priv.eplist i).maxpacket with hmdef
  set b := r.len - r.xfrd - r.inflight with hbdef
  have hbl : (r.len : Int) - ((r.xfrd : Int) + (r.inflight : Int)) = (b : Int) := by omega
  refine ⟨?_, ?_, ?_⟩
  · unfold sam_req_wrnodma
    simp only [hbl]
    split <;> rfl
  · intro hb
    have hpos : (b : Int) > 0 := by omega
    unfold sam_req_wrnodma
    simp only [hbl, hpos, if_true, ← hmdef]
    by_cases hfull : m ≤ b
    · have hf : ((b : Int) ≥ (m : Int)) := by omega
      have hmin : min m b = m := min_eq_left hfull
      simp only [hf, decide_True, if_true, Bool.true_and, hmin, Int.toNat_ofNat,
        Int.add_def]
      have hinf : (r.inflight + m) % 65536 = r.inflight + m := Nat.mod_eq_of_lt (by omega)
      have hco : ((r.xfrd : Int) + (r.inflight : Int)).toNat = r.xfrd + r.inflight := by omega
      refine ⟨?_, ?_, ?_, ?_⟩
      · simp [sam_ep_s.sethead, hq, hinf, apply_ite]
      · simp [hco]
      · simp [sam_ep_s.sethead, hq, apply_ite]
      · by_cases hbm : b = m
        · by_cases hfl : r.flags &&& USBDEV_REQFLAGS_NULLPKT = 0
          · simp [sam_ep_s.sethead, hq, hbm, hfl]
          · simp [sam_ep_s.sethead, hq, hbm, hfl]
        · have hne : ¬ ((b : Int) = (m : Int)) := by omega
          have hsub : ¬ (b - m = 0) := by omega
          simp [sam_ep_s.sethead, hq, hne, hsub]
    · have hf : ¬ ((b : Int) ≥ (m : Int)) := by omega
      have hmin : min m b = b := min_eq_right (by omega)
      simp only [hf, decide_False, if_false, Bool.false_and, hmin, Int.toNat_ofNat,
        Bool.false_eq_true]
      have hinf : (r.inflight + b) % 65536 = r.inflight + b := Nat.mod_eq_of_lt (by omega)
      have hco : ((r.xfrd : Int) + (r.inflight : Int)).toNat = r.xfrd + r.inflight := by omega
      have hbm : b ≠ m := by omega
      refine ⟨?_, ?_, ?_, ?_⟩
      · simp [sam_ep_s.sethead, hq, hinf]
      · simp [hco]
      · simp [sam_ep_s.sethead, hq]
      · simp [sam_ep_s.sethead, hq, hbm]
  · intro hb
    have hpos : ¬ ((b : Int) > 0) := by omega
    unfold sam_req_wrnodma
    simp only [hbl, hpos, if_false]
    simp [hq]

/-- Witness of C28: the first packet of an 8-byte request on the non-DMA IN
endpoint 8 with max-packet size 64. -/
theorem sam_req_wrnodma_packet_witness :
    (sam_req_wrnodma dev_sending 8 (mkreq 1 8 0)).2 = OK
    ∧ (0 < (mkreq 1 8 0).len - (mkreq 1 8 0).xfrd - (mkreq 1 8 0).inflight →
        ((sam_req_wrnodma dev_sending 8 (mkreq 1 8 0)).1.eplist 8).queue
          = { mkreq 1 8 0 with
              inflight := (mkreq 1 8 0).inflight
                + min (dev_sending.eplist 8).maxpacket
                    ((mkreq 1 8 0).len - (mkreq 1 8 0).xfrd - (mkreq 1 8 0).inflight) }
            :: [mkreq 2 8 0]
        ∧ (sam_req_wrnodma dev_sending 8 (mkreq 1 8 0)).1.hw
          = dev_sending.hw ++ [sam_hwop_e.fifo_write (USB_EPNO (dev_sending.eplist 8).eplog)
              (copyout (mkreq 1 8 0).buf ((mkreq 1 8 0).xfrd + (mkreq 1 8 0).inflight)
                (min (dev_sending.eplist 8).maxpacket
                  ((mkreq 1 8 0).len - (mkreq 1 8 0).xfrd - (mkreq 1 8 0).inflight)))]
        ∧ ((sam_req_wrnodma dev_sending 8 (mkreq 1 8 0)).1.eplist 8).epstate
          = sam_epstate_e.SENDING
        ∧ (((sam_req_wrnodma dev_sending 8 (mkreq 1 8 0)).1.eplist 8).txnullpkt = true
            ↔ ((mkreq 1 8 0).len - (mkreq 1 8 0).xfrd - (mkreq 1 8 0).inflight
                  - min (dev_sending.eplist 8).maxpacket
                      ((mkreq 1 8 0).len - (mkreq 1 8 0).xfrd - (mkreq 1 8 0).inflight) = 0
                ∧ min (dev_sending.eplist 8).maxpacket
                    ((mkreq 1 8 0).len - (mkreq 1 8 0).xfrd - (mkreq 1 8 0).inflight)
                  = (dev_sending.eplist 8).maxpacket
                ∧ (mkreq 1 8 0).flags &&& USBDEV_REQFLAGS_NULLPKT ≠ 0)))
    ∧ ((mkreq 1 8 0).len - (mkreq 1 8 0).xfrd - (mkreq 1 8 0).inflight = 0 →
        ((sam_req_wrnodma dev_sending 8 (mkreq 1 8 0)).1.eplist 8).queue
          = mkreq 1 8 0 :: [mkreq 2 8 0]
        ∧ (sam_req_wrnodma dev_sending 8 (mkreq 1 8 0)).1.hw = dev_sending.hw
        ∧ ((sam_req_wrnodma dev_sending 8 (mkreq 1 8 0)).1.eplist 8).epstate
          = (dev_sending.eplist 8).epstate
        ∧ ((sam_req_wrnodma dev_sending 8 (mkreq 1 8 0)).1.eplist 8).txnullpkt = false) :=
  sam_req_wrnodma_packet dev_sending 8 (mkreq 1 8 0) [mkreq 2 8 0]
    (by simp [dev_sending, mkep]) (by decide) (by decide)

/-! ## The assertion of `sam_req_complete` -/

/-- A conditional register write does not touch the list of violated
assertions. -/
theorem ite_putreg_failed (c : Prop) [Decidable c] (priv : sam_usbdev_s) (op : sam_hwop_e) :
    (if c then priv.putreg op else priv).failed = priv.failed := by
  split <;> rfl

/-- What `sam_req_complete` adds to the list of violated assertions when it
removes a request: nothing if the endpoint is `RECEIVING` or `SENDING`, the
site `req_complete_state` otherwise. -/
theorem sam_req_complete_failed (priv : sam_usbdev_s) (i : Nat) (result : Int)
    (r : sam_req_s) (rest : List sam_req_s) (h : (priv.eplist i).queue = r :: rest) :
    (sam_req_complete priv i result).failed
      = priv.failed ++
          (if (priv.eplist i).epstate = sam_epstate_e.RECEIVING
              ∨ (priv.eplist i).epstate = sam_epstate_e.SENDING then []
           else [sam_assert_e.req_complete_state]) := by
  unfold sam_req_complete
  simp only [sam_req_dequeue, h]
  by_cases hs : (priv.eplist i).epstate = sam_epstate_e.RECEIVING
      ∨ (priv.eplist i).epstate = sam_epstate_e.SENDING
  · rw [if_pos hs]
    rcases hs with hs | hs <;> simp [sam_usbdev_s.debugassert, hs]
  · rw [if_neg hs]
    have h1 : (priv.eplist i).epstate ≠ sam_epstate_e.RECEIVING := fun h => hs (Or.inl h)
    have h2 : (priv.eplist i).epstate ≠ sam_epstate_e.SENDING := fun h => hs (Or.inr h)
    simp [sam_usbdev_s.debugassert, h1, h2]

/-- On an `IDLE` endpoint every pass of the loop of `sam_req_cancel` violates
the assertion of `sam_req_complete`. -/
theorem sam_req_cancel_loop_failed_idle (q : List sam_req_s) :
    ∀ (n : Nat) (priv : sam_usbdev_s) (i : Nat), (priv.eplist i).queue = q →
      (priv.eplist i).epstate = sam_epstate_e.IDLE → q.length ≤ n →
      (sam_req_cancel_loop n priv i).failed
        = priv.failed ++ List.replicate q.length sam_assert_e.req_complete_state := by
  induction q with
  | nil =>
    intro n priv i h _ _
    cases n with
    | zero => simp [sam_req_cancel_loop]
    | succ n => simp [sam_req_cancel_loop, sam_rqempty, h]
  | cons r rest ih =>
    intro n priv i h hst hn
    cases n with
    | zero => simp at hn
    | succ n =>
      have hc := sam_req_complete_cons priv i (-ESHUTDOWN) r rest h
      have hf := sam_req_complete_failed priv i (-ESHUTDOWN) r rest h
      have hq : ((sam_req_complete priv i (-ESHUTDOWN)).eplist i).queue = rest := by
        rw [hc.2]
      have hst' : ((sam_req_complete priv i (-ESHUTDOWN)).eplist i).epstate
          = sam_epstate_e.IDLE := by
        rw [hc.2]
      have hne : sam_rqempty (priv.eplist i) = false := by simp [sam_rqempty, h]
      simp only [sam_req_cancel_loop, hne, Bool.not_false, if_true]
      rw [ih n _ i hq hst' (by simpa using hn), hf, hst]
      simp [List.replicate_succ]

/-- C29: the assertion of `sam_req_complete` (endpoint `RECEIVING` or
`SENDING` when a request is removed) does not hold on every call path.
`sam_req_complete` itself leaves the endpoint `IDLE`, so in `sam_req_cancel`
on a queue of two or more requests every pass after the first violates the
assertion; and `sam_req_read` on a non-DMA endpoint sets the endpoint `IDLE`
before it completes the head request, so that completion violates it for
every endpoint state. -/
theorem sam_req_complete_assertion_violated (priv : sam_usbdev_s) (i : Nat)
    (r1 r2 : sam_req_s) (rest : List sam_req_s) (pktsize : Nat)
    (hq : (priv.eplist i).queue = r1 :: r2 :: rest) :
    (sam_req_cancel priv i).failed
      = priv.failed ++
          (if (priv.eplist i).epstate = sam_epstate_e.RECEIVING
              ∨ (priv.eplist i).epstate = sam_epstate_e.SENDING then []
           else [sam_assert_e.req_complete_state])
          ++ List.replicate (rest.length + 1) sam_assert_e.req_complete_state
    ∧ sam_assert_e.req_complete_state ∈ (sam_req_cancel priv i).failed
    ∧ (sam_ep_isdma (USB_EPNO (priv.eplist i).eplog) = false →
        0 < (priv.eplist i).maxpacket → 0 < r1.len →
        (sam_req_read priv i pktsize).1.failed
          = priv.failed ++ [sam_assert_e.req_complete_state]) := by
  have hcancel : (sam_req_cancel priv i).failed
      = priv.failed ++
          (if (priv.eplist i).epstate = sam_epstate_e.RECEIVING
              ∨ (priv.eplist i).epstate = sam_epstate_e.SENDING then []
           else [sam_assert_e.req_complete_state])
          ++ List.replicate (rest.length + 1) sam_assert_e.req_complete_state := by
    unfold sam_req_cancel
    simp only [putreg_eplist, hq, List.length_cons]
    set p0 := priv.putreg (sam_hwop_e.ien_clr_dma (USB_EPNO (priv.eplist i).eplog)) with hp0
    have hq0 : (p0.eplist i).queue = r1 :: r2 :: rest := by simp [hp0, hq]
    have hc := sam_req_complete_cons p0 i (-ESHUTDOWN) r1 (r2 :: rest) hq0
    have hf := sam_req_complete_failed p0 i (-ESHUTDOWN) r1 (r2 :: rest) hq0
    have hne : sam_rqempty (p0.eplist i) = false := by simp [sam_rqempty, hq0]
    have hloop : sam_req_cancel_loop (rest.length + 1 + 1) p0 i
        = sam_req_cancel_loop (rest.length + 1) (sam_req_complete p0 i (-ESHUTDOWN)) i := by
      simp only [sam_req_cancel_loop, hne, Bool.not_false, if_true]
    rw [hloop, sam_req_cancel_loop_failed_idle (r2 :: rest) (rest.length + 1) _ i
      (by rw [hc.2]) (by rw [hc.2]) (by simp), hf]
    simp [hp0]
  refine ⟨hcancel, ?_, ?_⟩
  · rw [hcancel]
    simp [List.replicate_succ]
  · intro hdma hm hlen
    obtain ⟨r', h1, h2, h3, h4, h5, h6, h7, h8, h9⟩ :=
      sam_req_rdnodma_head priv i r1 (r2 :: rest) pktsize hq
    have hlen' : r1.len ≠ 0 := Nat.pos_iff_ne_zero.mp hlen
    have hfail : (sam_req_rdnodma priv i r1 pktsize).1.failed = priv.failed := by
      unfold sam_req_rdnodma
      simp only [setep_failed, ite_putreg_failed]
    unfold sam_req_read
    simp only [sam_rqpeek, hq, List.head?_cons, hlen', if_false, hdma, Bool.false_eq_true, h6,
      if_true, h1, h4, h7, hm, decide_True, Bool.true_or]
    set p1 := (sam_req_rdnodma priv i r1 pktsize).1 with hp1
    set p2 := p1.putreg (sam_hwop_e.eptctldis_rxrdytxkl (USB_EPNO (priv.eplist i).eplog))
      with hp2
    set p3 := (if (p2.regs (USB_EPNO (priv.eplist i).eplog)).cfg_type ≠ 0 then
        p2.putreg (sam_hwop_e.ien_clr_ept (USB_EPNO (priv.eplist i).eplog)) else p2) with hp3
    have e3 : p3.eplist = p1.eplist := by
      rw [hp3]; split <;> simp [hp2]
    have f3 : p3.failed = priv.failed := by
      rw [hp3]; split <;> simp [hp2, hfail]
    have hq4 : ((p3.setep i { p3.eplist i with epstate := sam_epstate_e.IDLE }).eplist i).queue
        = r' :: r2 :: rest := by
      simp [e3, h1]
    rw [sam_req_complete_failed _ i OK r' (r2 :: rest) hq4]
    simp [f3]

/-- Witness of C29: `sam_req_cancel` and `sam_req_read` on the non-DMA OUT
endpoint 8 in the `RECEIVING` state with two requests queued. -/
theorem sam_req_complete_assertion_violated_witness :
    (sam_req_cancel dev_receiving 8).failed
      = dev_receiving.failed ++
          (if (dev_receiving.eplist 8).epstate = sam_epstate_e.RECEIVING
              ∨ (dev_receiving.eplist 8).epstate = sam_epstate_e.SENDING then []
           else [sam_assert_e.req_complete_state])
          ++ List.replicate (([] : List sam_req_s).length + 1) sam_assert_e.req_complete_state
    ∧ sam_assert_e.req_complete_state ∈ (sam_req_cancel dev_receiving 8).failed
    ∧ (sam_ep_isdma (USB_EPNO (dev_receiving.eplist 8).eplog) = false →
        0 < (dev_receiving.eplist 8).maxpacket → 0 < (mkreq 1 8 0).len →
        (sam_req_read dev_receiving 8 8).1.failed
          = dev_receiving.failed ++ [sam_assert_e.req_complete_state]) :=
  sam_req_complete_assertion_violated dev_receiving 8 (mkreq 1 8 0) (mkreq 2 8 0) [] 8
    (by simp [dev_receiving, mkep])

/-! ## The scratch buffer of endpoint 0 -/

/-- C30: when the RX-ready branch of `sam_ep_interrupt` runs on endpoint 0 in
a state other than `RECEIVING` and `EP0DATAOUT`, it copies `ctrl.len` bytes
(the 16-bit length field of the stored SETUP packet, not bounded by
anything) from the FIFO into `ep0out` before it calls `sam_ep0_setup`.
With `ctrl.len > 64` the copy runs past the 64 bytes of `ep0out`: all
`ctrl.len` bytes of the FIFO window are stored from `ep0out[0]` on. -/
theorem sam_ep_interrupt_rxrdy_overruns_ep0out (fuel : Nat) (priv : sam_usbdev_s)
    (hst1 : (priv.eplist EP0).epstate ≠ sam_epstate_e.RECEIVING)
    (hst2 : (priv.eplist EP0).epstate ≠ sam_epstate_e.EP0DATAOUT)
    (h1 : (priv.regs EP0).eptctl_txrdy = false)
    (h3 : (priv.regs EP0).sta_rxrdytxkl = true)
    (h4 : (priv.regs EP0).sta_stallsnt = false)
    (h5 : (priv.regs EP0).sta_rxsetup = false)
    (hbuf : priv.ep0out.length = SAM_EP0_MAXPACKET)
    (hlen : SAM_EP0_MAXPACKET < priv.ctrl.len) :
    ∃ p, sam_ep_interrupt fuel priv EP0 = sam_ep0_setup fuel p
      ∧ p.hw = priv.hw ++ [sam_hwop_e.fifo_read 0 priv.ctrl.len]
      ∧ p.ep0out = copyin priv.ctrl.len priv.ep0out 0 (priv.regs 0).fifo 0
      ∧ p.ep0out.length = priv.ctrl.len
      ∧ SAM_EP0_MAXPACKET < p.ep0out.length
      ∧ ∀ j, j < priv.ctrl.len → peek p.ep0out j = peek (priv.regs 0).fifo j := by
  have hpos : priv.ctrl.len > 0 := by omega
  have hcl : (copyin priv.ctrl.len priv.ep0out 0 (priv.regs 0).fifo 0).length
      = priv.ctrl.len := by
    rw [copyin_length _ _ _ _ _ (Nat.zero_le _), hbuf]
    simp only [SAM_EP0_MAXPACKET] at hlen ⊢
    omega
  refine ⟨((sam_ep0_read_ep0out
      (((priv.debugassert (decide (EP0 < SAM_UDPHS_NENDPOINTS))
          sam_assert_e.ep_interrupt_epno).debugassert
            (sam_rqpeek (priv.eplist EP0)).isSome sam_assert_e.ep_interrupt_privreq).debugassert
        (decide (priv.ctrl.len > 0) && priv.ctrl.len == (priv.regs EP0).sta_bytecnt)
        sam_assert_e.ep_interrupt_ep0len) priv.ctrl.len).setep EP0
      { priv.eplist EP0 with epstate := sam_epstate_e.IDLE }), ?_, ?_, ?_, ?_, ?_, ?_⟩
  · unfold sam_ep_interrupt
    simp only [debugassert_regs, debugassert_eplist, h1, h3, h4, h5, Bool.false_and,
      Bool.false_eq_true, if_false, if_true, hst1, hst2, ne_eq, not_false_eq_true,
      debugassert_ctrl]
    have he : ∀ (p : sam_usbdev_s), (sam_ep0_read_ep0out p priv.ctrl.len).eplist = p.eplist := by
      intro p
      unfold sam_ep0_read_ep0out
      split <;> rfl
    simp only [he, debugassert_eplist]
    cases sam_ep0_setup fuel _ <;> rfl
  · simp [sam_ep0_read_ep0out, hpos]
  · simp [sam_ep0_read_ep0out, hpos, EP0]
  · simp only [setep_ep0out]
    simp only [sam_ep0_read_ep0out, hpos, if_true, putreg_ep0out, putreg_regs,
      debugassert_ep0out, debugassert_regs]
    exact hcl
  · simp only [setep_ep0out]
    simp only [sam_ep0_read_ep0out, hpos, if_true, putreg_ep0out, putreg_regs,
      debugassert_ep0out, debugassert_regs]
    rw [hcl]
    exact hlen
  · intro j hj
    simp only [setep_ep0out]
    simp only [sam_ep0_read_ep0out, hpos, if_true, putreg_ep0out, putreg_regs,
      debugassert_ep0out, debugassert_regs, peek_copyin]
    rw [if_pos ⟨Nat.zero_le _, by omega⟩]
    simp

/-- Witness of C30: endpoint 0 is `IDLE` after GET_DESCRIPTOR with the length
field 255 was answered, and the host sends the zero-length status packet. -/
theorem sam_ep_interrupt_rxrdy_overruns_ep0out_witness :
    ∃ p, sam_ep_interrupt 10 dev_statusout EP0 = sam_ep0_setup 10 p
      ∧ p.hw = dev_statusout.hw ++ [sam_hwop_e.fifo_read 0 dev_statusout.ctrl.len]
      ∧ p.ep0out = copyin dev_statusout.ctrl.len dev_statusout.ep0out 0
          (dev_statusout.regs 0).fifo 0
      ∧ p.ep0out.length = dev_statusout.ctrl.len
      ∧ SAM_EP0_MAXPACKET < p.ep0out.length
      ∧ ∀ j, j < dev_statusout.ctrl.len →
          peek p.ep0out j = peek (dev_statusout.regs 0).fifo j :=
  sam_ep_interrupt_rxrdy_overruns_ep0out 10 dev_statusout
    (by simp [dev_statusout, sam_usbdev_s.hwevent, mkep])
    (by simp [dev_statusout, sam_usbdev_s.hwevent, mkep])
    rfl rfl rfl rfl (by decide) (by decide)

end Udphs
